import Mathlib

/-!
ProxiMO-GDR: terminal relay and login broker

A shallow embedding of `backend/src/services/terminalService.js` and of
`backend/src/controllers/authController.js`.

JavaScript strings that are only stored or compared are Lean `String`s; the
line buffer of a relay session, which the code splits, trims and matches
against a regular expression, is a `List Char`.  Objects owned by libraries
(the WebSocket of a client, the `ssh2` client of a device) are handles
(`Nat`), and what the code does to them is recorded in the `World`.
Collaborators whose code is outside the repository (token verification, the
ORM lookups, the clock, calls that may throw) are fields of `Env`.
-/

namespace ProxiMO

/-! ## Data model -/

/-- Row of the `Users` table (`database/models/user.js`), the fields the relay
and the login read or write.  `password` is the stored hash. -/
structure User where
  id : Nat
  username : String
  password : String
  fullName : String
  email : Option String
  isActive : Bool
  isLdapUser : Bool
  lastLogin : Option Nat
  groupId : Option Nat
  deriving DecidableEq, Repr

/-- Row of the `Devices` table, the fields the relay reads. -/
structure Device where
  id : Nat
  name : String
  ipAddress : String
  port : Option Nat
  status : String
  supportsSsh : Bool
  supportsTelnet : Bool
  deriving DecidableEq, Repr

/-- Argument of `AccessLog.create`. -/
structure AccessLogEntry where
  userId : Option Nat
  deviceId : Option Nat
  ipAddress : String
  accessType : String
  status : String
  details : String
  deriving DecidableEq, Repr

/-- Argument of `CommandLog.create` in `logCommand`. -/
structure CommandRecord where
  userId : Nat
  deviceId : Nat
  command : List Char
  executedAt : Nat
  deriving DecidableEq, Repr

/-- Value stored in `this.connections` (terminalService.js, lines 100-109).
`ws` and `client` are handles of the WebSocket and of the `ssh2` client. -/
structure ConnectionInfo where
  ws : Nat
  user : User
  device : Device
  protocol : String
  accessLogId : Nat
  startTime : Nat
  buffer : List Char
  client : Option Nat
  deriving DecidableEq, Repr

/-- Frame written on the client channel with `ws.send(JSON.stringify(..))`. -/
inductive Frame where
  | error (message : String)
  | info (message : String)
  | data (data : List Char)
  deriving DecidableEq, Repr

/-- Argument of `conn.connect` in `handleSshConnection`, with the handle of the
`new Client()` it is called on. -/
structure SshConnect where
  client : Nat
  host : String
  port : Nat
  username : String
  deriving DecidableEq, Repr

/-- Argument list of `tacacsService.logCommand` as called by the relay. -/
structure TacacsAccounting where
  username : String
  deviceIp : String
  command : List Char
  deriving DecidableEq, Repr

/-- The relay service (`this.connections`, a JavaScript `Map` in insertion
order) together with a record of every effect the service had on its
collaborators. -/
structure World where
  connections : List (String × ConnectionInfo)
  accessLogs : List AccessLogEntry
  commandLogs : List CommandRecord
  tacacsLogs : List TacacsAccounting
  sent : List (Nat × Frame)
  wsClosed : List Nat
  sshConnects : List SshConnect
  sshEnded : List Nat
  errorLog : List String
  deriving DecidableEq, Repr

/-- Collaborators of the relay that are not code of the service. -/
structure Env where
  /-- Result of `jwt.verify(token, secret)`: the decoded `id`, `none` when it throws. -/
  jwtVerify : String → Option Nat
  /-- Lookup `User.findByPk`. -/
  findUser : Nat → Option User
  /-- Lookup `Device.findByPk`. -/
  findDevice : String → Option Device
  /-- Clock: `Date.now()` and `new Date()`, in milliseconds. -/
  now : Nat
  /-- Method `String.prototype.toUpperCase`. -/
  toUpperCase : String → String
  /-- Whether `client.end()` throws on the `ssh2` client with this handle. -/
  clientEndThrows : Nat → Bool
  /-- Whether `AccessLog.create` rejects for this entry. -/
  accessLogCreateThrows : AccessLogEntry → Bool
  /-- Whether `ws.readyState === WebSocket.OPEN` for this socket. -/
  wsOpen : Nat → Bool
  /-- Whether `ws.close()` throws on this socket. -/
  wsCloseThrows : Nat → Bool
  /-- Flag `tacacsService.isInitialized`. -/
  tacacsInitialized : Bool
  /-- Text `error.message` of an error thrown by a collaborator. -/
  errorMessage : String

/-- The service right after `new TerminalService()`. -/
def World.empty : World :=
  ⟨[], [], [], [], [], [], [], [], []⟩

/-! ## The `connections` map -/

/-- Method `Map.prototype.get`. -/
def mapGet (m : List (String × ConnectionInfo)) (k : String) : Option ConnectionInfo :=
  match m with
  | [] => none
  | (k', v) :: rest => if k' = k then some v else mapGet rest k

/-- Method `Map.prototype.set`: an existing key keeps its place, a new key goes last. -/
def mapSet (m : List (String × ConnectionInfo)) (k : String) (v : ConnectionInfo) :
    List (String × ConnectionInfo) :=
  match m with
  | [] => [(k, v)]
  | (k', v') :: rest => if k' = k then (k, v) :: rest else (k', v') :: mapSet rest k v

/-- Method `Map.prototype.delete`. -/
def mapDelete (m : List (String × ConnectionInfo)) (k : String) :
    List (String × ConnectionInfo) :=
  match m with
  | [] => []
  | (k', v') :: rest => if k' = k then rest else (k', v') :: mapDelete rest k

/-- A `Map` holds each key once. -/
abbrev MapWF (m : List (String × ConnectionInfo)) : Prop :=
  (m.map Prod.fst).Nodup

/-! ## World updates used by the handlers -/

/-- Call `ws.send(JSON.stringify(frame))`. -/
def World.send (w : World) (ws : Nat) (f : Frame) : World :=
  { w with sent := w.sent ++ [(ws, f)] }

/-- Call `ws.close()`. -/
def World.close (w : World) (ws : Nat) : World :=
  { w with wsClosed := w.wsClosed ++ [ws] }

/-- Error branch of the handshake: `ws.send(error); ws.close(); return`. -/
def World.reject (w : World) (ws : Nat) (message : String) : World :=
  (w.send ws (Frame.error message)).close ws

/-! ## Handshake (terminalService.js, lines 19-127) -/

/-- Query string of the relay request and the socket it arrived on. -/
structure Request where
  ws : Nat
  token : Option String
  deviceId : Option String
  protocol : Option String
  remoteAddress : String
  deriving DecidableEq, Repr

/-- Value of `x || d` for a string that may be absent: JavaScript takes the
default for `null` and for the empty string. -/
def orDefault (x : Option String) (d : String) : String :=
  match x with
  | none => d
  | some s => if s = "" then d else s

/-- Value of `!x` for a string that may be absent. -/
def falsy (x : Option String) : Bool :=
  match x with
  | none => true
  | some s => s = ""

/-- The session identifier of line 74. -/
def sessionIdOf (user : User) (device : Device) (now : Nat) : String :=
  toString user.id ++ "_" ++ toString device.id ++ "_" ++ toString now

/-- Value of `device.port || 22`: the default is taken for `null` and for 0. -/
def portOrDefault (port : Option Nat) : Nat :=
  match port with
  | none => 22
  | some 0 => 22
  | some p => p

/-- Body of `handleSshConnection` up to `conn.connect` (lines 133-140 and
232-251): a fresh client is made, stored in the session record if the map has
one for `sessionId`, and connected.  The handle of the fresh client is the
number of clients made so far. -/
def handleSshConnection (w : World) (user : User) (device : Device) (sessionId : String) :
    World :=
  let conn := w.sshConnects.length
  let conns :=
    match mapGet w.connections sessionId with
    | some connectionInfo => mapSet w.connections sessionId { connectionInfo with client := some conn }
    | none => w.connections
  { w with
    connections := conns
    sshConnects := w.sshConnects ++ [⟨conn, device.ipAddress, portOrDefault device.port,
      user.username⟩] }

/-- Body of `handleTelnetConnection` (lines 255-263). -/
def handleTelnetConnection (w : World) (ws : Nat) : World :=
  w.send ws (Frame.error "Conexões Telnet ainda não estão implementadas completamente")

/-- Lines 73-109 of the connection handler, after every check has passed. -/
def acceptConnection (env : Env) (w : World) (req : Request) (user : User) (device : Device)
    (protocol : String) : World :=
  let sessionId := sessionIdOf user device env.now
  let entry : AccessLogEntry :=
    { userId := some user.id
      deviceId := some device.id
      ipAddress := req.remoteAddress
      accessType := "connect-" ++ protocol
      status := "success"
      details := "Conexão " ++ env.toUpperCase protocol ++ " iniciada para " ++ device.name
        ++ " (" ++ device.ipAddress ++ ")" }
  if env.accessLogCreateThrows entry then
    -- outer `catch` of the handler
    (w.send req.ws (Frame.error ("Erro interno do servidor: " ++ env.errorMessage))).close req.ws
  else
    let w1 := { w with accessLogs := w.accessLogs ++ [entry] }
    let accessLogId := w1.accessLogs.length
    let w2 := w1.send req.ws (Frame.info ("Conectando a " ++ device.name ++ " ("
      ++ device.ipAddress ++ ") via " ++ env.toUpperCase protocol ++ "..."))
    let w3 :=
      if protocol = "ssh" then handleSshConnection w2 user device sessionId
      else if protocol = "telnet" then handleTelnetConnection w2 req.ws
      else w2
    { w3 with
      connections := mapSet w3.connections sessionId
        { ws := req.ws, user := user, device := device, protocol := protocol,
          accessLogId := accessLogId, startTime := env.now, buffer := [], client := none } }

/-- The `connection` handler of the WebSocket server (lines 19-127). -/
def onConnection (env : Env) (w : World) (req : Request) : World :=
  let protocol := orDefault req.protocol "ssh"
  if falsy req.token || falsy req.deviceId then
    w.reject req.ws "Token ou ID do dispositivo não fornecido"
  else
    match env.jwtVerify (req.token.getD "") with
    | none => w.reject req.ws "Token inválido ou expirado"
    | some decodedId =>
      match env.findUser decodedId, env.findDevice (req.deviceId.getD "") with
      | some user, some device =>
        if device.status ≠ "online" then
          w.reject req.ws "O dispositivo não está online"
        else if protocol = "ssh" && !device.supportsSsh then
          w.reject req.ws "Este dispositivo não suporta SSH"
        else if protocol = "telnet" && !device.supportsTelnet then
          w.reject req.ws "Este dispositivo não suporta Telnet"
        else
          acceptConnection env w req user device protocol
      | _, _ => w.reject req.ws "Usuário ou dispositivo não encontrado"

/-! ## Teardown (lines 313-362) -/

/-- Value of `Math.round((new Date() - startTime) / 1000)`. -/
def durationSeconds (now startTime : Nat) : Int :=
  ((now : Int) - (startTime : Int) + 500) / 1000

/-- The closing audit entry of lines 326-333. -/
def closingEntry (env : Env) (connectionInfo : ConnectionInfo) (remoteAddress : String) :
    AccessLogEntry :=
  { userId := some connectionInfo.user.id
    deviceId := some connectionInfo.device.id
    ipAddress := remoteAddress
    accessType := "disconnect-" ++ connectionInfo.protocol
    status := "success"
    details := "Conexão " ++ env.toUpperCase connectionInfo.protocol ++ " encerrada para "
      ++ connectionInfo.device.name ++ " (duração: "
      ++ toString (durationSeconds env.now connectionInfo.startTime) ++ "s)" }

/-- Method `handleConnectionClose(sessionId)` (lines 313-343).  `remoteAddress` is
`connectionInfo.ws._socket.remoteAddress`.  The three actions sit in one `try`
block; the `catch` writes to the error log. -/
def handleConnectionClose (env : Env) (w : World) (sessionId : String)
    (remoteAddress : String) : World :=
  match mapGet w.connections sessionId with
  | none => w
  | some connectionInfo =>
    let failed (w' : World) : World :=
      { w' with errorLog := w'.errorLog ++ ["Erro ao fechar sessão " ++ sessionId] }
    -- `if (connectionInfo.client) connectionInfo.client.end()`
    let step1 : Except World World :=
      match connectionInfo.client with
      | none => Except.ok w
      | some c =>
        if env.clientEndThrows c then Except.error w
        else Except.ok { w with sshEnded := w.sshEnded ++ [c] }
    match step1 with
    | Except.error w' => failed w'
    | Except.ok w1 =>
      let entry := closingEntry env connectionInfo remoteAddress
      if env.accessLogCreateThrows entry then failed w1
      else
        let w2 := { w1 with accessLogs := w1.accessLogs ++ [entry] }
        { w2 with connections := mapDelete w2.connections sessionId }

/-- Body of the `try` block of one round of `closeAllConnections` (lines
348-357), with its `catch`. -/
def closeSession (env : Env) (w : World) (sessionId : String)
    (connectionInfo : ConnectionInfo) : World :=
  let failed (w' : World) : World :=
    { w' with errorLog := w'.errorLog ++ ["Erro ao encerrar sessão " ++ sessionId] }
  let step1 : Except World World :=
    match connectionInfo.client with
    | none => Except.ok w
    | some c =>
      if env.clientEndThrows c then Except.error w
      else Except.ok { w with sshEnded := w.sshEnded ++ [c] }
  match step1 with
  | Except.error w' => failed w'
  | Except.ok w1 =>
    if env.wsOpen connectionInfo.ws then
      if env.wsCloseThrows connectionInfo.ws then failed w1
      else w1.close connectionInfo.ws
    else w1

/-- Method `closeAllConnections()` (lines 346-362): one round per entry of
the map, in insertion order, then `this.connections.clear()`. -/
def closeAllConnections (env : Env) (w : World) : World :=
  let w' := w.connections.foldl (fun acc e => closeSession env acc e.1 e.2) w
  { w' with connections := [] }

/-! ## Command detection (lines 266-310) -/

/-- Characters of the class `[\r\n]`. -/
def isLineTerminator (c : Char) : Bool :=
  c == '\r' || c == '\n'

/-- Segments of `s.split(/[\r\n]+/)` for the text that follows, where `inRun`
says that the character just before was a terminator (the separator that is
being matched goes on).  A run of terminators is one separator; a separator at
either end of the text leaves an empty segment there. -/
def splitLinesFrom (inRun : Bool) : List Char → List (List Char)
  | [] => [[]]
  | c :: cs =>
    if isLineTerminator c then
      if inRun then splitLinesFrom true cs else [] :: splitLinesFrom true cs
    else
      match splitLinesFrom false cs with
      | [] => [[c]]
      | seg :: segs => (c :: seg) :: segs

/-- Value of `buffer.split(/[\r\n]+/)`. -/
def splitLines (buffer : List Char) : List (List Char) :=
  splitLinesFrom false buffer

/-- White space and line terminators of ECMAScript, the characters
`String.prototype.trim` strips. -/
def isJsWhitespace (c : Char) : Bool :=
  let n := c.toNat
  n == 0x9 || n == 0xA || n == 0xB || n == 0xC || n == 0xD || n == 0x20 || n == 0xA0
    || n == 0x1680 || (0x2000 ≤ n && n ≤ 0x200A) || n == 0x2028 || n == 0x2029
    || n == 0x202F || n == 0x205F || n == 0x3000 || n == 0xFEFF

/-- Method `String.prototype.trim`. -/
def jsTrim (s : List Char) : List Char :=
  ((s.dropWhile isJsWhitespace).reverse.dropWhile isJsWhitespace).reverse

/-- Test `trimmedLine.match(/^[#>\$\]%]/)`: the line begins with a prompt
character. -/
def matchesPrompt (trimmedLine : List Char) : Bool :=
  match trimmedLine with
  | [] => false
  | c :: _ => c == '#' || c == '>' || c == '$' || c == ']' || c == '%'

/-- Condition of line 280: `trimmedLine && !trimmedLine.match(..)`. -/
def looksLikeCommand (trimmedLine : List Char) : Bool :=
  !trimmedLine.isEmpty && !matchesPrompt trimmedLine

/-- What one call of `processCommandBuffer` did: the session record after
it, the arguments of `CommandLog.create` (through `logCommand`) and of
`tacacsService.logCommand`, each in call order. -/
structure Processed where
  connectionInfo : ConnectionInfo
  commandLogs : List CommandRecord
  tacacsLogs : List TacacsAccounting
  deriving DecidableEq, Repr

/-- Method `processCommandBuffer(connectionInfo)` (lines 266-296). -/
def processCommandBuffer (env : Env) (connectionInfo : ConnectionInfo) : Processed :=
  let lines := splitLines connectionInfo.buffer
  if lines.length > 1 then
    -- `connectionInfo.buffer = lines.pop()`
    let rest := lines.getLastD []
    let complete := lines.dropLast
    let commands := (complete.map jsTrim).filter looksLikeCommand
    { connectionInfo := { connectionInfo with buffer := rest }
      commandLogs := commands.map fun trimmedLine =>
        ⟨connectionInfo.user.id, connectionInfo.device.id, trimmedLine, env.now⟩
      tacacsLogs :=
        if env.tacacsInitialized then
          commands.map fun trimmedLine =>
            ⟨connectionInfo.user.username, connectionInfo.device.ipAddress, trimmedLine⟩
        else [] }
  else
    ⟨connectionInfo, [], []⟩

/-- Writes the outcome of `processCommandBuffer` back: the record in the map
is the object the method mutated. -/
def World.processed (w : World) (sessionId : String) (p : Processed) : World :=
  { w with
    connections := mapSet w.connections sessionId p.connectionInfo
    commandLogs := w.commandLogs ++ p.commandLogs
    tacacsLogs := w.tacacsLogs ++ p.tacacsLogs }

/-! ## Streaming handlers (lines 158-212) -/

/-- Handler `stream.on('data')` (lines 158-172) of the session `sessionId`
whose client socket is `ws`. -/
def onStreamData (env : Env) (w : World) (ws : Nat) (sessionId : String)
    (dataStr : List Char) : World :=
  let w1 := w.send ws (Frame.data dataStr)
  match mapGet w1.connections sessionId with
  | none => w1
  | some connectionInfo =>
    let connectionInfo := { connectionInfo with buffer := connectionInfo.buffer ++ dataStr }
    let w2 := { w1 with connections := mapSet w1.connections sessionId connectionInfo }
    if connectionInfo.buffer.any isLineTerminator then
      w2.processed sessionId (processCommandBuffer env connectionInfo)
    else w2

/-- Handler `stream.on('close')` (lines 174-177); `conn` is the `ssh2` client
the handler closes over. -/
def onStreamClose (w : World) (ws : Nat) (conn : Nat) : World :=
  let w1 := w.send ws (Frame.info "Sessão SSH encerrada pelo servidor remoto")
  { w1 with sshEnded := w1.sshEnded ++ [conn] }

/-- Handler `stream.on('error')` (lines 179-182). -/
def onStreamError (env : Env) (w : World) (ws : Nat) (conn : Nat) : World :=
  let w1 := w.send ws (Frame.error ("Erro no stream SSH: " ++ env.errorMessage))
  { w1 with sshEnded := w1.sshEnded ++ [conn] }

/-- Parsed client frame: `JSON.parse(message)`. -/
inductive ClientMessage where
  | data (data : List Char)
  | resize (rows cols height width : Nat)
  | other
  deriving DecidableEq, Repr

/-- Handler `ws.on('message')` (lines 185-212), as far as the session record
goes (`stream.write` and `stream.setWindow` act on the device only). -/
def onWsMessage (env : Env) (w : World) (sessionId : String) (msgObj : ClientMessage) :
    World :=
  match msgObj with
  | ClientMessage.data data =>
    -- `if (msgObj.data === '\r' || msgObj.data === '\n')`
    let w1 :=
      if data = ['\r'] ∨ data = ['\n'] then
        match mapGet w.connections sessionId with
        | some connectionInfo => w.processed sessionId (processCommandBuffer env connectionInfo)
        | none => w
      else w
    match mapGet w1.connections sessionId with
    | some connectionInfo =>
      let appended := { connectionInfo with buffer := connectionInfo.buffer ++ data }
      { w1 with connections := mapSet w1.connections sessionId appended }
    | none => w1
  | _ => w

/-- Handler `ws.on('close')` (lines 112-114). -/
def onWsClose (env : Env) (w : World) (sessionId : String) (remoteAddress : String) : World :=
  handleConnectionClose env w sessionId remoteAddress

/-- Handler `ws.on('error')` (lines 117-121). -/
def onWsError (env : Env) (w : World) (ws : Nat) (sessionId : String)
    (remoteAddress : String) : World :=
  let w1 := w.send ws (Frame.error ("Erro na conexão WebSocket: " ++ env.errorMessage))
  handleConnectionClose env w1 sessionId remoteAddress

/-! ## Login (authController.js, lines 9-220) -/

/-- Row of the `Groups` table, the attributes the login includes. -/
structure Group where
  id : Nat
  name : String
  permissions : String
  deriving DecidableEq, Repr

/-- The `user` object of a positive directory verdict (ldapService.js). -/
structure DirectoryUser where
  username : String
  fullName : String
  email : Option String
  deriving DecidableEq, Repr

/-- How a call of a backend's `authenticate` ends: it resolves with
`authenticated: true` (and a payload), resolves with `authenticated: false`,
or rejects (timeout, refused connection, backend not initialized, any other
error). -/
inductive Verdict (α : Type) where
  | accepted (payload : α)
  | rejected
  | failed
  deriving DecidableEq, Repr

/-- The `userData` object of `login`; a field that a branch does not set is
`none`. -/
structure UserData where
  id : Nat
  username : String
  email : Option String
  fullName : String
  groupId : Option Nat
  group : Option String
  permissions : Option String
  isLdapUser : Option Bool
  deriving DecidableEq, Repr

/-- Body of the HTTP response of `login`. -/
inductive Body where
  | message (text : String)
  | session (token : String) (user : UserData)
  deriving DecidableEq, Repr

/-- HTTP response of `login`. -/
structure Response where
  status : Nat
  body : Body
  deriving DecidableEq, Repr

/-- Token carried by a response, if any. -/
def Response.token (r : Response) : Option String :=
  match r.body with
  | Body.session token _ => some token
  | Body.message _ => none

/-- Message carried by a response, if any. -/
def Response.text (r : Response) : Option String :=
  match r.body with
  | Body.session _ _ => none
  | Body.message text => some text

/-- The tables and the Redis keys the login reads and writes. -/
structure Store where
  users : List User
  groups : List Group
  accessLogs : List AccessLogEntry
  redis : List (String × String)
  deriving DecidableEq, Repr

/-- Body of the login request and the address it came from. -/
structure LoginRequest where
  username : Option String
  password : Option String
  authType : Option String
  ip : String
  deriving DecidableEq, Repr

/-- Collaborators of the login that are not code of the controller. -/
structure LoginEnv where
  /-- Outcome of `ldapService.authenticate(username, password)`. -/
  ldapAuthenticate : String → String → Verdict DirectoryUser
  /-- Outcome of `tacacsService.authenticate(username, password)`. -/
  tacacsAuthenticate : String → String → Verdict Unit
  /-- Outcome of `radiusService.authenticate(username, password)`. -/
  radiusAuthenticate : String → String → Verdict Unit
  /-- Result of `bcrypt.compare(password, hash)`, which `checkPassword` returns. -/
  bcryptCompare : String → String → Bool
  /-- Result of `jwt.sign` for the payload `id`, `username`, `groupId`. -/
  jwtSign : Nat → String → Option Nat → String
  /-- Value of `Math.random().toString(36).substring(2)`. -/
  randomPassword : String
  /-- Clock: `new Date()`, in milliseconds. -/
  now : Nat

/-- What a call of `login` did: the response, the store after it and the
backends whose `authenticate` it called. -/
structure LoginResult where
  response : Response
  store : Store
  backendCalls : List String
  deriving DecidableEq, Repr

/-- Lookup `User.findOne` with `where: username`. -/
def findUserByName (st : Store) (username : String) : Option User :=
  st.users.find? (fun u => u.username = username)

/-- Lookup `User.findByPk`. -/
def findUserById (st : Store) (id : Nat) : Option User :=
  st.users.find? (fun u => u.id = id)

/-- The `Group` a user row is joined with. -/
def groupOf (st : Store) (user : User) : Option Group :=
  match user.groupId with
  | none => none
  | some g => st.groups.find? (fun x => x.id = g)

/-- Method `User.checkPassword` (user.js, lines 27-30). -/
def checkPassword (env : LoginEnv) (user : User) (password : String) : Bool :=
  env.bcryptCompare password user.password

/-- The response of lines 128, 139 and 166. -/
def invalidCredentials : Response :=
  ⟨401, Body.message "Credenciais inválidas"⟩

/-- The audit entry of lines 158-164. -/
def failedLoginEntry (req : LoginRequest) (username authType : String) : AccessLogEntry :=
  { userId := none
    deviceId := none
    ipAddress := req.ip
    accessType := "login"
    status := "failure"
    details := "Tentativa de login falha: " ++ username ++ " (método: " ++ authType ++ ")" }

/-- The audit entry of lines 203-209. -/
def successLoginEntry (req : LoginRequest) (id : Nat) (username authType : String) :
    AccessLogEntry :=
  { userId := some id
    deviceId := none
    ipAddress := req.ip
    accessType := "login"
    status := "success"
    details := "Login bem-sucedido: " ++ username ++ " (método: " ++ authType ++ ")" }

/-- Lines 155-167, reached with `authenticated` false: the failed attempt is
recorded and the bad-credentials response is sent. -/
def loginFailed (st : Store) (req : LoginRequest) (username authType : String)
    (calls : List String) : LoginResult :=
  { response := invalidCredentials
    store := { st with accessLogs := st.accessLogs ++ [failedLoginEntry req username authType] }
    backendCalls := calls }

/-- The alias under which `User.associate` defines the association to `Group`
(user.js, lines 9-12, `as: 'group'`). -/
def userGroupAlias : Option String :=
  some "group"

/-- Whether a query on `User` throws for an `include` of the model `Group` with
the given `as` (`none` when the include has no `as`): Sequelize loads an
association only under the alias it was defined with, and throws
`EagerLoadingError` for any other include. -/
def includeGroupThrows (includeAs : Option String) : Bool :=
  decide (includeAs ≠ userGroupAlias)

/-- The response of the outer `catch` (lines 216-219). -/
def internalError : Response :=
  ⟨500, Body.message "Erro interno do servidor"⟩

/-- Lines 171-180 past the query: the group of the user that `findByPk`
returns is copied into `userData`. -/
def withGroup (st : Store) (userData : UserData) : UserData :=
  if falsy userData.group then
    match findUserById st userData.id with
    | none => userData
    | some userDetails =>
      match groupOf st userDetails with
      | none => userData
      | some g => { userData with group := some g.name, permissions := some g.permissions }
  else userData

/-- Lines 169-215, reached with `authenticated` true and `userData` set.  When
`userData.group` is not set, `User.findByPk` is called with an `include` of
`Group` that has no `as` (lines 172-174); when that throws, the outer `catch`
answers.  Otherwise the token is signed and stored, the last login and the
successful login are recorded, and the token is sent with the user data. -/
def loginSucceeded (env : LoginEnv) (st : Store) (req : LoginRequest)
    (username authType : String) (userData : UserData) (calls : List String) : LoginResult :=
  if falsy userData.group && includeGroupThrows none then ⟨internalError, st, calls⟩
  else
  let userData := withGroup st userData
  let token := env.jwtSign userData.id userData.username userData.groupId
  let users := st.users.map fun u =>
    if u.id = userData.id then { u with lastLogin := some env.now } else u
  { response := ⟨200, Body.session token userData⟩
    store :=
      { st with
        users := users
        redis := st.redis.filter (fun kv => kv.1 ≠ "token:" ++ toString userData.id)
          ++ [("token:" ++ toString userData.id, token)]
        accessLogs := st.accessLogs ++ [successLoginEntry req userData.id username authType] }
    backendCalls := calls }

/-- Lines 32-54: `User.findOrCreate` by the directory user name, the update
of an existing directory user, and the row the login goes on with. -/
def findOrCreateLdapUser (env : LoginEnv) (st : Store) (userData : DirectoryUser) :
    Store × User :=
  match findUserByName st userData.username with
  | none =>
    let user : User :=
      { id := (st.users.map (fun u => u.id)).foldr max 0 + 1
        username := userData.username
        password := env.randomPassword
        fullName := userData.fullName
        email := userData.email
        isActive := true
        isLdapUser := true
        lastLogin := none
        groupId := none }
    ({ st with users := st.users ++ [user] }, user)
  | some user =>
    if user.isLdapUser then
      -- `user.update` leaves a column alone whose new value is `undefined`
      let updated := { user with fullName := userData.fullName,
                                 email := if userData.email.isSome then userData.email
                                          else user.email,
                                 isActive := true }
      ({ st with users := st.users.map fun u => if u.id = user.id then updated else u },
        updated)
    else (st, user)

/-- The `userData` of the TACACS+ and RADIUS branches (lines 73-79, 101-107). -/
def userDataOfRow (user : User) : UserData :=
  { id := user.id, username := user.username, email := user.email, fullName := user.fullName,
    groupId := user.groupId, group := none, permissions := none, isLdapUser := none }

/-- The `local` and `default` branch of the switch (lines 118-152).  The
`User.findOne` of lines 121-124 has an `include` of `Group` with no `as`; when
it throws, the outer `catch` answers. -/
def loginLocal (env : LoginEnv) (st : Store) (req : LoginRequest)
    (username password authType : String) : LoginResult :=
  if includeGroupThrows none then ⟨internalError, st, []⟩
  else
  match findUserByName st username with
  | none => ⟨invalidCredentials, st, []⟩
  | some user =>
    if !user.isActive then
      ⟨⟨401, Body.message "Usuário desativado"⟩, st, []⟩
    else if !checkPassword env user password then
      ⟨invalidCredentials, st, []⟩
    else
      let group := groupOf st user
      loginSucceeded env st req username authType
        { id := user.id, username := user.username, email := user.email,
          fullName := user.fullName, groupId := user.groupId,
          group := group.map (fun g => g.name),
          permissions := group.map (fun g => g.permissions), isLdapUser := none } []

/-- The TACACS+ and RADIUS branches (lines 62-116), which differ in the
backend and in the name that goes into the messages. -/
def loginRemote (env : LoginEnv) (st : Store) (req : LoginRequest)
    (username authType label : String) (verdict : Verdict Unit) : LoginResult :=
  match verdict with
  | Verdict.failed => ⟨⟨500, Body.message ("Erro na autenticação " ++ label)⟩, st, [authType]⟩
  | Verdict.rejected => loginFailed st req username authType [authType]
  | Verdict.accepted _ =>
    match findUserByName st username with
    | some user => loginSucceeded env st req username authType (userDataOfRow user) [authType]
    | none =>
      ⟨⟨401, Body.message ("Usuário autenticado no " ++ label ++ " mas não existe no sistema")⟩,
        st, [authType]⟩

/-- The `ldap` branch (lines 23-60). -/
def loginLdap (env : LoginEnv) (st : Store) (req : LoginRequest)
    (username password : String) : LoginResult :=
  match env.ldapAuthenticate username password with
  | Verdict.failed => ⟨⟨500, Body.message "Erro na autenticação LDAP"⟩, st, ["ldap"]⟩
  | Verdict.rejected => loginFailed st req username "ldap" ["ldap"]
  | Verdict.accepted ldapUser =>
    let created := findOrCreateLdapUser env st ldapUser
    loginSucceeded env created.1 req username "ldap"
      { id := created.2.id, username := ldapUser.username, email := ldapUser.email,
        fullName := ldapUser.fullName, groupId := created.2.groupId, group := none,
        permissions := none, isLdapUser := some true } ["ldap"]

/-- Handler `exports.login` (lines 9-220).  `authType` defaults to `local`
when the body has none.  The queries that include `Group` throw as
`includeGroupThrows` says; the other calls of the ORM, Redis and `jwt.sign` are
taken not to throw. -/
def login (env : LoginEnv) (st : Store) (req : LoginRequest) : LoginResult :=
  let authType := req.authType.getD "local"
  if falsy req.username || falsy req.password then
    ⟨⟨400, Body.message "Usuário e senha são obrigatórios"⟩, st, []⟩
  else
    let username := req.username.getD ""
    let password := req.password.getD ""
    if authType = "ldap" then
      loginLdap env st req username password
    else if authType = "tacacs" then
      loginRemote env st req username authType "TACACS+" (env.tacacsAuthenticate username password)
    else if authType = "radius" then
      loginRemote env st req username authType "RADIUS" (env.radiusAuthenticate username password)
    else
      loginLocal env st req username password authType

/-- Outcome of the backend that `login` consults for `authType`, without the
payload. -/
def backendVerdict (env : LoginEnv) (authType username password : String) : Verdict Unit :=
  if authType = "ldap" then
    match env.ldapAuthenticate username password with
    | Verdict.accepted _ => Verdict.accepted ()
    | Verdict.rejected => Verdict.rejected
    | Verdict.failed => Verdict.failed
  else if authType = "tacacs" then env.tacacsAuthenticate username password
  else env.radiusAuthenticate username password

/-! ## A concrete relay session

User `admin` (id 1) opens an SSH session to the online device `sw1` (id 7) at
time 1000 ms, on an empty service. -/

/-- Active local user `admin`. -/
def sampleUser : User :=
  { id := 1, username := "admin", password := "hash(admin123)", fullName := "Administrador",
    email := some "admin@example.com", isActive := true, isLdapUser := false,
    lastLogin := none, groupId := some 1 }

/-- Online device that supports SSH. -/
def sampleDevice : Device :=
  ⟨7, "sw1", "10.0.0.7", none, "online", true, false⟩

/-- Collaborators that know `sampleUser` and `sampleDevice` and never fail. -/
def sampleEnv : Env :=
  { jwtVerify := fun t => if t = "tok" then some 1 else none
    findUser := fun i => if i = 1 then some sampleUser else none
    findDevice := fun d => if d = "7" then some sampleDevice else none
    now := 1000
    toUpperCase := fun s => String.mk (s.data.map Char.toUpper)
    clientEndThrows := fun _ => false
    accessLogCreateThrows := fun _ => false
    wsOpen := fun _ => true
    wsCloseThrows := fun _ => false
    tacacsInitialized := false
    errorMessage := "falha" }

/-- The same collaborators one minute later, with `AccessLog.create` failing. -/
def auditDownEnv : Env :=
  { sampleEnv with now := 61000, accessLogCreateThrows := fun _ => true }

/-- The same collaborators one minute later. -/
def laterEnv : Env :=
  { sampleEnv with now := 61000 }

/-- Relay request of `admin` for device 7 over SSH, on socket 0. -/
def sampleRequest : Request :=
  ⟨0, some "tok", some "7", some "ssh", "192.0.2.10"⟩

/-- The service after the handshake of `sampleRequest`. -/
def sampleWorld : World :=
  onConnection sampleEnv World.empty sampleRequest

/-- The session record the handshake of `sampleRequest` stores. -/
def sampleInfo : ConnectionInfo :=
  { ws := 0, user := sampleUser, device := sampleDevice, protocol := "ssh",
    accessLogId := 1, startTime := 1000, buffer := [], client := none }

/-! ## A concrete login setting -/

/-- Store with the active local user `admin` (password `admin123`) and the
deactivated local user `bob`. -/
def sampleStore : Store :=
  { users := [sampleUser,
      { id := 2, username := "bob", password := "hash(bob123)", fullName := "Bob",
        email := none, isActive := false, isLdapUser := false, lastLogin := none,
        groupId := none }]
    groups := [⟨1, "admin", "all"⟩]
    accessLogs := []
    redis := [] }

/-- Backends that accept `carol` with password `pw`, reject every other
principal but `dave`, and fail (are unreachable) for `dave`. -/
def sampleLoginEnv : LoginEnv :=
  { ldapAuthenticate := fun u p =>
      if u = "dave" then Verdict.failed
      else if u = "carol" ∧ p = "pw" then Verdict.accepted ⟨"carol", "Carol C", none⟩
      else Verdict.rejected
    tacacsAuthenticate := fun u p =>
      if u = "dave" then Verdict.failed
      else if u = "carol" ∧ p = "pw" then Verdict.accepted ()
      else Verdict.rejected
    radiusAuthenticate := fun u p =>
      if u = "dave" then Verdict.failed
      else if u = "carol" ∧ p = "pw" then Verdict.accepted ()
      else Verdict.rejected
    bcryptCompare := fun password hash => hash = "hash(" ++ password ++ ")"
    jwtSign := fun id username _ => "jwt:" ++ toString id ++ ":" ++ username
    randomPassword := "k3x9q"
    now := 5000 }

/-! ## What one round of the shutdown sweep contributes -/

/-- Clients on which the round of a session completes `end()`. -/
def endedBy (env : Env) (connectionInfo : ConnectionInfo) : List Nat :=
  match connectionInfo.client with
  | some c => if env.clientEndThrows c then [] else [c]
  | none => []

/-- Whether `client.end()` throws in the round of a session. -/
def endRaises (env : Env) (connectionInfo : ConnectionInfo) : Bool :=
  match connectionInfo.client with
  | some c => env.clientEndThrows c
  | none => false

/-- Sockets on which the round of a session completes `close()`. -/
def closedBy (env : Env) (connectionInfo : ConnectionInfo) : List Nat :=
  if !endRaises env connectionInfo && env.wsOpen connectionInfo.ws
      && !env.wsCloseThrows connectionInfo.ws then [connectionInfo.ws] else []

/-- Lines the `catch` of the round of a session writes: one if the round
raised, none otherwise. -/
def raisedBy (env : Env) (sessionId : String) (connectionInfo : ConnectionInfo) :
    List String :=
  if endRaises env connectionInfo
      || (env.wsOpen connectionInfo.ws && env.wsCloseThrows connectionInfo.ws) then
    ["Erro ao encerrar sessão " ++ sessionId]
  else []

/-! ## Command detection as the specification words it -/

/-- Complete lines of a buffer, in the specification's words: the segments
that come before a line terminator, every terminator ending one segment. -/
def completeLines (buffer : List Char) : List (List Char) :=
  (buffer.splitOnP isLineTerminator).dropLast

/-- Unterminated remainder of a buffer, in the specification's words: the text
after the last line terminator (the whole buffer when it has none). -/
def unterminatedRemainder (buffer : List Char) : List Char :=
  buffer.rtakeWhile (fun c => !isLineTerminator c)

/-- The prompt characters the specification lists. -/
def promptCharacters : List Char :=
  ['#', '>', '$', ']', '%']

/-- A trimmed line that is recorded, in the specification's words: it is not
empty and does not begin with a prompt character. -/
def isRecordedLine (trimmedLine : List Char) : Bool :=
  decide (trimmedLine ≠ [] ∧ ∀ c, trimmedLine.head? = some c → c ∉ promptCharacters)

/-- Two lists of segments that end with the same segment and agree, before
it, on the segments that are not empty. -/
def SameLines (a b : List (List Char)) : Prop :=
  ∃ r ma mb, a = ma ++ [r] ∧ b = mb ++ [r]
    ∧ ma.filter (fun s => !s.isEmpty) = mb.filter (fun s => !s.isEmpty)

/-! ## Backend services: settings and promises

`tacacsService.js`, `radiusService.js` and `ldapService.js` each keep a flag
`isInitialized` and the settings they loaded.  `found` is what
`Setting.findAll` returns for the category of the service (`none` when it
throws); the servers are reached through oracles that say how a call ends. -/

/-- Rows of `Setting.findAll` for one category, as key and value. -/
abbrev SettingRows := List (String × String)

/-- Value of `settings[key]` for the object the `forEach` of the initializer
builds: the value of the last row with that key, `none` for `undefined`. -/
def getSetting (rows : SettingRows) (key : String) : Option String :=
  match rows with
  | [] => none
  | (k, v) :: rest =>
    match getSetting rest key with
    | some v' => some v'
    | none => if k = key then some v else none

/-- Value of `err.code`. -/
inductive ErrorCode where
  | number (n : Nat)
  | text (s : String)
  deriving DecidableEq, Repr

/-- An `Error` object: its message and its `code`, if it has one. -/
structure ServiceError where
  message : String
  code : Option ErrorCode
  deriving DecidableEq, Repr

/-- How the promise of a service call ends: it resolves, it rejects, or it
stays pending for ever. -/
inductive Settlement (α : Type) where
  | resolved (value : α)
  | rejected (error : ServiceError)
  | pending
  deriving DecidableEq, Repr

/-- A call a service makes to a server.  Hosts, ports and URLs are the raw
values of the settings. -/
inductive NetCall where
  | ldapBind (url dn : Option String)
  | ldapSearch (base : Option String) (filter : String)
  | adAuthenticate (url : Option String) (username : String)
  | adFindUser (url : Option String) (username : String)
  | tacacsAuthenticate (host port : Option String) (username : String)
  | radiusSend (host port : Option String)
  deriving DecidableEq, Repr

/-- What a call of a service method did: the service after it, how its
promise ends and the calls made to servers, in order. -/
structure Performed (σ α : Type) where
  service : σ
  outcome : Settlement α
  network : List NetCall

/-- Value the TACACS+ and RADIUS `authenticate` resolve with:
`authenticated`, and on success the `user.username` and (RADIUS) the
attributes of the reply. -/
structure RemoteVerdict where
  authenticated : Bool
  username : Option String
  attributes : Option (List (String × String))
  deriving DecidableEq, Repr

/-- The verdict `login` sees when it awaits the `authenticate` of a backend,
without the payload; `none` when the promise never settles. -/
def settlementVerdict {α : Type} (authenticated : α → Bool) (o : Settlement α) :
    Option (Verdict Unit) :=
  match o with
  | Settlement.resolved v => some (if authenticated v then Verdict.accepted () else Verdict.rejected)
  | Settlement.rejected _ => some Verdict.failed
  | Settlement.pending => none

/-! ## TACACS+ service (tacacsService.js, lines 4-96) -/

/-- Fields of `TacacsService`. -/
structure TacacsService where
  isInitialized : Bool
  settings : SettingRows
  deriving DecidableEq, Repr

/-- The `requiredSettings` of the TACACS+ and of the RADIUS initializer. -/
def remoteRequiredSettings : List String :=
  ["serverHost", "serverPort", "sharedSecret"]

/-- Method `TacacsService.initialize` (lines 12-53), with the value it
returns. -/
def tacacsInitialize (found : Option SettingRows) (s : TacacsService) : TacacsService × Bool :=
  match found with
  | none => ({ s with isInitialized := false }, false)
  | some tacacsSettings =>
    if tacacsSettings.length = 0 then ({ s with isInitialized := false }, false)
    else
      let s1 := { s with settings := tacacsSettings }
      if remoteRequiredSettings.any (fun setting => falsy (getSetting tacacsSettings setting)) then
        ({ s1 with isInitialized := false }, false)
      else ({ s1 with isInitialized := true }, true)

/-- How the callback of `client.authenticate` of `tacacs-plus` is called. -/
inductive TacacsReply where
  | error (err : ServiceError)
  | result (isAuthenticated : Bool)
  deriving DecidableEq, Repr

/-- The TACACS+ server: the reply to an authentication request, by host,
port, key, user name and password. -/
abbrev TacacsServer :=
  Option String → Option String → Option String → String → String → TacacsReply

/-- Method `TacacsService.authenticate` (lines 56-96). -/
def tacacsAuthenticate (server : TacacsServer) (found : Option SettingRows) (s : TacacsService)
    (username password : String) : Performed TacacsService RemoteVerdict :=
  let s1 := if !s.isInitialized then (tacacsInitialize found s).1 else s
  if !s1.isInitialized then
    ⟨s1, Settlement.rejected ⟨"Serviço TACACS+ não inicializado", none⟩, []⟩
  else
    let host := getSetting s1.settings "serverHost"
    let port := getSetting s1.settings "serverPort"
    let key := getSetting s1.settings "sharedSecret"
    let outcome :=
      match server host port key username password with
      | TacacsReply.error err => Settlement.rejected err
      | TacacsReply.result isAuthenticated =>
        if isAuthenticated then Settlement.resolved ⟨true, some username, none⟩
        else Settlement.resolved ⟨false, none, none⟩
    ⟨s1, outcome, [NetCall.tacacsAuthenticate host port username]⟩

/-! ## RADIUS service (radiusService.js, lines 5-145) -/

/-- Fields of `RadiusService`. -/
structure RadiusService where
  isInitialized : Bool
  settings : SettingRows
  deriving DecidableEq, Repr

/-- Method `RadiusService.initialize` (lines 12-53), with the value it
returns. -/
def radiusInitialize (found : Option SettingRows) (s : RadiusService) : RadiusService × Bool :=
  match found with
  | none => ({ s with isInitialized := false }, false)
  | some radiusSettings =>
    if radiusSettings.length = 0 then ({ s with isInitialized := false }, false)
    else
      let s1 := { s with settings := radiusSettings }
      if remoteRequiredSettings.any (fun setting => falsy (getSetting radiusSettings setting)) then
        ({ s1 with isInitialized := false }, false)
      else ({ s1 with isInitialized := true }, true)

/-- What `radius.decode` returns for a reply datagram. -/
structure RadiusReply where
  code : String
  attributes : List (String × String)
  deriving DecidableEq, Repr

/-- An event of the UDP exchange of `authenticate`: a datagram arrives
(`decoded` is `none` when `radius.decode` throws on it), the socket emits
`error`, the callback of `send` gets an error, the timer fires, or
`client.send` itself throws at once, as it does for a port that is not an
integer from 1 to 65535. -/
inductive UdpEvent where
  | message (decoded : Option RadiusReply)
  | socketError (err : ServiceError)
  | sendError (err : ServiceError)
  | timeout
  | sendThrows (err : ServiceError)
  deriving DecidableEq, Repr

/-- The exchange of one `authenticate` call: whether the timer set at line
91 is still armed, whether `client.close()` has been called, and how the
promise stands. -/
structure RadiusExchange where
  timerArmed : Bool
  socketClosed : Bool
  outcome : Settlement RemoteVerdict
  deriving DecidableEq, Repr

/-- Calls of `resolve` and `reject`: only the first one settles the promise. -/
def RadiusExchange.settle (x : RadiusExchange) (o : Settlement RemoteVerdict) : RadiusExchange :=
  match x.outcome with
  | Settlement.pending => { x with outcome := o }
  | _ => x

/-- The exchange right after `client.send` (line 126). -/
def RadiusExchange.start : RadiusExchange :=
  ⟨true, false, Settlement.pending⟩

/-- The handlers of lines 91-139, one event at a time.  A datagram on which
`radius.decode` throws leaves its handler after `clearTimeout`; the timer
fires only while it is armed. -/
def RadiusExchange.step (username : String) (x : RadiusExchange) (e : UdpEvent) :
    RadiusExchange :=
  match e with
  | UdpEvent.message decoded =>
    let x1 := { x with timerArmed := false }
    match decoded with
    | none => x1
    | some response =>
      let x2 := { x1 with socketClosed := true }
      if response.code = "Access-Accept" then
        x2.settle (Settlement.resolved ⟨true, some username, some response.attributes⟩)
      else x2.settle (Settlement.resolved ⟨false, none, none⟩)
  | UdpEvent.socketError err =>
    { x with timerArmed := false, socketClosed := true }.settle (Settlement.rejected err)
  | UdpEvent.sendError err =>
    { x with timerArmed := false, socketClosed := true }.settle (Settlement.rejected err)
  | UdpEvent.timeout =>
    if x.timerArmed then
      { x with timerArmed := false, socketClosed := true }.settle
        (Settlement.rejected ⟨"Timeout ao aguardar resposta do servidor RADIUS", none⟩)
    else x
  -- the executor of the promise throws: the promise rejects, the timer stays armed
  | UdpEvent.sendThrows err => x.settle (Settlement.rejected err)

/-- The exchange after the events of the socket and of the timer, in order. -/
def RadiusExchange.run (username : String) (events : List UdpEvent) : RadiusExchange :=
  events.foldl (RadiusExchange.step username) RadiusExchange.start

/-- Method `RadiusService.authenticate` (lines 56-145); `events` is what
happens on the socket and the timer after the request is sent (the password
only enters the encoded request, whose fate the events tell).  The last
component is the exchange, `none` when no request was sent. -/
def radiusAuthenticate (events : List UdpEvent) (found : Option SettingRows)
    (s : RadiusService) (username : String) :
    Performed RadiusService RemoteVerdict × Option RadiusExchange :=
  let s1 := if !s.isInitialized then (radiusInitialize found s).1 else s
  if !s1.isInitialized then
    (⟨s1, Settlement.rejected ⟨"Serviço RADIUS não inicializado", none⟩, []⟩, none)
  else
    let x := RadiusExchange.run username events
    (⟨s1, x.outcome,
      [NetCall.radiusSend (getSetting s1.settings "serverHost")
        (getSetting s1.settings "serverPort")]⟩, some x)

/-! ## Directory service (ldapService.js, lines 6-217) -/

/-- Options of `ldap.createClient` at lines 48-54, without the timeouts. -/
structure LdapClient where
  url : Option String
  bindDN : Option String
  bindCredentials : Option String
  deriving DecidableEq, Repr

/-- Options of `new ActiveDirectory` at lines 58-67, without the attribute
lists. -/
structure ActiveDirectory where
  url : Option String
  baseDN : Option String
  username : Option String
  password : Option String
  deriving DecidableEq, Repr

/-- Fields of `LdapService`. -/
structure LdapService where
  client : Option LdapClient
  ad : Option ActiveDirectory
  isInitialized : Bool
  settings : SettingRows
  deriving DecidableEq, Repr

/-- The service right after `new LdapService()`. -/
def LdapService.fresh : LdapService :=
  ⟨none, none, false, []⟩

/-- How the callback of `ad.authenticate` is called: `(err, auth)`. -/
inductive AdAuthReply where
  | error (err : ServiceError)
  | auth (ok : Bool)
  deriving DecidableEq, Repr

/-- The user object of `ad.findUser`, the attributes the service reads. -/
structure AdUser where
  sAMAccountName : String
  givenName : Option String
  sn : Option String
  mail : Option String
  userPrincipalName : Option String
  deriving DecidableEq, Repr

/-- How the callback of `ad.findUser` is called: `(err, user)`, with `user`
undefined when the directory has no such user. -/
inductive AdFindReply where
  | error (err : ServiceError)
  | user (found : Option AdUser)
  deriving DecidableEq, Repr

/-- How `client.search` goes: its callback gets an error, or the result
emits its entries (attribute and value) and then `end` (`failure` is `none`) or
`error`. -/
inductive SearchReply where
  | error (err : ServiceError)
  | entries (objects : List (List (String × String))) (failure : Option ServiceError)
  deriving DecidableEq, Repr

/-- The directory server, as the service reaches it. -/
structure DirectoryNet where
  /-- Error the callback of `bind(dn, password)` gets on a client for `url`,
  `none` when the bind succeeds. -/
  bind : Option String → Option String → Option String → Option ServiceError
  /-- Outcome of `ad.authenticate(username, password)`. -/
  adAuthenticate : ActiveDirectory → String → String → AdAuthReply
  /-- Outcome of `ad.findUser(username)`. -/
  adFindUser : ActiveDirectory → String → AdFindReply
  /-- Outcome of `client.search(base, options)` for the filter of line 165. -/
  search : LdapClient → Option String → String → SearchReply

/-- The `user` of a positive verdict of the directory service. -/
structure DirectoryIdentity where
  username : Option String
  fullName : String
  email : Option String
  deriving DecidableEq, Repr

/-- Value `LdapService.authenticate` resolves with. -/
structure DirectoryResult where
  authenticated : Bool
  user : Option DirectoryIdentity
  deriving DecidableEq, Repr

/-- The `requiredSettings` of the directory initializer (line 38). -/
def ldapRequiredSettings : List String :=
  ["ldapUrl", "bindDN", "bindCredentials", "searchBase"]

/-- Text a template literal gives for a value that may be `undefined`. -/
def templateText (x : Option String) : String :=
  x.getD "undefined"

/-- Value of `a || b` for two values that may be `undefined`. -/
def orElse (a b : Option String) : Option String :=
  if falsy a then b else a

/-- Method `LdapService.initialize` (lines 15-90).  It resolves with `false`
when the settings cannot be used, and rejects when the bind of line 72
fails. -/
def ldapInitialize (net : DirectoryNet) (found : Option SettingRows) (s : LdapService) :
    Performed LdapService Bool :=
  match found with
  | none => ⟨{ s with isInitialized := false }, Settlement.resolved false, []⟩
  | some ldapSettings =>
    if ldapSettings.length = 0 then
      ⟨{ s with isInitialized := false }, Settlement.resolved false, []⟩
    else
      let s1 := { s with settings := ldapSettings }
      if ldapRequiredSettings.any (fun setting => falsy (getSetting ldapSettings setting)) then
        ⟨{ s1 with isInitialized := false }, Settlement.resolved false, []⟩
      else
        let url := getSetting ldapSettings "ldapUrl"
        let bindDN := getSetting ldapSettings "bindDN"
        let bindCredentials := getSetting ldapSettings "bindCredentials"
        let s2 := { s1 with client := some ⟨url, bindDN, bindCredentials⟩ }
        let s3 :=
          if getSetting ldapSettings "isActiveDirectory" = some "true" then
            { s2 with ad := some ⟨url, getSetting ldapSettings "searchBase", bindDN,
                bindCredentials⟩ }
          else s2
        match net.bind url bindDN bindCredentials with
        | some err =>
          ⟨{ s3 with isInitialized := false }, Settlement.rejected err,
            [NetCall.ldapBind url bindDN]⟩
        | none =>
          ⟨{ s3 with isInitialized := true }, Settlement.resolved true,
            [NetCall.ldapBind url bindDN]⟩

/-- The Active Directory branch of `authenticate` (lines 103-136). -/
def ldapAuthenticateAd (net : DirectoryNet) (ad : ActiveDirectory) (username password : String) :
    Settlement DirectoryResult × List NetCall :=
  match net.adAuthenticate ad username password with
  | AdAuthReply.error err => (Settlement.rejected err, [NetCall.adAuthenticate ad.url username])
  | AdAuthReply.auth false =>
    (Settlement.resolved ⟨false, none⟩, [NetCall.adAuthenticate ad.url username])
  | AdAuthReply.auth true =>
    let calls := [NetCall.adAuthenticate ad.url username, NetCall.adFindUser ad.url username]
    match net.adFindUser ad username with
    | AdFindReply.error err => (Settlement.rejected err, calls)
    | AdFindReply.user none => (Settlement.pending, calls)
    | AdFindReply.user (some user) =>
      (Settlement.resolved ⟨true, some
        { username := some user.sAMAccountName
          fullName := templateText user.givenName ++ " " ++ templateText user.sn
          email := orElse user.mail user.userPrincipalName }⟩, calls)

/-- The generic branch of `authenticate` (lines 138-212); `userDN` is the
pattern with the user name filled in.  The user data are those of the last
entry of the search. -/
def ldapAuthenticateGeneric (net : DirectoryNet) (s : LdapService) (userDN username
    password : String) : Settlement DirectoryResult × List NetCall :=
  let url := getSetting s.settings "ldapUrl"
  match net.bind url (some userDN) (some password) with
  | some err =>
    if err.code = some (ErrorCode.number 49) then
      (Settlement.resolved ⟨false, none⟩, [NetCall.ldapBind url (some userDN)])
    else (Settlement.rejected err, [NetCall.ldapBind url (some userDN)])
  | none =>
    match s.client with
    | none => (Settlement.pending, [NetCall.ldapBind url (some userDN)])
    | some client =>
      let idAttribute := getSetting s.settings "userIdAttribute"
      let filter := "(" ++ templateText idAttribute ++ "=" ++ username ++ ")"
      let base := getSetting s.settings "searchBase"
      let calls := [NetCall.ldapBind url (some userDN), NetCall.ldapSearch base filter]
      match net.search client base filter with
      | SearchReply.error err => (Settlement.rejected err, calls)
      | SearchReply.entries _ (some err) => (Settlement.rejected err, calls)
      | SearchReply.entries objects none =>
        match objects.getLast? with
        | none => (Settlement.resolved ⟨false, none⟩, calls)
        | some user =>
          let valueOf := fun (name : Option String) =>
            (user.find? (fun kv => some kv.1 = name)).map (fun kv => kv.2)
          let first := orElse (getSetting s.settings "userFirstNameAttribute") (some "givenName")
          let last := orElse (getSetting s.settings "userLastNameAttribute") (some "sn")
          let mail := orElse (getSetting s.settings "userEmailAttribute") (some "mail")
          (Settlement.resolved ⟨true, some
            { username := valueOf idAttribute
              fullName := templateText (valueOf first) ++ " " ++ templateText (valueOf last)
              email := valueOf mail }⟩, calls)

/-- The text a replacement string stands for when the pattern is a string
(`GetSubstitution` with no captures): a dollar sign followed by a dollar sign
is one dollar sign, followed by `&` it is the matched text, followed by a
grave accent (code 96) the text before the match, followed by an apostrophe
(code 39) the text after the match; every other character stands for itself. -/
def expandReplacement (matched before after : List Char) : List Char → List Char
  | [] => []
  | [c] => [c]
  | c :: d :: rest =>
    if c = '$' then
      if d = '$' then '$' :: expandReplacement matched before after rest
      else if d = '&' then matched ++ expandReplacement matched before after rest
      else if d.toNat = 96 then before ++ expandReplacement matched before after rest
      else if d.toNat = 39 then after ++ expandReplacement matched before after rest
      else c :: expandReplacement matched before after (d :: rest)
    else c :: expandReplacement matched before after (d :: rest)

/-- Value of `text.replace(needle, replacement)` for the text that follows
`before`. -/
def replaceFirstFrom (needle replacement before : List Char) : List Char → List Char
  | [] => if needle.isEmpty then expandReplacement [] before [] replacement else []
  | c :: cs =>
    if needle.isPrefixOf (c :: cs) then
      expandReplacement needle before ((c :: cs).drop needle.length) replacement
        ++ (c :: cs).drop needle.length
    else c :: replaceFirstFrom needle replacement (before ++ [c]) cs

/-- Value of `text.replace(needle, replacement)` for a string `needle`: the
first occurrence is replaced, by the text the replacement stands for. -/
def replaceFirst (needle replacement : List Char) (text : List Char) : List Char :=
  replaceFirstFrom needle replacement [] text

/-- Value of `userDnPattern.replace('{username}', username)` (line 139). -/
def fillPattern (pattern username : String) : String :=
  String.mk (replaceFirst "{username}".data username.data pattern.data)

/-- Method `LdapService.authenticate` (lines 93-217).  `this.ad` decides the
branch. -/
def ldapAuthenticate (net : DirectoryNet) (found : Option SettingRows) (s : LdapService)
    (username password : String) : Performed LdapService DirectoryResult :=
  let init : Performed LdapService Bool :=
    if !s.isInitialized then ldapInitialize net found s
    else ⟨s, Settlement.resolved true, []⟩
  match init.outcome with
  | Settlement.rejected err => ⟨init.service, Settlement.rejected err, init.network⟩
  | Settlement.pending => ⟨init.service, Settlement.pending, init.network⟩
  | Settlement.resolved _ =>
    let s1 := init.service
    if !s1.isInitialized then
      ⟨s1, Settlement.rejected ⟨"Serviço LDAP não inicializado", none⟩, init.network⟩
    else
      match s1.ad with
      | some ad =>
        let r := ldapAuthenticateAd net ad username password
        ⟨s1, r.1, init.network ++ r.2⟩
      | none =>
        match getSetting s1.settings "userDnPattern" with
        | none =>
          ⟨s1, Settlement.rejected ⟨"Cannot read properties of undefined", none⟩, init.network⟩
        | some pattern =>
          let r := ldapAuthenticateGeneric net s1 (fillPattern pattern username) username
            password
          ⟨s1, r.1, init.network ++ r.2⟩

/-! ## Concrete handshakes -/

/-- Deactivated local user `bob`. -/
def inactiveUser : User :=
  { id := 2, username := "bob", password := "hash(bob123)", fullName := "Bob",
    email := none, isActive := false, isLdapUser := false, lastLogin := none,
    groupId := none }

/-- Collaborators for which the token `tok2` verifies to the deactivated user
`bob`. -/
def inactiveEnv : Env :=
  { sampleEnv with
    jwtVerify := fun t => if t = "tok2" then some 2 else none
    findUser := fun i => if i = 2 then some inactiveUser else none }

/-- Relay request of `bob` for device 7 over SSH, on socket 0. -/
def inactiveRequest : Request :=
  ⟨0, some "tok2", some "7", some "ssh", "192.0.2.10"⟩

/-- Relay request of `admin` for device 7 with the protocol `rdp`. -/
def rdpRequest : Request :=
  ⟨0, some "tok", some "7", some "rdp", "192.0.2.10"⟩

/-- Device 7 when it is offline. -/
def offlineDevice : Device :=
  { sampleDevice with status := "offline" }

/-- Collaborators for which device 7 is offline. -/
def offlineEnv : Env :=
  { sampleEnv with findDevice := fun d => if d = "7" then some offlineDevice else none }

/-! ## Concrete backend settings -/

/-- Settings of a remote backend without the shared secret. -/
def incompleteRows : SettingRows :=
  [("serverHost", "10.0.0.1"), ("serverPort", "49")]

/-- Settings of a RADIUS backend with every required key. -/
def radiusRows : SettingRows :=
  [("serverHost", "10.0.0.2"), ("serverPort", "1812"), ("sharedSecret", "s3cret")]

/-- A RADIUS service initialized with `radiusRows`. -/
def readyRadius : RadiusService :=
  ⟨true, radiusRows⟩

/-- Directory settings that select the Active Directory strategy. -/
def adRows : SettingRows :=
  [("ldapUrl", "ldap://ad.example.com"), ("bindDN", "cn=svc,dc=example,dc=com"),
   ("bindCredentials", "svc-secret"), ("searchBase", "dc=example,dc=com"),
   ("isActiveDirectory", "true")]

/-- Directory settings for another server that select the generic strategy. -/
def genericRows : SettingRows :=
  [("ldapUrl", "ldap://ldap.example.org"), ("bindDN", "cn=svc,dc=example,dc=org"),
   ("bindCredentials", "other-secret"), ("searchBase", "dc=example,dc=org"),
   ("isActiveDirectory", "false"),
   ("userDnPattern", "uid={username},ou=people,dc=example,dc=org"),
   ("userIdAttribute", "uid")]

/-- The error a directory reports for wrong credentials (LDAP result code 49). -/
def invalidCredentialsError : ServiceError :=
  ⟨"InvalidCredentialsError", some (ErrorCode.number 49)⟩

/-- A directory that accepts the two service accounts and `alice` with the
password `alice-pw`, and reports invalid credentials for every other bind. -/
def sampleDirectoryNet : DirectoryNet :=
  { bind := fun _ _ password =>
      if password = some "svc-secret" ∨ password = some "other-secret"
          ∨ password = some "alice-pw" then none
      else some invalidCredentialsError
    adAuthenticate := fun _ u p =>
      if u = "alice" ∧ p = "alice-pw" then AdAuthReply.auth true
      else AdAuthReply.error invalidCredentialsError
    adFindUser := fun _ u =>
      if u = "alice" then
        AdFindReply.user (some ⟨"alice", some "Alice", some "A", some "alice@example.com", none⟩)
      else AdFindReply.user none
    search := fun _ _ _ =>
      SearchReply.entries [[("uid", "alice"), ("givenName", "Alice"), ("sn", "A")]] none }

/-- The directory service initialized with `adRows`. -/
def adService : LdapService :=
  (ldapInitialize sampleDirectoryNet (some adRows) LdapService.fresh).service

/-- The directory service initialized with `adRows` and then, after the
settings were changed, with `genericRows`. -/
def reconfiguredService : LdapService :=
  (ldapInitialize sampleDirectoryNet (some genericRows) adService).service

/-! ## A TACACS+ login of a deactivated user -/

/-- Backends as in `sampleLoginEnv`, with a TACACS+ server that accepts `bob`
with the password `bob-tacacs`. -/
def bobTacacsEnv : LoginEnv :=
  { sampleLoginEnv with
    tacacsAuthenticate := fun u p =>
      if u = "bob" ∧ p = "bob-tacacs" then Verdict.accepted () else Verdict.rejected }

/-! ## Numbers of `parseInt` -/

/-- A value `parseInt` can return, or such a value plus 1: `NaN`, an infinity,
or a double whose value is an integer, given by its sign and its magnitude
(zero has a sign too). -/
inductive JsNumber where
  | nan
  | infinity (negative : Bool)
  | integer (negative : Bool) (magnitude : Nat)
  deriving DecidableEq, Repr

/-- Number of binary digits of `n`, counted in at most `fuel` halvings. -/
def bitLengthFrom : Nat → Nat → Nat
  | 0, _ => 0
  | fuel + 1, n => if n = 0 then 0 else bitLengthFrom fuel (n / 2) + 1

/-- Number of binary digits of a natural number. -/
def bitLength (n : Nat) : Nat :=
  bitLengthFrom n n

/-- The double nearest to a natural number, a tie going to the even
significand; `none` when the number is beyond the doubles and becomes an
infinity. -/
def roundToDouble (n : Nat) : Option Nat :=
  if n < 2 ^ 53 then some n
  else
    let shift := bitLength n - 53
    let q := n / 2 ^ shift
    let r := n % 2 ^ shift
    let half := 2 ^ (shift - 1)
    let q1 := if r > half ∨ (r = half ∧ q % 2 = 1) then q + 1 else q
    if bitLength (q1 * 2 ^ shift) ≤ 1024 then some (q1 * 2 ^ shift) else none

/-- Value of a digit in the given radix, `none` for a character that is not
one. -/
def digitValue (radix : Nat) (c : Char) : Option Nat :=
  let n := c.toNat
  let v :=
    if 48 ≤ n ∧ n ≤ 57 then some (n - 48)
    else if 97 ≤ n ∧ n ≤ 122 then some (n - 87)
    else if 65 ≤ n ∧ n ≤ 90 then some (n - 55)
    else none
  match v with
  | some d => if d < radix then some d else none
  | none => none

/-- The number the longest run of digits at the start of the text denotes,
after the digits `acc` already read; `none` when no digit was read at all. -/
def parseDigits (radix : Nat) : List Char → Option Nat → Option Nat
  | [], acc => acc
  | c :: cs, acc =>
    match digitValue radix c with
    | some d => parseDigits radix cs (some (acc.getD 0 * radix + d))
    | none => acc

/-- Function `parseInt(text)` with no radix: leading white space, a sign, an
optional `0x`, then the longest run of digits, read as an integer and rounded
to a double; `NaN` when there is no digit. -/
def jsParseInt (text : String) : JsNumber :=
  let cs := text.data.dropWhile isJsWhitespace
  let negative : Bool := cs.head? = some '-'
  let unsigned := if cs.head? = some '-' ∨ cs.head? = some '+' then cs.tail else cs
  let hex : Bool := unsigned.take 2 = ['0', 'x'] ∨ unsigned.take 2 = ['0', 'X']
  let value :=
    if hex then parseDigits 16 (unsigned.drop 2) none else parseDigits 10 unsigned none
  match value with
  | none => JsNumber.nan
  | some n =>
    match roundToDouble n with
    | some v => JsNumber.integer negative v
    | none => JsNumber.infinity negative

/-- Decimal digits of a natural number, the digits of `n` put before `acc`. -/
def decimalFrom : Nat → Nat → List Char → List Char
  | 0, _, acc => acc
  | fuel + 1, n, acc =>
    if n < 10 then Char.ofNat (48 + n) :: acc
    else decimalFrom fuel (n / 10) (Char.ofNat (48 + n % 10) :: acc)

/-- Decimal text of a natural number. -/
def decimalText (n : Nat) : List Char :=
  decimalFrom (n + 1) n []

/-- The bounds between which a number rounds to the double `m`, and whether
the bounds themselves do (they do when the significand of `m` is even). -/
structure RoundingInterval where
  low : Nat
  high : Nat
  closed : Bool
  deriving DecidableEq, Repr

/-- The rounding interval of a double of at least 2 ^ 55, whose neighbours
are integers: half a unit in the last place above, and below half a unit, or
a quarter when `m` is a power of two. -/
def roundingInterval (m : Nat) : RoundingInterval :=
  let ulp := 2 ^ (bitLength m - 53)
  let q := m / ulp
  let below := if q = 2 ^ 52 then ulp / 4 else ulp / 2
  ⟨m - below, m + ulp / 2, q % 2 = 0⟩

/-- Whether a number rounds to the double of the interval. -/
def RoundingInterval.contains (i : RoundingInterval) (c : Nat) : Bool :=
  if i.closed then i.low ≤ c && c ≤ i.high else i.low < c && c < i.high

/-- The decimal with the fewest significant digits that rounds to the double
`m` (the nearest to `m` among those, and of two equally near the one whose
last digit is even), as `Number::toString` chooses it: decimals of `k`
significant digits are tried for `k` from 1 on, `len` being the number of
digits of `m` and `fuel` the number of lengths still to try. -/
def shortestDecimal (m : Nat) (i : RoundingInterval) (len : Nat) : Nat → Nat → Nat
  | 0, _ => m
  | fuel + 1, k =>
    let p := 10 ^ (len - k)
    let c1 := m / p * p
    let c2 := c1 + p
    if i.contains c1 && i.contains c2 then
      if m - c1 < c2 - m then c1
      else if c2 - m < m - c1 then c2
      else if (c1 / p) % 2 = 0 then c1 else c2
    else if i.contains c1 then c1
    else if i.contains c2 then c2
    else shortestDecimal m i len fuel (k + 1)

/-- Text of a double of at least 10 ^ 21 in exponential form: the significant
digits of its shortest decimal, a point after the first when there are more,
and the exponent. -/
def exponentialText (m : Nat) : List Char :=
  let c := shortestDecimal m (roundingInterval m) (decimalText m).length 17 1
  let digits := decimalText c
  let significant := (digits.reverse.dropWhile (fun d => d = '0')).reverse
  let exponent := decimalText (digits.length - 1)
  match significant with
  | [] => digits
  | d :: rest => (if rest.isEmpty then [d] else d :: '.' :: rest) ++ 'e' :: '+' :: exponent

/-- Text of a number (`Number::toString`): decimal digits below 10 ^ 21,
exponential form from there on. -/
def JsNumber.toText : JsNumber → String
  | JsNumber.nan => "NaN"
  | JsNumber.infinity negative => if negative then "-Infinity" else "Infinity"
  | JsNumber.integer negative m =>
    if m = 0 then "0"
    else
      String.mk ((if negative then ['-'] else [])
        ++ (if m < 10 ^ 21 then decimalText m else exponentialText m))

/-- Value of `x + 1` on doubles. -/
def JsNumber.addOne : JsNumber → JsNumber
  | JsNumber.nan => JsNumber.nan
  | JsNumber.infinity negative => JsNumber.infinity negative
  | JsNumber.integer false m =>
    match roundToDouble (m + 1) with
    | some v => JsNumber.integer false v
    | none => JsNumber.infinity false
  | JsNumber.integer true m =>
    if m = 0 then JsNumber.integer false 1
    else if m = 1 then JsNumber.integer false 0
    else
      match roundToDouble (m - 1) with
      | some v => JsNumber.integer true v
      | none => JsNumber.infinity true

/-- Value of `parseInt(this.settings.timeout || '5000')`. -/
def configuredTimeout (settings : SettingRows) : JsNumber :=
  jsParseInt (orDefault (getSetting settings "timeout") "5000")

/-- The port of `_sendAccountingPacket` (radiusService.js, line 245):
`parseInt(accountingPort || parseInt(serverPort) + 1)`.  The sum is a number,
which the outer `parseInt` turns into text and reads again. -/
def accountingPort (settings : SettingRows) : JsNumber :=
  if falsy (getSetting settings "accountingPort") then
    jsParseInt (jsParseInt (templateText (getSetting settings "serverPort"))).addOne.toText
  else jsParseInt ((getSetting settings "accountingPort").getD "")

/-- Whether `socket.send` of `dgram` takes the port: an integer from 1 to
65535.  For any other value it throws `ERR_SOCKET_BAD_PORT` at once. -/
def portAccepted (port : JsNumber) : Bool :=
  match port with
  | JsNumber.integer false m => 1 ≤ m && m ≤ 65535
  | _ => false

/-- The error `client.send` throws at once for the port
`parseInt(this.settings.serverPort)`, `none` when it takes the port.  Of the
error only the code is told; the wording of its message is that of one version
of Node. -/
def radiusSendThrows (settings : SettingRows) : Option ServiceError :=
  if portAccepted (jsParseInt (templateText (getSetting settings "serverPort"))) then none
  else some ⟨"Port should be > 0 and < 65536", some (ErrorCode.text "ERR_SOCKET_BAD_PORT")⟩

/-- What happens on the socket for the settings of the service: when
`client.send` throws for the port, that and nothing else; otherwise the events
the network brings. -/
def radiusSocketEvents (settings : SettingRows) (events : List UdpEvent) : List UdpEvent :=
  match radiusSendThrows settings with
  | some err => [UdpEvent.sendThrows err]
  | none => events

/-! ## Health probes (`checkStatus` of the three services) -/

/-- What `checkStatus` resolves with, the fields `status` and `message`. -/
structure StatusReport where
  status : String
  message : String
  deriving DecidableEq, Repr

/-- Method `TacacsService.checkStatus` (lines 187-262): a test authentication
with the probe user; only the error of the callback is read. -/
def tacacsCheckStatus (server : TacacsServer) (found : Option SettingRows) (s : TacacsService) :
    Performed TacacsService StatusReport :=
  let s1 := if !s.isInitialized then (tacacsInitialize found s).1 else s
  if !s1.isInitialized then
    ⟨s1, Settlement.resolved ⟨"offline", "Serviço TACACS+ não inicializado"⟩, []⟩
  else
    let host := getSetting s1.settings "serverHost"
    let port := getSetting s1.settings "serverPort"
    let key := getSetting s1.settings "sharedSecret"
    let testUsername := orDefault (getSetting s1.settings "testUsername") "probe"
    let testPassword := orDefault (getSetting s1.settings "testPassword") "probe123"
    let report : StatusReport :=
      match server host port key testUsername testPassword with
      | TacacsReply.error err =>
        if err.code = some (ErrorCode.text "ETIMEDOUT") then
          ⟨"offline", "Servidor TACACS+ não está respondendo"⟩
        else if err.code = some (ErrorCode.text "ECONNREFUSED") then
          ⟨"offline", "Conexão recusada pelo servidor TACACS+"⟩
        else ⟨"online", "Servidor TACACS+ respondeu com erro de autenticação (esperado)"⟩
      | TacacsReply.result _ => ⟨"online", "Servidor TACACS+ operacional"⟩
    ⟨s1, Settlement.resolved report, [NetCall.tacacsAuthenticate host port testUsername]⟩

/-- The exchange of one RADIUS probe: whether the timer of line 307 is still
armed, whether the socket was closed, and how the promise stands. -/
structure ProbeExchange where
  timerArmed : Bool
  socketClosed : Bool
  outcome : Settlement StatusReport
  deriving DecidableEq, Repr

/-- Calls of `resolve`: only the first one settles the promise. -/
def ProbeExchange.settle (x : ProbeExchange) (r : StatusReport) : ProbeExchange :=
  match x.outcome with
  | Settlement.pending => { x with outcome := Settlement.resolved r }
  | _ => x

/-- The probe right after `client.send` (line 368). -/
def ProbeExchange.start : ProbeExchange :=
  ⟨true, false, Settlement.pending⟩

/-- The handlers of lines 307-385, one event at a time.  The promise is made
with `resolve` alone: it rejects only when its executor throws, which it does
when `client.send` throws. -/
def ProbeExchange.step (x : ProbeExchange) (e : UdpEvent) : ProbeExchange :=
  match e with
  | UdpEvent.message decoded =>
    let x1 := { x with timerArmed := false, socketClosed := true }
    match decoded with
    | some response =>
      x1.settle ⟨"online", "Servidor RADIUS respondeu com código: " ++ response.code⟩
    | none => x1.settle ⟨"degraded", "Erro ao decodificar resposta do servidor RADIUS"⟩
  | UdpEvent.socketError err =>
    let x1 := { x with timerArmed := false, socketClosed := true }
    if err.code = some (ErrorCode.text "ECONNREFUSED") then
      x1.settle ⟨"offline", "Conexão recusada pelo servidor RADIUS"⟩
    else x1.settle ⟨"error", "Erro de conexão: " ++ err.message⟩
  | UdpEvent.sendError err =>
    { x with timerArmed := false, socketClosed := true }.settle
      ⟨"error", "Erro ao enviar pacote: " ++ err.message⟩
  | UdpEvent.timeout =>
    if x.timerArmed then
      { x with timerArmed := false, socketClosed := true }.settle
        ⟨"offline", "Servidor RADIUS não está respondendo (timeout)"⟩
    else x
  -- the executor of the promise throws: the promise rejects, the timer stays armed
  | UdpEvent.sendThrows err =>
    match x.outcome with
    | Settlement.pending => { x with outcome := Settlement.rejected err }
    | _ => x

/-- The probe after the events of the socket, in order, and then the timer,
which fires when nothing has cleared it. -/
def ProbeExchange.run (events : List UdpEvent) : ProbeExchange :=
  (events ++ [UdpEvent.timeout]).foldl ProbeExchange.step ProbeExchange.start

/-- Method `RadiusService.checkStatus` (lines 265-395); `events` is what
happens on the socket from `client.send` on (`radiusSocketEvents` gives the
events for the settings of the service: for a port `client.send` does not
take, the only event is that it throws).  The promise is returned without
`await`, so that its rejection is not caught by the `catch` of the method. -/
def radiusCheckStatus (events : List UdpEvent) (found : Option SettingRows)
    (s : RadiusService) : Performed RadiusService StatusReport :=
  let s1 := if !s.isInitialized then (radiusInitialize found s).1 else s
  if !s1.isInitialized then
    ⟨s1, Settlement.resolved ⟨"offline", "Serviço RADIUS não inicializado"⟩, []⟩
  else
    ⟨s1, (ProbeExchange.run events).outcome,
      [NetCall.radiusSend (getSetting s1.settings "serverHost")
        (getSetting s1.settings "serverPort")]⟩

/-- Method `LdapService.checkStatus` (lines 408-485).  A rejection of the
initializer is caught and reported with the status `error`; with no client
the executor of the promise throws, and the promise rejects. -/
def ldapCheckStatus (net : DirectoryNet) (found : Option SettingRows) (s : LdapService) :
    Performed LdapService StatusReport :=
  let init : Performed LdapService Bool :=
    if !s.isInitialized then ldapInitialize net found s
    else ⟨s, Settlement.resolved true, []⟩
  match init.outcome with
  | Settlement.rejected err =>
    ⟨init.service, Settlement.resolved ⟨"error", "Erro inesperado: " ++ err.message⟩,
      init.network⟩
  | Settlement.pending => ⟨init.service, Settlement.pending, init.network⟩
  | Settlement.resolved _ =>
    let s1 := init.service
    if !s1.isInitialized then
      ⟨s1, Settlement.resolved ⟨"offline", "Serviço LDAP não inicializado"⟩, init.network⟩
    else
      match s1.client with
      | none =>
        ⟨s1, Settlement.rejected ⟨"Cannot read properties of null", none⟩, init.network⟩
      | some client =>
        let bindDN := getSetting s1.settings "bindDN"
        let calls := init.network ++ [NetCall.ldapBind client.url bindDN]
        match net.bind client.url bindDN (getSetting s1.settings "bindCredentials") with
        | some err =>
          ⟨s1, Settlement.resolved ⟨"offline", "Erro na conexão: " ++ err.message⟩, calls⟩
        | none =>
          let calls2 := calls ++ [NetCall.ldapSearch (some "") "(objectClass=*)"]
          match net.search client (some "") "(objectClass=*)" with
          | SearchReply.error err =>
            ⟨s1, Settlement.resolved
              ⟨"degraded", "Conexão OK, mas erro na busca: " ++ err.message⟩, calls2⟩
          | SearchReply.entries _ (some err) =>
            ⟨s1, Settlement.resolved
              ⟨"degraded", "Conexão OK, mas erro na busca: " ++ err.message⟩, calls2⟩
          | SearchReply.entries _ none =>
            ⟨s1, Settlement.resolved ⟨"online", "Servidor LDAP operacional"⟩, calls2⟩

/-- The three service singletons. -/
structure Services where
  ldap : LdapService
  tacacs : TacacsService
  radius : RadiusService
  deriving DecidableEq, Repr

/-- The servers and the settings table, as the probes meet them;
`radiusEvents` is what the network brings to the socket of the RADIUS probe
once the probe is sent. -/
structure ProbeEnv where
  net : DirectoryNet
  tacacsServer : TacacsServer
  radiusEvents : List UdpEvent
  ldapFound : Option SettingRows
  tacacsFound : Option SettingRows
  radiusFound : Option SettingRows

/-- HTTP response of `checkAuthServices`: the three reports, the 500 of the
`catch`, or no response when a probe never settles. -/
inductive ServicesResponse where
  | statuses (ldap tacacs radius : StatusReport)
  | serverError (message : String)
  | unanswered
  deriving DecidableEq, Repr

/-- Handler `exports.checkAuthServices` (authController.js, lines 278-295):
the three probes are awaited one after another inside one `try`, whose `catch`
answers 500 when a probe rejects. -/
def checkAuthServices (env : ProbeEnv) (sv : Services) : Services × ServicesResponse :=
  let l := ldapCheckStatus env.net env.ldapFound sv.ldap
  match l.outcome with
  | Settlement.rejected _ => ({ sv with ldap := l.service }, ServicesResponse.serverError
      "Erro interno do servidor")
  | Settlement.pending => ({ sv with ldap := l.service }, ServicesResponse.unanswered)
  | Settlement.resolved ldapReport =>
    let t := tacacsCheckStatus env.tacacsServer env.tacacsFound sv.tacacs
    match t.outcome with
    | Settlement.rejected _ => (⟨l.service, t.service, sv.radius⟩,
        ServicesResponse.serverError "Erro interno do servidor")
    | Settlement.pending => (⟨l.service, t.service, sv.radius⟩, ServicesResponse.unanswered)
    | Settlement.resolved tacacsReport =>
      -- the settings the RADIUS probe reads, after its initializer has run
      let settings :=
        (if !sv.radius.isInitialized then (radiusInitialize env.radiusFound sv.radius).1
          else sv.radius).settings
      let r := radiusCheckStatus (radiusSocketEvents settings env.radiusEvents) env.radiusFound
        sv.radius
      match r.outcome with
      | Settlement.rejected _ => (⟨l.service, t.service, r.service⟩,
          ServicesResponse.serverError "Erro interno do servidor")
      | Settlement.pending => (⟨l.service, t.service, r.service⟩, ServicesResponse.unanswered)
      | Settlement.resolved radiusReport =>
        (⟨l.service, t.service, r.service⟩,
          ServicesResponse.statuses ldapReport tacacsReport radiusReport)

/-! ## Probes and the time they wait -/

/-- A TACACS+ server as a client made with the given `timeout` option meets
it. -/
abbrev TimedTacacsServer :=
  JsNumber → TacacsServer

/-- Method `TacacsService.checkStatus` with the `timeout` option of its client
(lines 200-206): `timeout: parseInt(this.settings.timeout || '5000')`. -/
def tacacsCheckStatusTimed (server : TimedTacacsServer) (found : Option SettingRows)
    (s : TacacsService) : Performed TacacsService StatusReport :=
  let s1 := if !s.isInitialized then (tacacsInitialize found s).1 else s
  tacacsCheckStatus (server (configuredTimeout s1.settings)) found s

/-- The delay, in milliseconds, of the timer of `RadiusService.checkStatus`
(line 313, `Timeout mais curto para verificação de status`). -/
def radiusProbeTimeout : Nat :=
  3000

/-- Method `RadiusService.checkStatus` for events that come with the time, in
milliseconds after `client.send`, at which they happen: the handlers see the
events that come before the timer fires, and then the timer. -/
def radiusCheckStatusTimed (arrivals : List (Nat × UdpEvent)) (found : Option SettingRows)
    (s : RadiusService) : Performed RadiusService StatusReport :=
  radiusCheckStatus ((arrivals.filter (fun a => a.1 < radiusProbeTimeout)).map (fun a => a.2))
    found s

/-- A TACACS+ server that rejects the user after `delay` milliseconds: a
client whose timeout is a number of milliseconds not above the delay gets the
error `ETIMEDOUT`, any other client gets the reply. -/
def answersAfter (delay : Nat) : TimedTacacsServer :=
  fun timeout _ _ _ _ _ =>
    match timeout with
    | JsNumber.integer _ t =>
      if t ≤ delay then TacacsReply.error ⟨"timeout", some (ErrorCode.text "ETIMEDOUT")⟩
      else TacacsReply.result false
    | _ => TacacsReply.result false

/-! ## A concrete probe of the three backends -/

/-- A directory that refuses every connection. -/
def downDirectoryNet : DirectoryNet :=
  { sampleDirectoryNet with
    bind := fun _ _ _ => some ⟨"connect ECONNREFUSED", some (ErrorCode.text "ECONNREFUSED")⟩ }

/-- The directory is down, the TACACS+ server rejects the probe user and the
RADIUS server does not answer; the three backends have their settings. -/
def downProbeEnv : ProbeEnv :=
  { net := downDirectoryNet
    tacacsServer := fun _ _ _ _ _ => TacacsReply.result false
    radiusEvents := []
    ldapFound := some adRows
    tacacsFound := some radiusRows
    radiusFound := some radiusRows }

/-- The three services right after the process has started. -/
def freshServices : Services :=
  ⟨LdapService.fresh, ⟨false, []⟩, ⟨false, []⟩⟩

/-- RADIUS settings that name every required key, with the port 99999. -/
def badPortRows : SettingRows :=
  [("serverHost", "10.0.0.2"), ("serverPort", "99999"), ("sharedSecret", "s3cret")]

/-- The directory answers, the TACACS+ server rejects the probe user, and the
RADIUS settings are `badPortRows`. -/
def badPortProbeEnv : ProbeEnv :=
  { net := sampleDirectoryNet
    tacacsServer := fun _ _ _ _ _ => TacacsReply.result false
    radiusEvents := []
    ldapFound := some adRows
    tacacsFound := some radiusRows
    radiusFound := some badPortRows }

/-! ## Settings controller (settingController.js, lines 52-182) -/

/-- Row of the `Settings` table; `category` and `key` together are unique. -/
structure Setting where
  category : String
  key : String
  value : String
  description : Option String
  deriving DecidableEq, Repr

/-- Element of the array `getSettingsByCategory` answers with and
`updateSettings` reads: the fields `key`, `value` and `description` (a missing
`key` is the empty string, a missing `value` is `none`; a missing
`description` is `none`, one that is `null` is `some none`), and
`isSensitive`. -/
structure SettingItem where
  key : String
  value : Option String
  description : Option (Option String)
  isSensitive : Bool
  deriving DecidableEq, Repr

/-- Collaborators of the settings controller. -/
structure SettingsEnv where
  /-- Method `String.prototype.toLowerCase`. -/
  toLowerCase : String → String
  /-- Order of two keys under `order: [['key', 'ASC']]`, as the database
  collates them. -/
  keyOrder : String → String → Bool

/-- Method `String.prototype.includes`. -/
def includesText (needle : List Char) : List Char → Bool
  | [] => needle.isEmpty
  | c :: cs => needle.isPrefixOf (c :: cs) || includesText needle cs

/-- The test of lines 63-65: the lower-cased key includes `password`,
`secret` or `credentials`. -/
def isSensitiveKey (env : SettingsEnv) (key : String) : Bool :=
  includesText "password".data (env.toLowerCase key).data
    || includesText "secret".data (env.toLowerCase key).data
    || includesText "credentials".data (env.toLowerCase key).data

/-- The mask of a sensitive value. -/
def maskedValue : String :=
  "******"

/-- The callback of `settings.map` (lines 62-73): a sensitive row is answered
with the mask for its value, another row as it is. -/
def processSetting (env : SettingsEnv) (setting : Setting) : SettingItem :=
  if isSensitiveKey env setting.key then
    ⟨setting.key, some maskedValue, some setting.description, true⟩
  else ⟨setting.key, some setting.value, some setting.description, false⟩

/-- Handler `exports.getSettingsByCategory` (lines 52-80): the rows of the
category in key order, the sensitive values masked. -/
def getSettingsByCategory (env : SettingsEnv) (db : List Setting) (category : String) :
    List SettingItem :=
  let settings := (db.filter (fun s => s.category = category)).insertionSort
    (fun a b => env.keyOrder a.key b.key = true)
  settings.map (processSetting env)

/-- Lookup `Setting.findOne` with `where: category, key`. -/
def findSetting (db : List Setting) (category key : String) : Option Setting :=
  db.find? (fun s => s.category = category ∧ s.key = key)

/-- Call `Setting.upsert` (lines 118-123): the row of that category and key
gets the value, and the description when the item has one (a `description`
that is `undefined` leaves the stored one); with no such row, a new row is
added. -/
def upsertSetting (db : List Setting) (category key value : String)
    (description : Option (Option String)) : List Setting :=
  match findSetting db category key with
  | some _ =>
    db.map fun s =>
      if s.category = category ∧ s.key = key then
        { s with value := value, description := description.getD s.description }
      else s
  | none => db ++ [⟨category, key, value, description.getD none⟩]

/-- The loop inside the transaction (lines 97-129): the table after the last
item, or the message of the error that aborts the transaction. -/
def updateLoop (category : String) : List SettingItem → List Setting → Except String (List Setting)
  | [], db => Except.ok db
  | setting :: rest, db =>
    if setting.key = "" then
      Except.error "Todas as configurações devem ter uma chave (key)"
    else
      let value : Except String (Option String) :=
        if setting.value = some maskedValue then
          match findSetting db category setting.key with
          | some currentSetting => Except.ok (some currentSetting.value)
          | none =>
            Except.error ("Configuração sensível " ++ setting.key ++ " não existe atualmente")
        else Except.ok setting.value
      match value with
      | Except.error message => Except.error message
      | Except.ok none => Except.error "notNull Violation: Setting.value cannot be null"
      | Except.ok (some v) =>
        updateLoop category rest (upsertSetting db category setting.key v setting.description)

/-- What `updateSettings` did: the table after it (the table before it when
the transaction was rolled back) and the status and message of the response. -/
structure UpdateResult where
  db : List Setting
  status : Nat
  message : String
  deriving DecidableEq, Repr

/-- Handler `exports.updateSettings` (lines 83-182) for a body that is an
array, where the audit record and the re-initialisation of the service that
follow the transaction succeed. -/
def updateSettings (db : List Setting) (category : String) (settings : List SettingItem) :
    UpdateResult :=
  match updateLoop category settings db with
  | Except.ok db' =>
    ⟨db', 200, "Configurações da categoria " ++ category ++ " atualizadas com sucesso"⟩
  | Except.error message => ⟨db, 500, "Erro ao atualizar configurações: " ++ message⟩

/-- The unique index on `category` and `key`. -/
def SettingsWF (db : List Setting) : Prop :=
  (db.map (fun s => (s.category, s.key))).Nodup

/-- A settings table with the RADIUS settings and one directory setting. -/
def sampleSettings : List Setting :=
  [⟨"radius", "serverHost", "10.0.0.2", none⟩,
   ⟨"radius", "sharedSecret", "s3cret", some "segredo"⟩,
   ⟨"radius", "serverPort", "1812", none⟩,
   ⟨"ldap", "bindCredentials", "svc-secret", none⟩]

/-- Collaborators with ASCII lower-casing and the order of the code points. -/
def sampleSettingsEnv : SettingsEnv :=
  { toLowerCase := fun s => String.mk (s.data.map Char.toLower)
    keyOrder := fun a b => decide (a.data ≤ b.data) }

/-! ## Directory synchronisation (ldapService.js, lines 219-405) -/

/-- A user object of `ad.findUsers`, the attributes the synchronisation
reads. -/
structure AdSyncUser where
  sAMAccountName : Option String
  givenName : Option String
  sn : Option String
  mail : Option String
  userPrincipalName : Option String
  userAccountControl : Option Nat
  deriving DecidableEq, Repr

/-- How the callback of `ad.findUsers` is called: `(err, users)`. -/
inductive AdFindUsersReply where
  | error (err : ServiceError)
  | users (found : Option (List AdSyncUser))
  deriving DecidableEq, Repr

/-- What the body of the loop computes from one `ldapUser`: the name it looks
the local row up by, the attributes it writes, the `isActive` of a created row
and the `isActive` of an update (`none` when the update leaves it alone). -/
structure SyncPrincipal where
  username : Option String
  fullName : String
  email : Option String
  createActive : Bool
  updateActive : Option Bool
  deriving DecidableEq, Repr

/-- Collaborators of the synchronisation. -/
structure SyncEnv where
  /-- Outcome of `ad.findUsers(userFilter)`. -/
  adFindUsers : ActiveDirectory → String → AdFindUsersReply
  /-- Whether `User.findOrCreate` throws for this principal (a validation
  error, a database error). -/
  findOrCreateThrows : SyncPrincipal → Bool
  /-- Whether `user.update` throws for this principal. -/
  updateThrows : SyncPrincipal → Bool
  /-- Value of `Math.random().toString(36).substring(2)`. -/
  randomPassword : String

/-- The counters `synced`, `updated` and `total` the promise resolves with. -/
structure SyncCounts where
  synced : Nat
  updated : Nat
  total : Nat
  deriving DecidableEq, Repr

/-- The `Users` table and the two counters of the loop. -/
structure SyncState where
  users : List User
  synced : Nat
  updated : Nat
  deriving DecidableEq, Repr

/-- What a call of `syncUsers` did: the service and the `Users` table after
it, how its promise ends and the calls made to servers. -/
structure SyncResult where
  service : LdapService
  outcome : Settlement SyncCounts
  users : List User
  network : List NetCall

/-- Method `String.prototype.split` for a separator of one character. -/
def splitAtChar (sep : Char) : List Char → List (List Char)
  | [] => [[]]
  | c :: cs =>
    if c = sep then [] :: splitAtChar sep cs
    else
      match splitAtChar sep cs with
      | [] => [[c]]
      | w :: ws => (c :: w) :: ws

/-- The `allowedGroups` of lines 230-231. -/
def allowedGroups (settings : SettingRows) : List String :=
  match getSetting settings "allowedGroups" with
  | none => []
  | some text =>
    if text = "" then []
    else (splitAtChar ',' text.data).map fun g => String.mk (jsTrim g)

/-- The `userFilter` of the Active Directory branch (lines 236-248). -/
def adUserFilter (settings : SettingRows) : String :=
  let groups := allowedGroups settings
  let base := templateText (orElse (getSetting settings "groupSearchBase")
    (getSetting settings "searchBase"))
  "(&(objectClass=user)(!(objectClass=computer))"
    ++ (if groups.length > 0 then
          "(|" ++ String.join (groups.map fun group =>
            "(memberOf=CN=" ++ group ++ "," ++ base ++ ")") ++ ")"
        else "")
    ++ ")"

/-- The `userFilter` of the generic branch (lines 310-317). -/
def genericUserFilter (settings : SettingRows) : String :=
  "(&(objectClass=" ++ orDefault (getSetting settings "userObjectClass") "person" ++ ")"
    ++ (if falsy (getSetting settings "userFilter") then ""
        else templateText (getSetting settings "userFilter"))
    ++ ")"

/-- The full name of lines 268 and 369: the two names, each replaced by the
empty text when it is missing, with a blank between them, trimmed. -/
def syncFullName (first last : Option String) : String :=
  String.mk (jsTrim ((orDefault first "" ++ " " ++ orDefault last "").data))

/-- What the Active Directory branch reads from a user object (lines 262-275):
the account is active unless bit 2 (`ACCOUNTDISABLE`) of
`userAccountControl` is set. -/
def adPrincipal (ldapUser : AdSyncUser) : SyncPrincipal :=
  let isActive : Bool := ((ldapUser.userAccountControl.getD 0) % 2 ^ 32) &&& 2 = 0
  { username := ldapUser.sAMAccountName
    fullName := syncFullName ldapUser.givenName ldapUser.sn
    email := orElse ldapUser.mail ldapUser.userPrincipalName
    createActive := isActive
    updateActive := some isActive }

/-- What the generic branch reads from an entry (lines 357-375): a created
row is active, an update leaves `isActive` alone. -/
def genericPrincipal (settings : SettingRows) (ldapUser : List (String × String)) :
    SyncPrincipal :=
  let valueOf := fun (name : Option String) =>
    (ldapUser.find? (fun kv => some kv.1 = name)).map (fun kv => kv.2)
  let first := orElse (getSetting settings "userFirstNameAttribute") (some "givenName")
  let last := orElse (getSetting settings "userLastNameAttribute") (some "sn")
  let mail := orElse (getSetting settings "userEmailAttribute") (some "mail")
  { username := valueOf (getSetting settings "userIdAttribute")
    fullName := syncFullName (valueOf first) (valueOf last)
    email := valueOf mail
    createActive := true
    updateActive := none }

/-- The body of the loop `for (const ldapUser of users)` (lines 259-296 and
355-393): `User.findOrCreate` by the name, `synced++` for a created row, and
for a row that was there and is a directory user the update and `updated++`.
An error thrown on the way is caught and the loop goes on; `findOrCreate`
throws for a `where` whose name is `undefined`. -/
def syncUser (env : SyncEnv) (st : SyncState) (p : SyncPrincipal) : SyncState :=
  match p.username with
  | none => st
  | some username =>
    if env.findOrCreateThrows p then st
    else
      match st.users.find? (fun u => u.username = username) with
      | none =>
        let user : User :=
          { id := (st.users.map (fun u => u.id)).foldr max 0 + 1
            username := username
            password := env.randomPassword
            fullName := p.fullName
            email := p.email
            isActive := p.createActive
            isLdapUser := true
            lastLogin := none
            groupId := none }
        { users := st.users ++ [user], synced := st.synced + 1, updated := st.updated }
      | some user =>
        if user.isLdapUser then
          if env.updateThrows p then st
          else
            { users := st.users.map fun u =>
                if u.id = user.id then
                  -- `user.update` leaves a column alone whose new value is `undefined`
                  { u with fullName := p.fullName,
                           email := if p.email.isSome then p.email else u.email,
                           isActive := p.updateActive.getD u.isActive }
                else u
              synced := st.synced
              updated := st.updated + 1 }
        else st

/-- The loop over the users of the enumeration, from both counters at 0. -/
def syncLoop (env : SyncEnv) (users : List User) (principals : List SyncPrincipal) :
    SyncState :=
  principals.foldl (syncUser env) ⟨users, 0, 0⟩

/-- Method `LdapService.syncUsers` (lines 220-405).  `this.ad` decides the
branch; the rejection of the initializer and the error of the enumeration
reject the promise. -/
def ldapSyncUsers (net : DirectoryNet) (env : SyncEnv) (found : Option SettingRows)
    (s : LdapService) (users : List User) : SyncResult :=
  let init : Performed LdapService Bool :=
    if !s.isInitialized then ldapInitialize net found s
    else ⟨s, Settlement.resolved true, []⟩
  match init.outcome with
  | Settlement.rejected err => ⟨init.service, Settlement.rejected err, users, init.network⟩
  | Settlement.pending => ⟨init.service, Settlement.pending, users, init.network⟩
  | Settlement.resolved _ =>
    let s1 := init.service
    if !s1.isInitialized then
      ⟨s1, Settlement.rejected ⟨"Serviço LDAP não inicializado", none⟩, users, init.network⟩
    else
      match s1.ad with
      | some ad =>
        match env.adFindUsers ad (adUserFilter s1.settings) with
        | AdFindUsersReply.error err => ⟨s1, Settlement.rejected err, users, init.network⟩
        | AdFindUsersReply.users none =>
          ⟨s1, Settlement.resolved ⟨0, 0, 0⟩, users, init.network⟩
        | AdFindUsersReply.users (some ldapUsers) =>
          if ldapUsers.length = 0 then
            ⟨s1, Settlement.resolved ⟨0, 0, 0⟩, users, init.network⟩
          else
            let st := syncLoop env users (ldapUsers.map adPrincipal)
            ⟨s1, Settlement.resolved ⟨st.synced, st.updated, ldapUsers.length⟩, st.users,
              init.network⟩
      | none =>
        match s1.client with
        | none =>
          ⟨s1, Settlement.rejected ⟨"Cannot read properties of null", none⟩, users,
            init.network⟩
        | some client =>
          let base := getSetting s1.settings "searchBase"
          let filter := genericUserFilter s1.settings
          let calls := init.network ++ [NetCall.ldapSearch base filter]
          match net.search client base filter with
          | SearchReply.error err => ⟨s1, Settlement.rejected err, users, calls⟩
          | SearchReply.entries _ (some err) => ⟨s1, Settlement.rejected err, users, calls⟩
          | SearchReply.entries objects none =>
            let st := syncLoop env users (objects.map (genericPrincipal s1.settings))
            ⟨s1, Settlement.resolved ⟨st.synced, st.updated, objects.length⟩, st.users, calls⟩

/-- The principals of the enumeration an initialized service gets: the users
of `ad.findUsers` when `this.ad` is set, else the entries of the search;
`none` when the enumeration ends in an error. -/
def enumeratedPrincipals (net : DirectoryNet) (env : SyncEnv) (s : LdapService) :
    Option (List SyncPrincipal) :=
  match s.ad with
  | some ad =>
    match env.adFindUsers ad (adUserFilter s.settings) with
    | AdFindUsersReply.error _ => none
    | AdFindUsersReply.users none => some []
    | AdFindUsersReply.users (some ldapUsers) => some (ldapUsers.map adPrincipal)
  | none =>
    match s.client with
    | none => none
    | some client =>
      match net.search client (getSetting s.settings "searchBase")
          (genericUserFilter s.settings) with
      | SearchReply.entries objects none => some (objects.map (genericPrincipal s.settings))
      | _ => none

/-- Whether the `Users` table has a row with the name of the principal. -/
def existsLocally (users : List User) (p : SyncPrincipal) : Bool :=
  match p.username with
  | none => false
  | some username => (users.find? (fun u => u.username = username)).isSome

/-- Whether the row with the name of the principal is there and is a
directory user (`isLdapUser`). -/
def isLocalShadow (users : List User) (p : SyncPrincipal) : Bool :=
  match p.username with
  | none => false
  | some username =>
    (users.find? (fun u => u.username = username)).map (fun u => u.isLdapUser) = some true

/-- Whether the processing of the principal throws: it has no name,
`findOrCreate` throws, or the update of its directory row throws. -/
def syncFails (env : SyncEnv) (users : List User) (p : SyncPrincipal) : Bool :=
  p.username.isNone || env.findOrCreateThrows p
    || (isLocalShadow users p && env.updateThrows p)

/-- Whether the principal is processed without an error and has no row yet. -/
def syncCreates (env : SyncEnv) (users : List User) (p : SyncPrincipal) : Bool :=
  !syncFails env users p && !existsLocally users p

/-- Whether the principal is processed without an error and its row is there
and is a directory user. -/
def syncUpdates (env : SyncEnv) (users : List User) (p : SyncPrincipal) : Bool :=
  !syncFails env users p && isLocalShadow users p

/-- Whether the attributes the principal brings differ from those of the row
with its name: the full name, the address, or the `isActive` an update would
write. -/
def attributesDiffer (users : List User) (p : SyncPrincipal) : Bool :=
  match p.username with
  | none => false
  | some username =>
    match users.find? (fun u => u.username = username) with
    | none => false
    | some user =>
      user.fullName ≠ p.fullName ∨ user.email ≠ p.email
        ∨ p.updateActive.getD user.isActive ≠ user.isActive

/-- Local users: `admin` (local), and `erin` and `frank` that came from the
directory. -/
def syncedUsers : List User :=
  [sampleUser,
   { id := 2, username := "erin", password := "x1", fullName := "Erin E",
     email := some "erin@example.com", isActive := true, isLdapUser := true,
     lastLogin := none, groupId := none },
   { id := 3, username := "frank", password := "x2", fullName := "Frank F",
     email := none, isActive := true, isLdapUser := true, lastLogin := none,
     groupId := none }]

/-- A directory that lists `erin` (unchanged), `frank` (renamed), `gina`
(new), `admin` (a local account of the same name) and `hank`, whose row the
database refuses. -/
def syncDirectory : List AdSyncUser :=
  [⟨some "erin", some "Erin", some "E", some "erin@example.com", none, some 512⟩,
   ⟨some "frank", some "Franklin", some "F", none, none, some 512⟩,
   ⟨some "gina", some "Gina", some "G", none, some "gina@example.com", some 514⟩,
   ⟨some "admin", some "Admin", none, none, none, some 512⟩,
   ⟨some "hank", some "Hank", some "H", some "not-an-address", none, some 512⟩]

/-- Collaborators that answer the enumeration with `syncDirectory` and throw
for the principal with the address `not-an-address`. -/
def sampleSyncEnv : SyncEnv :=
  { adFindUsers := fun _ _ => AdFindUsersReply.users (some syncDirectory)
    findOrCreateThrows := fun p => p.email = some "not-an-address"
    updateThrows := fun _ => false
    randomPassword := "r4nd0m" }

/-- A directory that lists `erin` alone, with the attributes her row has. -/
def unchangedSyncEnv : SyncEnv :=
  { sampleSyncEnv with
    adFindUsers := fun _ _ => AdFindUsersReply.users (some
      [⟨some "erin", some "Erin", some "E", some "erin@example.com", none, some 512⟩]) }

/-! ## Lemmas on the map -/

theorem mapGet_mapSet_self (m : List (String × ConnectionInfo)) (k : String)
    (v : ConnectionInfo) : mapGet (mapSet m k v) k = some v := by
  induction m with
  | nil => simp [mapSet, mapGet]
  | cons e rest ih =>
    obtain ⟨k', v'⟩ := e
    by_cases h : k' = k
    · simp [mapSet, mapGet, h]
    · simp [mapSet, mapGet, h, ih]

theorem mapGet_mapSet_ne (m : List (String × ConnectionInfo)) (k j : String)
    (v : ConnectionInfo) (h : j ≠ k) : mapGet (mapSet m k v) j = mapGet m j := by
  induction m with
  | nil => simp [mapSet, mapGet, Ne.symm h]
  | cons e rest ih =>
    obtain ⟨k', v'⟩ := e
    by_cases hk : k' = k
    · subst hk
      simp [mapSet, mapGet, Ne.symm h]
    · by_cases hj : k' = j
      · subst hj
        simp [mapSet, mapGet, h]
      · simp [mapSet, mapGet, hk, hj, ih]

theorem mapGet_eq_none_of_not_mem (m : List (String × ConnectionInfo)) (k : String)
    (h : k ∉ m.map Prod.fst) : mapGet m k = none := by
  induction m with
  | nil => rfl
  | cons e rest ih =>
    obtain ⟨k', v'⟩ := e
    simp only [List.map_cons, List.mem_cons, not_or] at h
    simp [mapGet, Ne.symm h.1, ih h.2]

theorem mapGet_mapDelete_self (m : List (String × ConnectionInfo)) (k : String)
    (hm : MapWF m) : mapGet (mapDelete m k) k = none := by
  induction m with
  | nil => rfl
  | cons e rest ih =>
    obtain ⟨k', v'⟩ := e
    have hnd : k' ∉ rest.map Prod.fst ∧ MapWF rest := by
      simpa [MapWF] using hm
    by_cases h : k' = k
    · subst h
      simpa [mapDelete] using mapGet_eq_none_of_not_mem rest k' hnd.1
    · simp [mapDelete, mapGet, h, ih hnd.2]

/-! ## Lemmas on the handlers -/

/-- No handshake leaves a session record that references an SSH client: a
record of the map after `onConnection` is a record that was there before, or
has `client = null`. -/
theorem onConnection_client (env : Env) (w : World) (req : Request) (sid : String)
    (info : ConnectionInfo)
    (h : mapGet (onConnection env w req).connections sid = some info) :
    info.client = none ∨ ∃ old, mapGet w.connections sid = some old := by
  unfold onConnection at h
  simp only [World.reject, World.send, World.close] at h
  split at h
  · exact Or.inr ⟨info, h⟩
  · split at h
    · exact Or.inr ⟨info, h⟩
    · split at h
      · rename_i user device _ _
        split at h
        · exact Or.inr ⟨info, h⟩
        · split at h
          · exact Or.inr ⟨info, h⟩
          · split at h
            · exact Or.inr ⟨info, h⟩
            · unfold acceptConnection at h
              simp only [World.send, World.close] at h
              split at h
              · exact Or.inr ⟨info, h⟩
              · by_cases hs : sid = sessionIdOf user device env.now
                · subst hs
                  rw [mapGet_mapSet_self] at h
                  left
                  cases h
                  rfl
                · rw [mapGet_mapSet_ne _ _ _ _ hs] at h
                  right
                  split at h
                  · unfold handleSshConnection at h
                    simp only at h
                    split at h
                    · rw [mapGet_mapSet_ne _ _ _ _ hs] at h
                      exact ⟨info, h⟩
                    · exact ⟨info, h⟩
                  · split at h
                    · exact ⟨info, h⟩
                    · exact ⟨info, h⟩
      · exact Or.inr ⟨info, h⟩

/-- Teardown on a registered session when neither `client.end()` nor
`AccessLog.create` fails. -/
theorem handleConnectionClose_ok (env : Env) (w : World) (sid addr : String)
    (info : ConnectionInfo) (hm : MapWF w.connections)
    (hget : mapGet w.connections sid = some info)
    (hend : endRaises env info = false)
    (hlog : env.accessLogCreateThrows (closingEntry env info addr) = false) :
    (handleConnectionClose env w sid addr).sshEnded = w.sshEnded ++ info.client.toList
    ∧ (handleConnectionClose env w sid addr).accessLogs
        = w.accessLogs ++ [closingEntry env info addr]
    ∧ mapGet (handleConnectionClose env w sid addr).connections sid = none
    ∧ (handleConnectionClose env w sid addr).errorLog = w.errorLog := by
  unfold handleConnectionClose
  rw [hget]
  cases hc : info.client with
  | none =>
    simp [hc, hlog, mapGet_mapDelete_self _ _ hm]
  | some c =>
    have : env.clientEndThrows c = false := by simpa [endRaises, hc] using hend
    simp [hc, this, hlog, mapGet_mapDelete_self _ _ hm]

/-- Teardown when `AccessLog.create` fails: the `catch` is reached before the
session is deleted. -/
theorem handleConnectionClose_audit_fails (env : Env) (w : World) (sid addr : String)
    (info : ConnectionInfo)
    (hget : mapGet w.connections sid = some info)
    (hend : endRaises env info = false)
    (hlog : env.accessLogCreateThrows (closingEntry env info addr) = true) :
    (handleConnectionClose env w sid addr).sshEnded = w.sshEnded ++ info.client.toList
    ∧ (handleConnectionClose env w sid addr).accessLogs = w.accessLogs
    ∧ (handleConnectionClose env w sid addr).connections = w.connections
    ∧ (handleConnectionClose env w sid addr).errorLog
        = w.errorLog ++ ["Erro ao fechar sessão " ++ sid] := by
  unfold handleConnectionClose
  rw [hget]
  cases hc : info.client with
  | none => simp [hc, hlog]
  | some c =>
    have : env.clientEndThrows c = false := by simpa [endRaises, hc] using hend
    simp [hc, this, hlog]

/-- Teardown when `client.end()` throws: nothing else of the `try` block runs. -/
theorem handleConnectionClose_end_fails (env : Env) (w : World) (sid addr : String)
    (info : ConnectionInfo)
    (hget : mapGet w.connections sid = some info)
    (hend : endRaises env info = true) :
    (handleConnectionClose env w sid addr).sshEnded = w.sshEnded
    ∧ (handleConnectionClose env w sid addr).accessLogs = w.accessLogs
    ∧ (handleConnectionClose env w sid addr).connections = w.connections
    ∧ (handleConnectionClose env w sid addr).errorLog
        = w.errorLog ++ ["Erro ao fechar sessão " ++ sid] := by
  unfold handleConnectionClose
  rw [hget]
  cases hc : info.client with
  | none => simp [endRaises, hc] at hend
  | some c =>
    have : env.clientEndThrows c = true := by simpa [endRaises, hc] using hend
    simp [hc, this]

/-- One round of the sweep adds what `endedBy`, `closedBy` and `raisedBy` say
and touches nothing else. -/
theorem closeSession_eq (env : Env) (w : World) (sid : String) (info : ConnectionInfo) :
    closeSession env w sid info =
      { w with
        sshEnded := w.sshEnded ++ endedBy env info
        wsClosed := w.wsClosed ++ closedBy env info
        errorLog := w.errorLog ++ raisedBy env sid info } := by
  unfold closeSession endedBy closedBy raisedBy endRaises World.close
  cases hc : info.client with
  | none =>
    cases ho : env.wsOpen info.ws <;> cases ht : env.wsCloseThrows info.ws <;>
      simp [hc, ho, ht]
  | some c =>
    cases he : env.clientEndThrows c <;> cases ho : env.wsOpen info.ws <;>
      cases ht : env.wsCloseThrows info.ws <;> simp [hc, he, ho, ht]

/-- The rounds of the sweep, one after another. -/
theorem closeSession_foldl (env : Env) (l : List (String × ConnectionInfo)) (w : World) :
    l.foldl (fun acc e => closeSession env acc e.1 e.2) w =
      { w with
        sshEnded := w.sshEnded ++ l.flatMap (fun e => endedBy env e.2)
        wsClosed := w.wsClosed ++ l.flatMap (fun e => closedBy env e.2)
        errorLog := w.errorLog ++ l.flatMap (fun e => raisedBy env e.1 e.2) } := by
  induction l generalizing w with
  | nil => simp
  | cons e rest ih =>
    rw [List.foldl_cons, ih]
    simp only [closeSession_eq, List.flatMap_cons, List.append_assoc]

/-! ## Claims on teardown -/

/-- C1 (defect of the code).  The claim: the session record of a session whose
SSH client `handleSshConnection` opened references that client, so that
teardown ends the device connection.  In the code `handleSshConnection` runs
before `connections.set`: for `sampleRequest` the handshake opens SSH client 0
and registers session `1_7_1000` with `client = null`; when the client channel
closes, teardown removes the session and ends no SSH client. -/
theorem handshake_record_has_no_client :
    sampleWorld.sshConnects.map (fun c => c.client) = [0]
    ∧ (mapGet sampleWorld.connections "1_7_1000").map (fun i => i.client) = some none
    ∧ (onWsClose laterEnv sampleWorld "1_7_1000" "192.0.2.10").sshEnded = []
    ∧ mapGet (onWsClose laterEnv sampleWorld "1_7_1000" "192.0.2.10").connections
        "1_7_1000" = none := by
  decide

/-- C2, counterexample.  With `AccessLog.create` failing, `handleConnectionClose`
on the registered session `1_7_1000` leaves the session in the map and records
no closing entry. -/
theorem close_with_failing_audit_keeps_session :
    mapGet sampleWorld.connections "1_7_1000" = some sampleInfo
    ∧ mapGet (handleConnectionClose auditDownEnv sampleWorld "1_7_1000"
        "192.0.2.10").connections "1_7_1000" = some sampleInfo
    ∧ (handleConnectionClose auditDownEnv sampleWorld "1_7_1000" "192.0.2.10").accessLogs
        = sampleWorld.accessLogs := by
  decide

/-- C2, as amended.  `handleConnectionClose` on a registered session runs its
three actions in order inside one error boundary.  When none fails, the client
of the record (if any) is ended, the closing entry with the elapsed duration is
recorded and the session is removed.  When `AccessLog.create` fails, the client
has been ended, no entry is recorded and the session stays in the map.  When
`client.end()` throws, no entry is recorded and the session stays in the map.
In both failure cases the error is caught and logged. -/
theorem handleConnectionClose_outcomes (env : Env) (w : World) (sid addr : String)
    (info : ConnectionInfo) (hm : MapWF w.connections)
    (hget : mapGet w.connections sid = some info) :
    (endRaises env info = false →
      env.accessLogCreateThrows (closingEntry env info addr) = false →
        (handleConnectionClose env w sid addr).sshEnded = w.sshEnded ++ info.client.toList
        ∧ (handleConnectionClose env w sid addr).accessLogs
            = w.accessLogs ++ [closingEntry env info addr]
        ∧ mapGet (handleConnectionClose env w sid addr).connections sid = none
        ∧ (handleConnectionClose env w sid addr).errorLog = w.errorLog)
    ∧ (endRaises env info = false →
      env.accessLogCreateThrows (closingEntry env info addr) = true →
        (handleConnectionClose env w sid addr).sshEnded = w.sshEnded ++ info.client.toList
        ∧ (handleConnectionClose env w sid addr).accessLogs = w.accessLogs
        ∧ (handleConnectionClose env w sid addr).connections = w.connections
        ∧ (handleConnectionClose env w sid addr).errorLog
            = w.errorLog ++ ["Erro ao fechar sessão " ++ sid])
    ∧ (endRaises env info = true →
        (handleConnectionClose env w sid addr).sshEnded = w.sshEnded
        ∧ (handleConnectionClose env w sid addr).accessLogs = w.accessLogs
        ∧ (handleConnectionClose env w sid addr).connections = w.connections
        ∧ (handleConnectionClose env w sid addr).errorLog
            = w.errorLog ++ ["Erro ao fechar sessão " ++ sid]) :=
  ⟨handleConnectionClose_ok env w sid addr info hm hget,
   handleConnectionClose_audit_fails env w sid addr info hget,
   handleConnectionClose_end_fails env w sid addr info hget⟩

/-- C2, witness: the amended statement at session `1_7_1000` with
`AccessLog.create` failing. -/
theorem handleConnectionClose_outcomes_witness :
    MapWF sampleWorld.connections
    ∧ mapGet sampleWorld.connections "1_7_1000" = some sampleInfo
    ∧ (handleConnectionClose auditDownEnv sampleWorld "1_7_1000" "192.0.2.10").connections
        = sampleWorld.connections :=
  ⟨by decide, by decide,
   ((handleConnectionClose_outcomes auditDownEnv sampleWorld "1_7_1000" "192.0.2.10"
      sampleInfo (by decide) (by decide)).2.1 (by decide) (by decide)).2.2.1⟩

/-- C3, counterexample.  After the device-side stream of session `1_7_1000`
closes, the session is still in the map and no closing entry has been recorded,
whereas a close of the client channel at the same point removes the session and
records the closing entry. -/
theorem stream_close_keeps_session :
    mapGet (onStreamClose sampleWorld 0 0).connections "1_7_1000" = some sampleInfo
    ∧ (onStreamClose sampleWorld 0 0).accessLogs = sampleWorld.accessLogs
    ∧ mapGet (onWsClose laterEnv sampleWorld "1_7_1000" "192.0.2.10").connections
        "1_7_1000" = none
    ∧ (onWsClose laterEnv sampleWorld "1_7_1000" "192.0.2.10").accessLogs
        = sampleWorld.accessLogs ++ [closingEntry laterEnv sampleInfo "192.0.2.10"] := by
  decide

/-- C3, as amended.  When the device-side SSH stream closes or errors, the
relay sends the client a frame (an info frame on close, an error frame on
error) and ends the SSH client; the connections map and the audit log are left
as they were.  The session is torn down when the client channel closes or
errors afterwards: then, provided `client.end()` and the creation of the
closing entry do not throw, the session is removed from the map and the
closing entry with the elapsed duration is recorded; an error of the client
channel first sends the client an error frame. -/
theorem stream_end_then_client_channel (env : Env) (w : World) (ws conn : Nat)
    (sid addr : String) (info : ConnectionInfo) (hm : MapWF w.connections)
    (hget : mapGet w.connections sid = some info)
    (hend : endRaises env info = false)
    (hlog : env.accessLogCreateThrows (closingEntry env info addr) = false) :
    ((onStreamClose w ws conn).connections = w.connections
      ∧ (onStreamClose w ws conn).accessLogs = w.accessLogs
      ∧ (onStreamClose w ws conn).sent
          = w.sent ++ [(ws, Frame.info "Sessão SSH encerrada pelo servidor remoto")]
      ∧ (onStreamClose w ws conn).sshEnded = w.sshEnded ++ [conn])
    ∧ ((onStreamError env w ws conn).connections = w.connections
      ∧ (onStreamError env w ws conn).accessLogs = w.accessLogs
      ∧ (onStreamError env w ws conn).sent
          = w.sent ++ [(ws, Frame.error ("Erro no stream SSH: " ++ env.errorMessage))]
      ∧ (onStreamError env w ws conn).sshEnded = w.sshEnded ++ [conn])
    ∧ ∀ w', (w' = onStreamClose w ws conn ∨ w' = onStreamError env w ws conn) →
        (mapGet (onWsClose env w' sid addr).connections sid = none
          ∧ (onWsClose env w' sid addr).accessLogs
              = w.accessLogs ++ [closingEntry env info addr])
        ∧ ∀ ws', mapGet (onWsError env w' ws' sid addr).connections sid = none
            ∧ (onWsError env w' ws' sid addr).accessLogs
                = w.accessLogs ++ [closingEntry env info addr]
            ∧ (onWsError env w' ws' sid addr).sent
                = w'.sent ++ [(ws', Frame.error ("Erro na conexão WebSocket: "
                    ++ env.errorMessage))] := by
  refine ⟨⟨rfl, rfl, rfl, rfl⟩, ⟨rfl, rfl, rfl, rfl⟩, ?_⟩
  intro w' hw'
  have hconn : w'.connections = w.connections ∧ w'.accessLogs = w.accessLogs := by
    rcases hw' with h | h <;> rw [h] <;> exact ⟨rfl, rfl⟩
  have hm' : MapWF w'.connections := by rw [hconn.1]; exact hm
  have hget' : mapGet w'.connections sid = some info := by rw [hconn.1]; exact hget
  refine ⟨?_, fun ws' => ?_⟩
  · have h := handleConnectionClose_ok env w' sid addr info hm' hget' hend hlog
    exact ⟨h.2.2.1, by rw [← hconn.2]; exact h.2.1⟩
  · have h := handleConnectionClose_ok env
      (w'.send ws' (Frame.error ("Erro na conexão WebSocket: " ++ env.errorMessage)))
      sid addr info hm' hget' hend hlog
    refine ⟨h.2.2.1, by rw [← hconn.2]; exact h.2.1, ?_⟩
    unfold onWsError handleConnectionClose
    simp only
    rw [show mapGet (w'.send ws' (Frame.error ("Erro na conexão WebSocket: "
      ++ env.errorMessage))).connections sid = some info from hget']
    simp only
    cases hc : info.client with
    | none => simp [hlog, World.send]
    | some c =>
      have hthrow : env.clientEndThrows c = false := by
        simpa [endRaises, hc] using hend
      simp [hthrow, hlog, World.send]

/-- C3, witness: the amended statement at session `1_7_1000`, for an error of
the client channel after an error of the device-side stream. -/
theorem stream_end_then_client_channel_witness :
    MapWF sampleWorld.connections
    ∧ mapGet sampleWorld.connections "1_7_1000" = some sampleInfo
    ∧ endRaises laterEnv sampleInfo = false
    ∧ laterEnv.accessLogCreateThrows (closingEntry laterEnv sampleInfo "192.0.2.10") = false
    ∧ mapGet (onWsError laterEnv (onStreamError laterEnv sampleWorld 0 0) 0 "1_7_1000"
        "192.0.2.10").connections "1_7_1000" = none :=
  ⟨by decide, by decide, by decide, by decide,
   (((stream_end_then_client_channel laterEnv sampleWorld 0 0 "1_7_1000" "192.0.2.10"
      sampleInfo (by decide) (by decide) (by decide) (by decide)).2.2
      (onStreamError laterEnv sampleWorld 0 0) (Or.inr rfl)).2 0).1⟩

/-- C4, counterexample.  The sweep over the service that holds session
`1_7_1000` empties the map and closes socket 0, and records no closing entry:
it does not run the teardown of the session, `handleConnectionClose`, which at
the same point records the closing entry.  The SSH client 0 that the handshake
opened is not ended, the record holding no client, and the `close` event that
follows the sweep finds no session. -/
theorem closeAllConnections_skips_teardown :
    mapGet sampleWorld.connections "1_7_1000" = some sampleInfo
    ∧ sampleWorld.sshConnects.map (fun c => c.client) = [0]
    ∧ (closeAllConnections laterEnv sampleWorld).connections = []
    ∧ (closeAllConnections laterEnv sampleWorld).wsClosed = [0]
    ∧ (closeAllConnections laterEnv sampleWorld).sshEnded = []
    ∧ (closeAllConnections laterEnv sampleWorld).accessLogs = sampleWorld.accessLogs
    ∧ (handleConnectionClose laterEnv sampleWorld "1_7_1000" "192.0.2.10").accessLogs
        = sampleWorld.accessLogs ++ [closingEntry laterEnv sampleInfo "192.0.2.10"]
    ∧ onWsClose laterEnv (closeAllConnections laterEnv sampleWorld) "1_7_1000" "192.0.2.10"
        = closeAllConnections laterEnv sampleWorld := by
  decide

/-- C4, as amended.  For every content of the connections map and every
choice of the calls that throw, `closeAllConnections` leaves the map empty and
runs its own round for each session once, in map order: the client of the
record, if it holds one, is ended and the socket, if open, is closed; the
clients ended, the sockets closed and the errors logged by the sweep are those
of the round of the first session, then those of the second, and so on,
whether or not an earlier round raised.  The sweep does not run
`handleConnectionClose`: it records no closing entry, and a `close` event that
arrives after the sweep finds no session and does nothing. -/
theorem closeAllConnections_sweep (env : Env) (w : World) :
    (closeAllConnections env w).connections = []
    ∧ (closeAllConnections env w).sshEnded
        = w.sshEnded ++ w.connections.flatMap (fun e => endedBy env e.2)
    ∧ (closeAllConnections env w).wsClosed
        = w.wsClosed ++ w.connections.flatMap (fun e => closedBy env e.2)
    ∧ (closeAllConnections env w).errorLog
        = w.errorLog ++ w.connections.flatMap (fun e => raisedBy env e.1 e.2)
    ∧ (closeAllConnections env w).accessLogs = w.accessLogs
    ∧ ∀ (env2 : Env) (sid addr : String),
        onWsClose env2 (closeAllConnections env w) sid addr = closeAllConnections env w := by
  unfold closeAllConnections
  rw [closeSession_foldl]
  refine ⟨rfl, rfl, rfl, rfl, rfl, ?_⟩
  intro env2 sid addr
  simp [onWsClose, handleConnectionClose, mapGet]

/-! ## Lemmas on command detection -/

theorem splitLinesFrom_ne_nil (b : Bool) (l : List Char) : splitLinesFrom b l ≠ [] := by
  induction l generalizing b with
  | nil => simp [splitLinesFrom]
  | cons c cs ih =>
    unfold splitLinesFrom
    split
    · split
      · exact ih true
      · simp
    · split <;> simp

/-- The split has more than one segment exactly when the buffer holds a
terminator. -/
theorem splitLines_length (l : List Char) :
    1 < (splitLines l).length ↔ l.any isLineTerminator = true := by
  unfold splitLines
  induction l with
  | nil => simp [splitLinesFrom]
  | cons c cs ih =>
    by_cases hc : isLineTerminator c = true
    · have hne := splitLinesFrom_ne_nil true cs
      have : 0 < (splitLinesFrom true cs).length := List.length_pos.mpr hne
      simp [splitLinesFrom, hc]
      omega
    · have hne := splitLinesFrom_ne_nil false cs
      cases hs : splitLinesFrom false cs with
      | nil => exact absurd hs hne
      | cons seg segs =>
        rw [hs] at ih
        simp only [Bool.not_eq_true] at hc
        simp [splitLinesFrom, hc, hs] at ih ⊢
        exact ih

/-- The split of the code against the split at every single terminator: same
first segment, same last segment, same non-empty segments in between. -/
theorem splitLinesFrom_sameLines (l : List Char) :
    (∃ h ta tb, splitLinesFrom false l = h :: ta ∧ l.splitOnP isLineTerminator = h :: tb
      ∧ ((ta = [] ∧ tb = []) ∨ SameLines ta tb))
    ∧ SameLines (splitLinesFrom true l) (l.splitOnP isLineTerminator) := by
  induction l with
  | nil =>
    refine ⟨⟨[], [], [], ?_, ?_, Or.inl ⟨rfl, rfl⟩⟩, ⟨[], [], [], ?_, ?_, rfl⟩⟩ <;>
      simp [splitLinesFrom, List.splitOnP_nil]
  | cons c cs ih =>
    obtain ⟨⟨h, ta, tb, hA, hB, hrel⟩, hT⟩ := ih
    by_cases hc : isLineTerminator c = true
    · refine ⟨⟨[], splitLinesFrom true cs, cs.splitOnP isLineTerminator, ?_, ?_, Or.inr hT⟩, ?_⟩
      · simp [splitLinesFrom, hc]
      · simp [List.splitOnP_cons, hc]
      · obtain ⟨r, ma, mb, e1, e2, e3⟩ := hT
        refine ⟨r, ma, [] :: mb, ?_, ?_, ?_⟩
        · simp [splitLinesFrom, hc, e1]
        · simp [List.splitOnP_cons, hc, e2]
        · simpa using e3
    · simp only [Bool.not_eq_true] at hc
      have eA : ∀ b, splitLinesFrom b (c :: cs) = (c :: h) :: ta := by
        intro b
        simp [splitLinesFrom, hc, hA]
      have eB : (c :: cs).splitOnP isLineTerminator = (c :: h) :: tb := by
        simp [List.splitOnP_cons, hc, hB]
      refine ⟨⟨c :: h, ta, tb, eA false, eB, hrel⟩, ?_⟩
      rw [eA true, eB]
      rcases hrel with ⟨rfl, rfl⟩ | ⟨r, ma, mb, e1, e2, e3⟩
      · exact ⟨c :: h, [], [], rfl, rfl, rfl⟩
      · exact ⟨r, (c :: h) :: ma, (c :: h) :: mb, by simp [e1], by simp [e2], by simp [e3]⟩

theorem splitLines_sameLines (l : List Char) :
    SameLines (splitLines l) (l.splitOnP isLineTerminator) := by
  obtain ⟨⟨h, ta, tb, hA, hB, hrel⟩, _⟩ := splitLinesFrom_sameLines l
  unfold splitLines
  rw [hA, hB]
  rcases hrel with ⟨rfl, rfl⟩ | ⟨r, ma, mb, e1, e2, e3⟩
  · exact ⟨h, [], [], rfl, rfl, rfl⟩
  · exact ⟨r, h :: ma, h :: mb, by simp [e1], by simp [e2], by simp [List.filter_cons, e3]⟩

/-- A buffer has no terminator, or is a text, a terminator and a remainder
without terminator. -/
theorem last_terminator (l : List Char) :
    (∀ x ∈ l, isLineTerminator x = false)
    ∨ ∃ pre t r, l = pre ++ t :: r ∧ isLineTerminator t = true
        ∧ ∀ x ∈ r, isLineTerminator x = false := by
  induction l with
  | nil => left; simp
  | cons c cs ih =>
    rcases ih with h | ⟨pre, t, r, e, ht, hr⟩
    · by_cases hc : isLineTerminator c = true
      · exact Or.inr ⟨[], c, cs, rfl, hc, h⟩
      · left
        intro x hx
        rcases List.mem_cons.mp hx with rfl | hx
        · simpa using hc
        · exact h x hx
    · exact Or.inr ⟨c :: pre, t, r, by simp [e], ht, hr⟩

theorem splitOnP_last_terminator (pre r : List Char) (t : Char)
    (ht : isLineTerminator t = true) (hr : ∀ x ∈ r, isLineTerminator x = false) :
    (pre ++ t :: r).splitOnP isLineTerminator = pre.splitOnP isLineTerminator ++ [r] := by
  induction pre with
  | nil =>
    have : r.splitOnP isLineTerminator = [r] :=
      List.splitOnP_eq_single _ _ (fun x hx => by simp [hr x hx])
    simp [List.splitOnP_cons, ht, this, List.splitOnP_nil]
  | cons c cs ih =>
    have hne := List.splitOnP_ne_nil isLineTerminator cs
    by_cases hc : isLineTerminator c = true
    · simp [List.splitOnP_cons, hc, ih]
    · simp only [Bool.not_eq_true] at hc
      cases hs : cs.splitOnP isLineTerminator with
      | nil => exact absurd hs hne
      | cons seg segs => simp [List.splitOnP_cons, hc, ih, hs]

theorem unterminatedRemainder_last_terminator (pre r : List Char) (t : Char)
    (ht : isLineTerminator t = true) (hr : ∀ x ∈ r, isLineTerminator x = false) :
    unterminatedRemainder (pre ++ t :: r) = r := by
  unfold unterminatedRemainder List.rtakeWhile
  have h1 : ∀ a ∈ r.reverse, (fun c => !isLineTerminator c) a = true := by
    intro a ha
    simp [hr a (List.mem_reverse.mp ha)]
  rw [List.reverse_append, List.reverse_cons, List.append_assoc,
    List.takeWhile_append_of_pos h1]
  simp [ht]

theorem unterminatedRemainder_of_none (l : List Char)
    (h : ∀ x ∈ l, isLineTerminator x = false) : unterminatedRemainder l = l := by
  unfold unterminatedRemainder
  rw [List.rtakeWhile_eq_self_iff]
  intro x hx
  simp [h x hx]

/-- The split at every terminator ends with the unterminated remainder. -/
theorem splitOnP_remainder (l : List Char) :
    l.splitOnP isLineTerminator = completeLines l ++ [unterminatedRemainder l] := by
  unfold completeLines
  rcases last_terminator l with h | ⟨pre, t, r, e, ht, hr⟩
  · have : l.splitOnP isLineTerminator = [l] :=
      List.splitOnP_eq_single _ _ (fun x hx => by simp [h x hx])
    simp [this, unterminatedRemainder_of_none l h]
  · subst e
    rw [splitOnP_last_terminator pre r t ht hr,
      unterminatedRemainder_last_terminator pre r t ht hr]
    simp

/-- The unterminated remainder holds no terminator. -/
theorem unterminatedRemainder_clean (l : List Char) :
    (unterminatedRemainder l).any isLineTerminator = false := by
  rw [List.any_eq_false]
  intro x hx
  have := List.mem_rtakeWhile_imp hx
  simpa using this

theorem jsTrim_nil : jsTrim [] = [] := rfl

/-- Empty segments are never recorded. -/
theorem commands_filter (lines : List (List Char)) :
    (lines.map jsTrim).filter looksLikeCommand
      = ((lines.filter (fun s => !s.isEmpty)).map jsTrim).filter looksLikeCommand := by
  induction lines with
  | nil => rfl
  | cons seg rest ih =>
    cases seg with
    | nil => simpa [jsTrim_nil, looksLikeCommand] using ih
    | cons c cs => simp [List.filter_cons, ih]

/-- The condition of line 280 is the specification's. -/
theorem looksLikeCommand_eq (t : List Char) : looksLikeCommand t = isRecordedLine t := by
  cases t with
  | nil => simp [looksLikeCommand, isRecordedLine]
  | cons c cs =>
    simp only [looksLikeCommand, isRecordedLine, matchesPrompt, promptCharacters]
    by_cases h1 : c = '#' <;> by_cases h2 : c = '>' <;> by_cases h3 : c = '$' <;>
      by_cases h4 : c = ']' <;> by_cases h5 : c = '%' <;> simp [h1, h2, h3, h4, h5]

/-- What `processCommandBuffer` records and keeps, in the specification's
words. -/
theorem processCommandBuffer_eq (env : Env) (info : ConnectionInfo) :
    (processCommandBuffer env info).commandLogs
      = (((completeLines info.buffer).map jsTrim).filter isRecordedLine).map
          (fun t => (⟨info.user.id, info.device.id, t, env.now⟩ : CommandRecord))
    ∧ (processCommandBuffer env info).connectionInfo
      = { info with buffer := unterminatedRemainder info.buffer } := by
  obtain ⟨r, ma, mb, eA, eB, ef⟩ := splitLines_sameLines info.buffer
  rw [splitOnP_remainder] at eB
  obtain ⟨hm, hr⟩ := List.append_inj' eB rfl
  have hr : unterminatedRemainder info.buffer = r := by simpa using hr
  have hfun : looksLikeCommand = isRecordedLine := funext looksLikeCommand_eq
  have hcmd : (ma.map jsTrim).filter looksLikeCommand
      = ((completeLines info.buffer).map jsTrim).filter looksLikeCommand := by
    rw [commands_filter ma, commands_filter (completeLines info.buffer), hm, ef]
  unfold processCommandBuffer
  by_cases hlen : 1 < (splitLines info.buffer).length
  · simp only [gt_iff_lt, hlen, if_true]
    rw [eA, List.dropLast_concat, hcmd, hfun, hr]
    simp
  · simp only [gt_iff_lt, hlen, if_false]
    have hma : ma = [] := by
      rw [eA] at hlen
      cases ma with
      | nil => rfl
      | cons x xs => simp at hlen
    have hnone : ∀ x ∈ info.buffer, isLineTerminator x = false := by
      have h := (splitLines_length info.buffer).not.mp hlen
      simp only [Bool.not_eq_true] at h
      intro x hx
      simpa using List.any_eq_false.mp h x hx
    constructor
    · rw [← hfun, ← hcmd, hma]
      rfl
    · rw [unterminatedRemainder_of_none _ hnone]

/-- After the handler of a device output chunk, the line buffer of the
session holds no terminator. -/
theorem onStreamData_buffer_clean (env : Env) (w : World) (ws : Nat) (sid : String)
    (dataStr : List Char) (info : ConnectionInfo)
    (h : mapGet (onStreamData env w ws sid dataStr).connections sid = some info) :
    info.buffer.any isLineTerminator = false := by
  unfold onStreamData at h
  simp only [World.send] at h
  cases hget : mapGet w.connections sid with
  | none =>
    rw [hget] at h
    simp only at h
    rw [hget] at h
    cases h
  | some old =>
    rw [hget] at h
    simp only at h
    by_cases hany : (old.buffer ++ dataStr).any isLineTerminator = true
    · rw [if_pos hany] at h
      simp only [World.processed, mapGet_mapSet_self] at h
      cases h
      rw [(processCommandBuffer_eq env _).2]
      exact unterminatedRemainder_clean _
    · rw [if_neg hany, mapGet_mapSet_self] at h
      cases h
      simpa using hany

/-- The handler of a device output chunk on a registered session: the chunk
is appended, and the buffer is processed if it holds a terminator. -/
theorem onStreamData_of_session (env : Env) (w : World) (ws : Nat) (sid : String)
    (dataStr : List Char) (info : ConnectionInfo)
    (hget : mapGet w.connections sid = some info) :
    (onStreamData env w ws sid dataStr).commandLogs
      = w.commandLogs ++
          (if (info.buffer ++ dataStr).any isLineTerminator then
            (processCommandBuffer env { info with buffer := info.buffer ++ dataStr }).commandLogs
          else [])
    ∧ mapGet (onStreamData env w ws sid dataStr).connections sid
      = some (if (info.buffer ++ dataStr).any isLineTerminator then
            (processCommandBuffer env
              { info with buffer := info.buffer ++ dataStr }).connectionInfo
          else { info with buffer := info.buffer ++ dataStr }) := by
  unfold onStreamData
  simp only [World.send, hget]
  by_cases hany : (info.buffer ++ dataStr).any isLineTerminator = true
  · simp [hany, World.processed, mapGet_mapSet_self]
  · simp [hany, mapGet_mapSet_self]

/-! ## Claims on command detection -/

/-- C5.  A session whose line buffer is empty receives the device output
`show version\r\n` and then `# `.  Exactly one command is recorded, with the
text `show version`; the prompt fragment records nothing and stays in the
buffer. -/
theorem show_version_then_prompt (env1 env2 : Env) (w : World) (ws : Nat) (sid : String)
    (info : ConnectionInfo) (hget : mapGet w.connections sid = some info)
    (hbuf : info.buffer = []) :
    (onStreamData env2 (onStreamData env1 w ws sid "show version\r\n".toList) ws sid
        "# ".toList).commandLogs
      = w.commandLogs ++ [⟨info.user.id, info.device.id, "show version".toList, env1.now⟩]
    ∧ (mapGet (onStreamData env2 (onStreamData env1 w ws sid "show version\r\n".toList) ws sid
        "# ".toList).connections sid).map (fun i => i.buffer) = some "# ".toList := by
  have h1 : processCommandBuffer env1 { info with buffer := "show version\r\n".toList }
      = ⟨{ info with buffer := [] },
          [⟨info.user.id, info.device.id, "show version".toList, env1.now⟩],
          if env1.tacacsInitialized then
            [⟨info.user.username, info.device.ipAddress, "show version".toList⟩]
          else []⟩ := by
    rfl
  obtain ⟨c1, g1⟩ := onStreamData_of_session env1 w ws sid "show version\r\n".toList info hget
  rw [hbuf, List.nil_append, if_pos (by decide), h1] at c1 g1
  obtain ⟨c2, g2⟩ := onStreamData_of_session env2 _ ws sid "# ".toList _ g1
  simp only [List.nil_append] at c2 g2
  rw [if_neg (by decide)] at c2 g2
  rw [c2, g2, c1]
  simp

/-- C5, witness: the session `1_7_1000` right after its handshake. -/
theorem show_version_then_prompt_witness :
    mapGet sampleWorld.connections "1_7_1000" = some sampleInfo
    ∧ sampleInfo.buffer = []
    ∧ (onStreamData laterEnv (onStreamData sampleEnv sampleWorld 0 "1_7_1000"
        "show version\r\n".toList) 0 "1_7_1000" "# ".toList).commandLogs
      = [⟨1, 7, "show version".toList, 1000⟩] :=
  ⟨by decide, by decide,
   (show_version_then_prompt sampleEnv laterEnv sampleWorld 0 "1_7_1000" sampleInfo
      (by decide) (by decide)).1⟩

/-- What `trim` does to a line: it removes white space, and only white
space, from both ends. -/
theorem jsTrim_spec (line : List Char) :
    ∃ leading trailing, line = leading ++ jsTrim line ++ trailing
      ∧ (∀ c ∈ leading, isJsWhitespace c = true)
      ∧ (∀ c ∈ trailing, isJsWhitespace c = true)
      ∧ (∀ c, (jsTrim line).head? = some c → isJsWhitespace c = false)
      ∧ (∀ c, (jsTrim line).getLast? = some c → isJsWhitespace c = false) := by
  have h1 : line = line.takeWhile isJsWhitespace ++ line.dropWhile isJsWhitespace :=
    (List.takeWhile_append_dropWhile _ _).symm
  have h2 : (line.dropWhile isJsWhitespace).reverse
      = (line.dropWhile isJsWhitespace).reverse.takeWhile isJsWhitespace
        ++ (line.dropWhile isJsWhitespace).reverse.dropWhile isJsWhitespace :=
    (List.takeWhile_append_dropWhile _ _).symm
  have h3 : line.dropWhile isJsWhitespace
      = jsTrim line
        ++ ((line.dropWhile isJsWhitespace).reverse.takeWhile isJsWhitespace).reverse := by
    have := congrArg List.reverse h2
    rw [List.reverse_reverse, List.reverse_append] at this
    exact this
  have hlast : ∀ c, (jsTrim line).getLast? = some c → isJsWhitespace c = false := by
    intro c hc
    unfold jsTrim at hc
    rw [List.getLast?_reverse] at hc
    have := List.head?_dropWhile_not isJsWhitespace (line.dropWhile isJsWhitespace).reverse
    rw [hc] at this
    simpa using this
  have hhead : ∀ c, (jsTrim line).head? = some c → isJsWhitespace c = false := by
    intro c hc
    have hd : (line.dropWhile isJsWhitespace).head? = some c := by
      rw [h3]
      cases hj : jsTrim line with
      | nil => rw [hj] at hc; cases hc
      | cons a rest => rw [hj] at hc; simpa using hc
    have := List.head?_dropWhile_not isJsWhitespace line
    rw [hd] at this
    simpa using this
  refine ⟨line.takeWhile isJsWhitespace,
    ((line.dropWhile isJsWhitespace).reverse.takeWhile isJsWhitespace).reverse, ?_, ?_, ?_,
    hhead, hlast⟩
  · rw [List.append_assoc, ← h3]
    exact h1
  · intro c hc
    exact List.mem_takeWhile_imp hc
  · intro c hc
    exact List.mem_takeWhile_imp (List.mem_reverse.1 hc)

/-- The white space of `trim`, by code point. -/
theorem isJsWhitespace_iff (c : Char) :
    isJsWhitespace c = true ↔
      (c.toNat ∈ [9, 10, 11, 12, 13, 32, 160, 5760, 8232, 8233, 8239, 8287, 12288, 65279]
        ∨ (8192 ≤ c.toNat ∧ c.toNat ≤ 8202)) := by
  simp only [isJsWhitespace, Bool.or_eq_true, Bool.and_eq_true, beq_iff_eq, decide_eq_true_eq,
    List.mem_cons, List.mem_singleton, List.not_mem_nil, or_false]
  omega

/-- The line terminators of the split are the carriage return and the line
feed. -/
theorem isLineTerminator_iff (c : Char) :
    isLineTerminator c = true ↔ (c = '\r' ∨ c = '\n') := by
  simp [isLineTerminator]

/-- C6.  For every buffer content, `processCommandBuffer` records exactly the
complete lines (the segments before the last line terminator, a terminator
being a carriage return or a line feed) whose trimmed text is not empty and
does not begin with one of the prompt characters `# > $ ] %`; each record
carries the trimmed line, which is the line without the white space at its
two ends (the white space of ECMAScript, listed by code point); the records
come in the order of the lines in the buffer, and the unterminated remainder
is the new buffer (nothing else of the session record changes).  On the buffer
made of `  show version `, five lines that begin with the five prompt
characters, `router# show ip`, an empty line and the unterminated `conf t`
after a tab, the records are `show version` and `router# show ip`, and the tab
with `conf t` stays in the buffer. -/
theorem processCommandBuffer_records (env : Env) (connectionInfo : ConnectionInfo) :
    (processCommandBuffer env connectionInfo).commandLogs
      = (((completeLines connectionInfo.buffer).map jsTrim).filter isRecordedLine).map
          (fun t => (⟨connectionInfo.user.id, connectionInfo.device.id, t, env.now⟩ :
            CommandRecord))
    ∧ (processCommandBuffer env connectionInfo).connectionInfo
      = { connectionInfo with buffer := unterminatedRemainder connectionInfo.buffer }
    ∧ (∀ line : List Char, ∃ leading trailing,
        line = leading ++ jsTrim line ++ trailing
        ∧ (∀ c ∈ leading, isJsWhitespace c = true)
        ∧ (∀ c ∈ trailing, isJsWhitespace c = true)
        ∧ (∀ c, (jsTrim line).head? = some c → isJsWhitespace c = false)
        ∧ (∀ c, (jsTrim line).getLast? = some c → isJsWhitespace c = false))
    ∧ (∀ c : Char, isJsWhitespace c = true ↔
        (c.toNat ∈ [9, 10, 11, 12, 13, 32, 160, 5760, 8232, 8233, 8239, 8287, 12288, 65279]
          ∨ (8192 ≤ c.toNat ∧ c.toNat ≤ 8202)))
    ∧ (∀ c : Char, isLineTerminator c = true ↔ (c = '\r' ∨ c = '\n'))
    ∧ promptCharacters = ['#', '>', '$', ']', '%']
    ∧ (processCommandBuffer sampleEnv
        { sampleInfo with
          buffer := "  show version \r\n# \r\n> a\n $ b\r] c\n% d\nrouter# show ip\n\n\tconf t".toList
        }).commandLogs
      = [⟨1, 7, "show version".toList, 1000⟩, ⟨1, 7, "router# show ip".toList, 1000⟩]
    ∧ (processCommandBuffer sampleEnv
        { sampleInfo with
          buffer := "  show version \r\n# \r\n> a\n $ b\r] c\n% d\nrouter# show ip\n\n\tconf t".toList
        }).connectionInfo.buffer = "\tconf t".toList :=
  ⟨(processCommandBuffer_eq env connectionInfo).1, (processCommandBuffer_eq env connectionInfo).2,
    jsTrim_spec, isJsWhitespace_iff, isLineTerminator_iff, rfl, by decide, by decide⟩

/-- C7 (defect of the code).  The claim: after any inbound chunk is handled the
line buffer holds no terminator, and a command typed by the client is
classified when its Enter keystroke is handled.  The handler of client frames
runs `processCommandBuffer` before it appends the keystroke: after the frames
`l`, `s` and Enter on session `1_7_1000` the buffer is `ls\r`, and no command
has been recorded. -/
theorem enter_keystroke_stays_in_buffer :
    (mapGet (onWsMessage sampleEnv (onWsMessage sampleEnv (onWsMessage sampleEnv sampleWorld
        "1_7_1000" (ClientMessage.data ['l'])) "1_7_1000" (ClientMessage.data ['s']))
        "1_7_1000" (ClientMessage.data ['\r'])).connections "1_7_1000").map
          (fun i => i.buffer) = some ['l', 's', '\r']
    ∧ (onWsMessage sampleEnv (onWsMessage sampleEnv (onWsMessage sampleEnv sampleWorld
        "1_7_1000" (ClientMessage.data ['l'])) "1_7_1000" (ClientMessage.data ['s']))
        "1_7_1000" (ClientMessage.data ['\r'])).commandLogs = [] := by
  decide

/-! ## Lemmas on the login -/

theorem findUserByName_username (st : Store) (u : String) (user : User)
    (h : findUserByName st u = some user) : user.username = u := by
  have := List.find?_some h
  simpa using this

/-- The `include` of `Group` that lines 123 and 173 write, with no `as`,
throws. -/
theorem includeGroupThrows_none : includeGroupThrows none = true := by
  decide

/-- The local branch ends in the outer `catch`, whatever the store holds. -/
theorem loginLocal_eq (env : LoginEnv) (st : Store) (req : LoginRequest)
    (u p authType : String) :
    loginLocal env st req u p authType = ⟨internalError, st, []⟩ := by
  unfold loginLocal
  rw [includeGroupThrows_none]
  rfl

/-- With `userData.group` not set, the steps after the authentication end in
the outer `catch`. -/
theorem loginSucceeded_no_group (env : LoginEnv) (st : Store) (req : LoginRequest)
    (username authType : String) (userData : UserData) (calls : List String)
    (h : falsy userData.group = true) :
    loginSucceeded env st req username authType userData calls
      = ⟨internalError, st, calls⟩ := by
  unfold loginSucceeded
  rw [h, includeGroupThrows_none]
  rfl

/-- With no `authType`, or `local`, and both fields filled in, `login` is the
local branch. -/
theorem login_eq_loginLocal (env : LoginEnv) (st : Store) (req : LoginRequest)
    (hty : req.authType = none ∨ req.authType = some "local")
    (hu : falsy req.username = false) (hp : falsy req.password = false) :
    login env st req
      = loginLocal env st req (req.username.getD "") (req.password.getD "") "local" := by
  unfold login
  rcases hty with h | h <;> simp [h, hu, hp]

/-- The TACACS+ and RADIUS branches, case by case on the verdict of the
backend. -/
theorem loginRemote_cases (env : LoginEnv) (st : Store) (req : LoginRequest)
    (u authType label : String) (v : Verdict Unit) :
    (v = Verdict.failed
      ∧ (loginRemote env st req u authType label v).response
          = ⟨500, Body.message ("Erro na autenticação " ++ label)⟩
      ∧ (loginRemote env st req u authType label v).store = st)
    ∨ (v = Verdict.rejected
      ∧ (loginRemote env st req u authType label v).response = invalidCredentials
      ∧ (loginRemote env st req u authType label v).store
          = { st with accessLogs := st.accessLogs ++ [failedLoginEntry req u authType] })
    ∨ (v = Verdict.accepted () ∧ findUserByName st u = none
      ∧ (loginRemote env st req u authType label v).response
          = ⟨401, Body.message ("Usuário autenticado no " ++ label
              ++ " mas não existe no sistema")⟩
      ∧ (loginRemote env st req u authType label v).store = st)
    ∨ (v = Verdict.accepted ()
      ∧ (∃ user, findUserByName st u = some user)
      ∧ (loginRemote env st req u authType label v).response = internalError
      ∧ (loginRemote env st req u authType label v).store = st) := by
  unfold loginRemote
  cases v with
  | failed => left; exact ⟨rfl, rfl, rfl⟩
  | rejected => right; left; exact ⟨rfl, rfl, rfl⟩
  | accepted x =>
    cases hf : findUserByName st u with
    | none => right; right; left; exact ⟨rfl, rfl, rfl, rfl⟩
    | some user =>
      right; right; right
      have h := loginSucceeded_no_group env st req u authType (userDataOfRow user)
        [authType] rfl
      refine ⟨rfl, ⟨user, rfl⟩, ?_, ?_⟩
      · show (loginSucceeded env st req u authType (userDataOfRow user) [authType]).response
          = internalError
        rw [h]
      · show (loginSucceeded env st req u authType (userDataOfRow user) [authType]).store = st
        rw [h]

/-- The store after `findOrCreate` and the update of the directory branch
differs from the store before in the `Users` table only. -/
theorem findOrCreateLdapUser_store (env : LoginEnv) (st : Store) (ldapUser : DirectoryUser) :
    (findOrCreateLdapUser env st ldapUser).1.accessLogs = st.accessLogs
    ∧ (findOrCreateLdapUser env st ldapUser).1.redis = st.redis := by
  unfold findOrCreateLdapUser
  split
  · exact ⟨rfl, rfl⟩
  · split <;> exact ⟨rfl, rfl⟩

/-- The directory branch, case by case on the verdict of the backend. -/
theorem loginLdap_cases (env : LoginEnv) (st : Store) (req : LoginRequest) (u p : String) :
    (env.ldapAuthenticate u p = Verdict.failed
      ∧ (loginLdap env st req u p).response = ⟨500, Body.message "Erro na autenticação LDAP"⟩
      ∧ (loginLdap env st req u p).store = st)
    ∨ (env.ldapAuthenticate u p = Verdict.rejected
      ∧ (loginLdap env st req u p).response = invalidCredentials
      ∧ (loginLdap env st req u p).store
          = { st with accessLogs := st.accessLogs ++ [failedLoginEntry req u "ldap"] })
    ∨ (∃ ldapUser, env.ldapAuthenticate u p = Verdict.accepted ldapUser
      ∧ (loginLdap env st req u p).response = internalError
      ∧ (loginLdap env st req u p).store = (findOrCreateLdapUser env st ldapUser).1) := by
  unfold loginLdap
  cases hv : env.ldapAuthenticate u p with
  | failed => left; exact ⟨rfl, rfl, rfl⟩
  | rejected => right; left; exact ⟨rfl, rfl, rfl⟩
  | accepted ldapUser =>
    right; right
    have h := loginSucceeded_no_group env (findOrCreateLdapUser env st ldapUser).1 req u
      "ldap"
      { id := (findOrCreateLdapUser env st ldapUser).2.id, username := ldapUser.username,
        email := ldapUser.email, fullName := ldapUser.fullName,
        groupId := (findOrCreateLdapUser env st ldapUser).2.groupId, group := none,
        permissions := none, isLdapUser := some true } ["ldap"] rfl
    refine ⟨ldapUser, rfl, ?_, ?_⟩
    · show (loginSucceeded env (findOrCreateLdapUser env st ldapUser).1 req u "ldap" _
        ["ldap"]).response = internalError
      rw [h]
    · show (loginSucceeded env (findOrCreateLdapUser env st ldapUser).1 req u "ldap" _
        ["ldap"]).store = (findOrCreateLdapUser env st ldapUser).1
      rw [h]

theorem logs_ne_append (l : List AccessLogEntry) (e : AccessLogEntry) : l ≠ l ++ [e] := by
  intro h
  have := congrArg List.length h
  simp at this

/-- An external login with both fields filled in, by the verdict of the
backend it consults: a failure gives a 500 and leaves the store alone, a
rejection gives the bad-credentials response and the failed-login entry, an
acceptance gives neither of the two. -/
theorem login_external_cases (env : LoginEnv) (st : Store) (req : LoginRequest)
    (hu : falsy req.username = false) (hp : falsy req.password = false)
    (hty : req.authType = some "ldap" ∨ req.authType = some "tacacs"
      ∨ req.authType = some "radius") :
    (backendVerdict env (req.authType.getD "local") (req.username.getD "")
          (req.password.getD "") = Verdict.failed
      ∧ (login env st req).response.status = 500
      ∧ (login env st req).store = st)
    ∨ (backendVerdict env (req.authType.getD "local") (req.username.getD "")
          (req.password.getD "") = Verdict.rejected
      ∧ (login env st req).response = invalidCredentials
      ∧ (login env st req).store.accessLogs = st.accessLogs
          ++ [failedLoginEntry req (req.username.getD "") (req.authType.getD "local")])
    ∨ (backendVerdict env (req.authType.getD "local") (req.username.getD "")
          (req.password.getD "") = Verdict.accepted ()
      ∧ (login env st req).response ≠ invalidCredentials
      ∧ (login env st req).store.accessLogs ≠ st.accessLogs
          ++ [failedLoginEntry req (req.username.getD "") (req.authType.getD "local")]) := by
  have remote : ∀ (authType label : String) (v : Verdict Unit),
      ("Usuário autenticado no " ++ label ++ " mas não existe no sistema"
        ≠ "Credenciais inválidas") →
      (v = Verdict.failed
        ∧ (loginRemote env st req (req.username.getD "") authType label v).response.status = 500
        ∧ (loginRemote env st req (req.username.getD "") authType label v).store = st)
      ∨ (v = Verdict.rejected
        ∧ (loginRemote env st req (req.username.getD "") authType label v).response
            = invalidCredentials
        ∧ (loginRemote env st req (req.username.getD "") authType label v).store.accessLogs
            = st.accessLogs ++ [failedLoginEntry req (req.username.getD "") authType])
      ∨ (v = Verdict.accepted ()
        ∧ (loginRemote env st req (req.username.getD "") authType label v).response
            ≠ invalidCredentials
        ∧ (loginRemote env st req (req.username.getD "") authType label v).store.accessLogs
            ≠ st.accessLogs ++ [failedLoginEntry req (req.username.getD "") authType]) := by
    intro authType label v hlabel
    rcases loginRemote_cases env st req (req.username.getD "") authType label v with
      ⟨hv, hr, hs⟩ | ⟨hv, hr, hs⟩ | ⟨hv, _, hr, hs⟩ | ⟨hv, _, hr, hs⟩
    · exact Or.inl ⟨hv, by rw [hr], hs⟩
    · exact Or.inr (Or.inl ⟨hv, hr, by rw [hs]⟩)
    · refine Or.inr (Or.inr ⟨hv, ?_, ?_⟩)
      · rw [hr]
        intro h
        simp only [invalidCredentials, Response.mk.injEq, Body.message.injEq, true_and] at h
        exact hlabel h
      · rw [hs]
        exact logs_ne_append _ _
    · refine Or.inr (Or.inr ⟨hv, ?_, ?_⟩)
      · rw [hr]
        decide
      · rw [hs]
        exact logs_ne_append _ _
  have hf : (falsy req.username || falsy req.password) = false := by simp [hu, hp]
  rcases hty with h | h | h
  · have hl : login env st req
        = loginLdap env st req (req.username.getD "") (req.password.getD "") := by
      unfold login
      simp [h, hf]
    rw [hl, h]
    simp only [Option.getD_some, backendVerdict, if_true]
    rcases loginLdap_cases env st req (req.username.getD "") (req.password.getD "") with
      ⟨hv, hr, hs⟩ | ⟨hv, hr, hs⟩ | ⟨ldapUser, hv, hr, hs⟩
    · exact Or.inl ⟨by rw [hv], by rw [hr], hs⟩
    · exact Or.inr (Or.inl ⟨by rw [hv], hr, by rw [hs]⟩)
    · refine Or.inr (Or.inr ⟨by rw [hv], ?_, ?_⟩)
      · rw [hr]
        decide
      · rw [hs, (findOrCreateLdapUser_store env st ldapUser).1]
        exact logs_ne_append _ _
  · have hl : login env st req
        = loginRemote env st req (req.username.getD "") "tacacs" "TACACS+"
            (env.tacacsAuthenticate (req.username.getD "") (req.password.getD "")) := by
      unfold login
      simp [h, hf]
    have hb : backendVerdict env "tacacs" (req.username.getD "") (req.password.getD "")
        = env.tacacsAuthenticate (req.username.getD "") (req.password.getD "") := by
      simp [backendVerdict]
    rw [hl, h, Option.getD_some, hb]
    exact remote "tacacs" "TACACS+" _ (by decide)
  · have hl : login env st req
        = loginRemote env st req (req.username.getD "") "radius" "RADIUS"
            (env.radiusAuthenticate (req.username.getD "") (req.password.getD "")) := by
      unfold login
      simp [h, hf]
    have hb : backendVerdict env "radius" (req.username.getD "") (req.password.getD "")
        = env.radiusAuthenticate (req.username.getD "") (req.password.getD "") := by
      simp [backendVerdict]
    rw [hl, h, Option.getD_some, hb]
    exact remote "radius" "RADIUS" _ (by decide)

/-- Every response of `login` is a message with a status other than 200, and
`login` writes no Redis key: the input guard answers 400, the local branch and
every accepted external login end in the outer `catch`, and the other paths
answer 401 or 500. -/
theorem login_response_message (env : LoginEnv) (st : Store) (req : LoginRequest) :
    ∃ status text, (login env st req).response = ⟨status, Body.message text⟩
      ∧ status ≠ 200 ∧ (login env st req).store.redis = st.redis := by
  have remote : ∀ (authType label : String) (v : Verdict Unit),
      ∃ status text,
        (loginRemote env st req (req.username.getD "") authType label v).response
          = ⟨status, Body.message text⟩
        ∧ status ≠ 200
        ∧ (loginRemote env st req (req.username.getD "") authType label v).store.redis
          = st.redis := by
    intro authType label v
    rcases loginRemote_cases env st req (req.username.getD "") authType label v with
      ⟨_, hr, hs⟩ | ⟨_, hr, hs⟩ | ⟨_, _, hr, hs⟩ | ⟨_, _, hr, hs⟩
    · exact ⟨_, _, hr, by decide, by rw [hs]⟩
    · exact ⟨_, _, hr, by decide, by rw [hs]⟩
    · exact ⟨_, _, hr, by decide, by rw [hs]⟩
    · exact ⟨_, _, hr, by decide, by rw [hs]⟩
  unfold login
  simp only
  split
  · exact ⟨_, _, rfl, by decide, rfl⟩
  · split
    · rcases loginLdap_cases env st req (req.username.getD "") (req.password.getD "") with
        ⟨_, hr, hs⟩ | ⟨_, hr, hs⟩ | ⟨ldapUser, _, hr, hs⟩
      · exact ⟨_, _, hr, by decide, by rw [hs]⟩
      · exact ⟨_, _, hr, by decide, by rw [hs]⟩
      · exact ⟨_, _, hr, by decide, by rw [hs, (findOrCreateLdapUser_store env st ldapUser).2]⟩
    · split
      · exact remote _ _ _
      · split
        · exact remote _ _ _
        · rw [loginLocal_eq]
          exact ⟨_, _, rfl, by decide, rfl⟩

/-! ## Claims on the login -/

/-- C8 (defect of the code).  The claim: a local login succeeds exactly when a
local user with that name exists, is active and `checkPassword` accepts the
password, and is answered 401 otherwise; `admin` with `admin123` is
authenticated.  The local branch begins with a `User.findOne` that includes
`Group` with no `as`, while `user.js` defines the association under the alias
`group`: the query throws, and the outer `catch` answers 500.  The user `admin`
exists, is active and `checkPassword` accepts `admin123`, and the login is
answered 500 with no token and nothing written. -/
theorem login_local_answers_500 :
    findUserByName sampleStore "admin" = some sampleUser
    ∧ sampleUser.isActive = true
    ∧ checkPassword sampleLoginEnv sampleUser "admin123" = true
    ∧ userGroupAlias = some "group"
    ∧ includeGroupThrows none = true
    ∧ login sampleLoginEnv sampleStore ⟨some "admin", some "admin123", some "local",
        "192.0.2.10"⟩
      = ⟨⟨500, Body.message "Erro interno do servidor"⟩, sampleStore, []⟩
    ∧ (login sampleLoginEnv sampleStore ⟨some "admin", some "admin123", some "local",
        "192.0.2.10"⟩).response.token = none
    ∧ (login sampleLoginEnv sampleStore ⟨some "admin", some "wrong", some "local",
        "192.0.2.10"⟩).response = ⟨500, Body.message "Erro interno do servidor"⟩ := by
  decide

/-- C9.  For a TACACS+ or RADIUS login, if the backend accepts the principal
and no local user with that name exists, the login fails with a response that
is not the bad-credentials response, whose message is not the bad-credentials
message, issues no token and changes nothing in the store (no failed-login
entry); with both fields filled in, the response is 401 with the message that
the user was authenticated by the backend but does not exist in the system. -/
theorem login_not_provisioned (env : LoginEnv) (st : Store) (req : LoginRequest)
    (hv : (req.authType = some "tacacs"
        ∧ env.tacacsAuthenticate (req.username.getD "") (req.password.getD "")
            = Verdict.accepted ())
      ∨ (req.authType = some "radius"
        ∧ env.radiusAuthenticate (req.username.getD "") (req.password.getD "")
            = Verdict.accepted ()))
    (hnone : findUserByName st (req.username.getD "") = none) :
    (login env st req).response ≠ invalidCredentials
    ∧ (login env st req).response.text ≠ some "Credenciais inválidas"
    ∧ (login env st req).response.token = none
    ∧ (login env st req).store = st
    ∧ (falsy req.username = false → falsy req.password = false →
        (login env st req).response
          = ⟨401, Body.message
              (if req.authType = some "tacacs" then
                "Usuário autenticado no TACACS+ mas não existe no sistema"
              else "Usuário autenticado no RADIUS mas não existe no sistema")⟩) := by
  by_cases hf : (falsy req.username || falsy req.password) = true
  · have hl : login env st req
        = ⟨⟨400, Body.message "Usuário e senha são obrigatórios"⟩, st, []⟩ := by
      unfold login
      simp [hf]
    rw [hl]
    refine ⟨by dsimp only; decide, by dsimp only; decide, rfl, rfl, ?_⟩
    intro hu hp
    simp [hu, hp] at hf
  · rcases hv with ⟨h, hacc⟩ | ⟨h, hacc⟩
    · have hl : login env st req
          = ⟨⟨401, Body.message "Usuário autenticado no TACACS+ mas não existe no sistema"⟩,
              st, ["tacacs"]⟩ := by
        unfold login
        simp [hf, h, hacc, loginRemote, hnone]
      rw [hl]
      refine ⟨by dsimp only; decide, by dsimp only; decide, rfl, rfl, ?_⟩
      intro _ _
      simp [h]
    · have hl : login env st req
          = ⟨⟨401, Body.message "Usuário autenticado no RADIUS mas não existe no sistema"⟩,
              st, ["radius"]⟩ := by
        unfold login
        simp [hf, h, hacc, loginRemote, hnone]
      rw [hl]
      refine ⟨by dsimp only; decide, by dsimp only; decide, rfl, rfl, ?_⟩
      intro _ _
      simp [h]

/-- C9, witness: the TACACS+ server accepts `carol`, who has no local user. -/
theorem login_not_provisioned_witness :
    sampleLoginEnv.tacacsAuthenticate "carol" "pw" = Verdict.accepted ()
    ∧ findUserByName sampleStore "carol" = none
    ∧ (login sampleLoginEnv sampleStore ⟨some "carol", some "pw", some "tacacs",
        "192.0.2.10"⟩).response ≠ invalidCredentials :=
  ⟨by decide, by decide,
   (login_not_provisioned sampleLoginEnv sampleStore
      ⟨some "carol", some "pw", some "tacacs", "192.0.2.10"⟩
      (Or.inl ⟨rfl, by decide⟩) (by decide)).1⟩

/-- C10.  For a directory, TACACS+ or RADIUS login with both fields filled in
(the requests for which the backend is consulted): when the backend client
fails (timeout, refused connection, backend not initialized), the response is
a 500, it is not the bad-credentials response and nothing is recorded; the
bad-credentials response is sent exactly when the backend rejects the
credentials, and the failed-login entry is recorded exactly then. -/
theorem login_backend_failure (env : LoginEnv) (st : Store) (req : LoginRequest)
    (hu : falsy req.username = false) (hp : falsy req.password = false)
    (hty : req.authType = some "ldap" ∨ req.authType = some "tacacs"
      ∨ req.authType = some "radius") :
    (backendVerdict env (req.authType.getD "local") (req.username.getD "")
          (req.password.getD "") = Verdict.failed →
        (login env st req).response.status = 500
        ∧ (login env st req).response ≠ invalidCredentials
        ∧ (login env st req).store = st)
    ∧ ((login env st req).response = invalidCredentials
        ↔ backendVerdict env (req.authType.getD "local") (req.username.getD "")
            (req.password.getD "") = Verdict.rejected)
    ∧ ((login env st req).store.accessLogs = st.accessLogs
            ++ [failedLoginEntry req (req.username.getD "") (req.authType.getD "local")]
        ↔ backendVerdict env (req.authType.getD "local") (req.username.getD "")
            (req.password.getD "") = Verdict.rejected) := by
  rcases login_external_cases env st req hu hp hty with
    ⟨hv, hr, hs⟩ | ⟨hv, hr, hs⟩ | ⟨hv, hr, hs⟩
  · have hne : (login env st req).response ≠ invalidCredentials := by
      intro h
      rw [h] at hr
      exact absurd hr (by decide)
    refine ⟨fun _ => ⟨hr, hne, hs⟩, ⟨fun h => absurd h hne, fun h => ?_⟩,
      ⟨fun h => ?_, fun h => ?_⟩⟩
    · rw [hv] at h
      cases h
    · rw [hs] at h
      exact absurd h (logs_ne_append _ _)
    · rw [hv] at h
      cases h
  · refine ⟨fun h => ?_, ⟨fun _ => hv, fun _ => hr⟩, ⟨fun _ => hv, fun _ => hs⟩⟩
    rw [hv] at h
    cases h
  · refine ⟨fun h => ?_, ⟨fun h => absurd h hr, fun h => ?_⟩,
      ⟨fun h => absurd h hs, fun h => ?_⟩⟩
    · rw [hv] at h
      cases h
    · rw [hv] at h
      cases h
    · rw [hv] at h
      cases h

/-- C10, witness: the RADIUS server is unreachable for `dave`. -/
theorem login_backend_failure_witness :
    falsy (some "dave") = false ∧ falsy (some "pw") = false
    ∧ backendVerdict sampleLoginEnv "radius" "dave" "pw" = Verdict.failed
    ∧ (login sampleLoginEnv sampleStore ⟨some "dave", some "pw", some "radius",
        "192.0.2.10"⟩).response.status = 500 :=
  ⟨by decide, by decide, by decide,
   ((login_backend_failure sampleLoginEnv sampleStore
      ⟨some "dave", some "pw", some "radius", "192.0.2.10"⟩
      (by decide) (by decide) (Or.inr (Or.inr rfl))).1 (by decide)).1⟩

/-- C11 (defect of the code).  The claim: in a local login a deactivated user
and a nonexistent user both get `authenticated: false` with the same outward
response.  The `User.findOne` of the local branch throws before the code
looks at the row: the deactivated user `bob` and the unknown user `nobody` are
both answered by the outer `catch` with 500 and `Erro interno do servidor`,
which is neither the bad-credentials response nor a 401. -/
theorem login_inactive_and_missing_answer_500 :
    (findUserByName sampleStore "bob").map (fun u => u.isActive) = some false
    ∧ findUserByName sampleStore "nobody" = none
    ∧ (login sampleLoginEnv sampleStore ⟨some "bob", some "bob123", some "local",
        "192.0.2.10"⟩).response = ⟨500, Body.message "Erro interno do servidor"⟩
    ∧ (login sampleLoginEnv sampleStore ⟨some "nobody", some "bob123", some "local",
        "192.0.2.10"⟩).response = ⟨500, Body.message "Erro interno do servidor"⟩
    ∧ (login sampleLoginEnv sampleStore ⟨some "bob", some "bob123", some "local",
        "192.0.2.10"⟩).response ≠ invalidCredentials
    ∧ (login sampleLoginEnv sampleStore ⟨some "bob", some "bob123", some "local",
        "192.0.2.10"⟩).response.status ≠ 401
    ∧ (login sampleLoginEnv sampleStore ⟨some "bob", some "bob123", some "local",
        "192.0.2.10"⟩).store.accessLogs = sampleStore.accessLogs := by
  decide

/-! ## Claims on the handshake -/

/-- A handshake that is refused leaves the service as it was, but for the
error frame and the close of the socket. -/
theorem reject_fields (w : World) (ws : Nat) (message : String) :
    (w.reject ws message).connections = w.connections
    ∧ (w.reject ws message).accessLogs = w.accessLogs
    ∧ (w.reject ws message).sshConnects = w.sshConnects
    ∧ (w.reject ws message).sent = w.sent ++ [(ws, Frame.error message)]
    ∧ (w.reject ws message).wsClosed = w.wsClosed ++ [ws] :=
  ⟨rfl, rfl, rfl, rfl, rfl⟩

/-- C13.  For every relay handshake with a valid token (present, and
`jwt.verify` accepts it) whose target device exists and reports a status other
than `online`: the relay sends an error frame and closes the channel, opens no
SSH connection, creates no connect audit entry and leaves the connections map
as it was; when the user of the token exists, the error is that the device is
not online. -/
theorem onConnection_device_not_online (env : Env) (w : World) (req : Request) (id : Nat)
    (device : Device) (ht : falsy req.token = false) (hd : falsy req.deviceId = false)
    (hjwt : env.jwtVerify (req.token.getD "") = some id)
    (hdev : env.findDevice (req.deviceId.getD "") = some device)
    (hstatus : device.status ≠ "online") :
    (∃ message, onConnection env w req = w.reject req.ws message
      ∧ ((env.findUser id).isSome = true → message = "O dispositivo não está online"))
    ∧ (onConnection env w req).connections = w.connections
    ∧ (onConnection env w req).accessLogs = w.accessLogs
    ∧ (onConnection env w req).sshConnects = w.sshConnects
    ∧ (∃ message, (onConnection env w req).sent = w.sent ++ [(req.ws, Frame.error message)])
    ∧ (onConnection env w req).wsClosed = w.wsClosed ++ [req.ws] := by
  have key : ∃ message, onConnection env w req = w.reject req.ws message
      ∧ ((env.findUser id).isSome = true → message = "O dispositivo não está online") := by
    unfold onConnection
    simp only [ht, hd, Bool.or_self, Bool.false_eq_true, if_false, hjwt, hdev]
    cases hu : env.findUser id with
    | none => exact ⟨_, rfl, by simp⟩
    | some user =>
      simp only [hstatus, ne_eq, not_false_eq_true, if_true]
      exact ⟨_, rfl, fun _ => rfl⟩
  obtain ⟨message, h, hm⟩ := key
  refine ⟨⟨message, h, hm⟩, ?_⟩
  rw [h]
  exact ⟨rfl, rfl, rfl, ⟨message, rfl⟩, rfl⟩

/-- C13, witness: device 7 is offline. -/
theorem onConnection_device_not_online_witness :
    falsy sampleRequest.token = false ∧ falsy sampleRequest.deviceId = false
    ∧ offlineEnv.jwtVerify "tok" = some 1
    ∧ offlineEnv.findDevice "7" = some offlineDevice
    ∧ offlineDevice.status ≠ "online"
    ∧ (onConnection offlineEnv World.empty sampleRequest).connections = [] :=
  ⟨by decide, by decide, by decide, by decide, by decide,
   (onConnection_device_not_online offlineEnv World.empty sampleRequest 1 offlineDevice
      (by decide) (by decide) (by decide) (by decide) (by decide)).2.1⟩

/-- For the two protocols the checks know, a device that does not support
the requested one is refused: the handshake sends the error and closes the
channel. -/
theorem onConnection_unsupported (env : Env) (w : World) (req : Request) (id : Nat)
    (user : User) (device : Device) (ht : falsy req.token = false)
    (hd : falsy req.deviceId = false)
    (hjwt : env.jwtVerify (req.token.getD "") = some id)
    (huser : env.findUser id = some user)
    (hdev : env.findDevice (req.deviceId.getD "") = some device)
    (hstatus : device.status = "online") :
    (orDefault req.protocol "ssh" = "ssh" → device.supportsSsh = false →
      onConnection env w req = w.reject req.ws "Este dispositivo não suporta SSH")
    ∧ (orDefault req.protocol "ssh" = "telnet" → device.supportsTelnet = false →
      onConnection env w req = w.reject req.ws "Este dispositivo não suporta Telnet") := by
  unfold onConnection
  simp only [ht, hd, Bool.or_self, Bool.false_eq_true, if_false, hjwt, hdev, huser]
  constructor
  · intro hp hs
    simp [hstatus, hp, hs]
  · intro hp hs
    simp [hstatus, hp, hs]

/-- C14 (defect of the code).  The claim: a handshake for a protocol the
device does not advertise ends with an error, a closed channel and no session.
The checks of lines 60-71 only know `ssh` and `telnet`: for the protocol `rdp`,
which device 7 does not advertise, the handshake sends no error, does not
close the channel, records a successful `connect-rdp` entry, opens no
connection and registers the session `1_7_1000` with protocol `rdp`. -/
theorem handshake_registers_unknown_protocol :
    (mapGet (onConnection sampleEnv World.empty rdpRequest).connections "1_7_1000").map
        (fun i => i.protocol) = some "rdp"
    ∧ (onConnection sampleEnv World.empty rdpRequest).sent
        = [(0, Frame.info "Conectando a sw1 (10.0.0.7) via RDP...")]
    ∧ (onConnection sampleEnv World.empty rdpRequest).wsClosed = []
    ∧ (onConnection sampleEnv World.empty rdpRequest).sshConnects = []
    ∧ (onConnection sampleEnv World.empty rdpRequest).accessLogs.map (fun e => e.accessType)
        = ["connect-rdp"] := by
  decide

/-- C15 (defect of the code).  The claim: a handshake whose token belongs to
a deactivated user is rejected.  The handshake only checks that the user
exists (line 47): with the token of the deactivated user `bob` it sends no
error, does not close the channel, opens the SSH connection and registers the
session `2_7_1000`. -/
theorem handshake_accepts_inactive_user :
    inactiveEnv.findUser 2 = some inactiveUser
    ∧ inactiveUser.isActive = false
    ∧ (mapGet (onConnection inactiveEnv World.empty inactiveRequest).connections
        "2_7_1000").map (fun i => i.user.username) = some "bob"
    ∧ (onConnection inactiveEnv World.empty inactiveRequest).wsClosed = []
    ∧ (onConnection inactiveEnv World.empty inactiveRequest).sshConnects
        = [⟨0, "10.0.0.7", 22, "bob"⟩]
    ∧ (onConnection inactiveEnv World.empty inactiveRequest).sent
        = [(0, Frame.info "Conectando a sw1 (10.0.0.7) via SSH...")] := by
  decide

/-! ## Lemmas on the backend services -/

theorem falsy_eq_false_iff (x : Option String) :
    falsy x = false ↔ ∃ v, x = some v ∧ v ≠ "" := by
  cases x with
  | none => simp [falsy]
  | some v => simp [falsy]

theorem getSetting_nil (key : String) : getSetting [] key = none := rfl

/-- A required key without a value keeps the TACACS+ service uninitialized. -/
theorem tacacsInitialize_flag (rows : SettingRows) (s : TacacsService) :
    (tacacsInitialize (some rows) s).1.isInitialized
      = !(remoteRequiredSettings.any (fun k => falsy (getSetting rows k))) := by
  unfold tacacsInitialize
  by_cases h : rows.length = 0
  · have : rows = [] := List.length_eq_zero.mp h
    subst this
    simp [remoteRequiredSettings, getSetting_nil, falsy]
  · simp only [h, if_false]
    split <;> simp_all

/-- A required key without a value keeps the RADIUS service uninitialized. -/
theorem radiusInitialize_flag (rows : SettingRows) (s : RadiusService) :
    (radiusInitialize (some rows) s).1.isInitialized
      = !(remoteRequiredSettings.any (fun k => falsy (getSetting rows k))) := by
  unfold radiusInitialize
  by_cases h : rows.length = 0
  · have : rows = [] := List.length_eq_zero.mp h
    subst this
    simp [remoteRequiredSettings, getSetting_nil, falsy]
  · simp only [h, if_false]
    split <;> simp_all

/-- A required key without a value makes the directory initializer return
before it creates a client or binds. -/
theorem ldapInitialize_incomplete (net : DirectoryNet) (rows : SettingRows) (s : LdapService)
    (h : ldapRequiredSettings.any (fun k => falsy (getSetting rows k)) = true) :
    (ldapInitialize net (some rows) s).service.isInitialized = false
    ∧ (ldapInitialize net (some rows) s).service.client = s.client
    ∧ (ldapInitialize net (some rows) s).outcome = Settlement.resolved false
    ∧ (ldapInitialize net (some rows) s).network = [] := by
  unfold ldapInitialize
  by_cases h0 : rows.length = 0
  · simp [h0]
  · simp [h0, h]

theorem any_of_exists (required : List String) (rows : SettingRows)
    (h : ∃ k ∈ required, falsy (getSetting rows k) = true) :
    required.any (fun k => falsy (getSetting rows k)) = true := by
  obtain ⟨k, hk, hf⟩ := h
  exact List.any_eq_true.mpr ⟨k, hk, hf⟩

/-- The required keys of a remote backend all hold a non-empty value. -/
theorem required_complete_iff (required : List String) (rows : SettingRows) :
    (!(required.any (fun k => falsy (getSetting rows k)))) = true
      ↔ ∀ k ∈ required, ∃ v, getSetting rows k = some v ∧ v ≠ "" := by
  simp only [Bool.not_eq_true', List.any_eq_false, Bool.not_eq_true]
  constructor
  · intro h k hk
    exact (falsy_eq_false_iff _).mp (h k hk)
  · intro h k hk
    exact (falsy_eq_false_iff _).mpr (h k hk)

/-! ## Claims on the backend services -/

/-- C12.  For the TACACS+, the RADIUS and the directory service: when the
service is not initialized and a required setting is missing or empty,
`authenticate` makes no call to a server and its promise rejects with the
error that the service is not initialized, which is not a verdict
`authenticated: false`; `login` answers a backend call that ends so with a
500. -/
theorem authenticate_uninitialized (server : TacacsServer) (events : List UdpEvent)
    (net : DirectoryNet) (rows : SettingRows) (username password : String) :
    (∀ s : TacacsService, s.isInitialized = false →
      (∃ k ∈ remoteRequiredSettings, falsy (getSetting rows k) = true) →
        (tacacsAuthenticate server (some rows) s username password).outcome
          = Settlement.rejected ⟨"Serviço TACACS+ não inicializado", none⟩
        ∧ (tacacsAuthenticate server (some rows) s username password).network = []
        ∧ settlementVerdict (fun v => v.authenticated)
            (tacacsAuthenticate server (some rows) s username password).outcome
          = some Verdict.failed)
    ∧ (∀ s : RadiusService, s.isInitialized = false →
      (∃ k ∈ remoteRequiredSettings, falsy (getSetting rows k) = true) →
        (radiusAuthenticate events (some rows) s username).1.outcome
          = Settlement.rejected ⟨"Serviço RADIUS não inicializado", none⟩
        ∧ (radiusAuthenticate events (some rows) s username).1.network = []
        ∧ settlementVerdict (fun v => v.authenticated)
            (radiusAuthenticate events (some rows) s username).1.outcome
          = some Verdict.failed)
    ∧ (∀ s : LdapService, s.isInitialized = false →
      (∃ k ∈ ldapRequiredSettings, falsy (getSetting rows k) = true) →
        (ldapAuthenticate net (some rows) s username password).outcome
          = Settlement.rejected ⟨"Serviço LDAP não inicializado", none⟩
        ∧ (ldapAuthenticate net (some rows) s username password).network = []
        ∧ settlementVerdict (fun v => v.authenticated)
            (ldapAuthenticate net (some rows) s username password).outcome
          = some Verdict.failed)
    ∧ (∀ (env : LoginEnv) (st : Store) (req : LoginRequest),
        falsy req.username = false → falsy req.password = false →
        (req.authType = some "ldap" ∨ req.authType = some "tacacs"
          ∨ req.authType = some "radius") →
        backendVerdict env (req.authType.getD "local") (req.username.getD "")
          (req.password.getD "") = Verdict.failed →
        (login env st req).response.status = 500) := by
  refine ⟨?_, ?_, ?_, ?_⟩
  · intro s hs hk
    have hflag := tacacsInitialize_flag rows s
    rw [any_of_exists _ _ hk] at hflag
    unfold tacacsAuthenticate
    simp [hs, hflag, settlementVerdict]
  · intro s hs hk
    have hflag := radiusInitialize_flag rows s
    rw [any_of_exists _ _ hk] at hflag
    unfold radiusAuthenticate
    simp [hs, hflag, settlementVerdict]
  · intro s hs hk
    obtain ⟨h1, _, h3, h4⟩ := ldapInitialize_incomplete net rows s (any_of_exists _ _ hk)
    unfold ldapAuthenticate
    simp [hs, h1, h3, h4, settlementVerdict]
  · intro env st req hu hp hty hv
    rcases login_external_cases env st req hu hp hty with
      ⟨_, hr, _⟩ | ⟨hv2, _, _⟩ | ⟨hv2, _, _⟩
    · exact hr
    · rw [hv] at hv2
      cases hv2
    · rw [hv] at hv2
      cases hv2

/-- C12, witness: a RADIUS service that is not initialized, with settings
that lack the shared secret. -/
theorem authenticate_uninitialized_witness :
    (∃ k ∈ remoteRequiredSettings, falsy (getSetting incompleteRows k) = true)
    ∧ (radiusAuthenticate [] (some incompleteRows) ⟨false, []⟩ "alice").1.network = [] :=
  ⟨⟨"sharedSecret", by decide, by decide⟩,
   ((authenticate_uninitialized (fun _ _ _ _ _ => TacacsReply.result true) []
      sampleDirectoryNet incompleteRows "alice" "pw").2.1 ⟨false, []⟩ rfl
      ⟨"sharedSecret", by decide, by decide⟩).2.1⟩

/-- C16.  Required-keys invariant.  For the TACACS+ and the RADIUS service,
after the initializer has run on the rows it loaded, `isInitialized` is true
if and only if the rows hold a non-empty value for each of `serverHost`,
`serverPort` and `sharedSecret` (it is false when the rows cannot be loaded),
and the initializer returns that flag.  For the directory service, rows in
which one of `ldapUrl`, `bindDN`, `bindCredentials`, `searchBase` is missing or
empty leave `isInitialized` false, and no bind is attempted. -/
theorem required_keys_invariant :
    (∀ (rows : SettingRows) (s : TacacsService),
      ((tacacsInitialize (some rows) s).1.isInitialized = true
        ↔ ∀ k ∈ ["serverHost", "serverPort", "sharedSecret"],
            ∃ v, getSetting rows k = some v ∧ v ≠ "")
      ∧ (tacacsInitialize (some rows) s).2 = (tacacsInitialize (some rows) s).1.isInitialized
      ∧ (tacacsInitialize none s).1.isInitialized = false)
    ∧ (∀ (rows : SettingRows) (s : RadiusService),
      ((radiusInitialize (some rows) s).1.isInitialized = true
        ↔ ∀ k ∈ ["serverHost", "serverPort", "sharedSecret"],
            ∃ v, getSetting rows k = some v ∧ v ≠ "")
      ∧ (radiusInitialize (some rows) s).2 = (radiusInitialize (some rows) s).1.isInitialized
      ∧ (radiusInitialize none s).1.isInitialized = false)
    ∧ (∀ (net : DirectoryNet) (rows : SettingRows) (s : LdapService),
      (∃ k ∈ ["ldapUrl", "bindDN", "bindCredentials", "searchBase"],
          ∀ v, getSetting rows k = some v → v = "") →
        (ldapInitialize net (some rows) s).service.isInitialized = false
        ∧ (ldapInitialize net (some rows) s).network = []) := by
  refine ⟨?_, ?_, ?_⟩
  · intro rows s
    refine ⟨?_, ?_, rfl⟩
    · rw [tacacsInitialize_flag]
      exact required_complete_iff _ rows
    · unfold tacacsInitialize
      by_cases h : rows.length = 0
      · simp [h]
      · simp only [h, if_false]
        split <;> rfl
  · intro rows s
    refine ⟨?_, ?_, rfl⟩
    · rw [radiusInitialize_flag]
      exact required_complete_iff _ rows
    · unfold radiusInitialize
      by_cases h : rows.length = 0
      · simp [h]
      · simp only [h, if_false]
        split <;> rfl
  · intro net rows s ⟨k, hk, hv⟩
    have hf : falsy (getSetting rows k) = true := by
      cases hg : getSetting rows k with
      | none => rfl
      | some v => simp [falsy, hv v hg]
    obtain ⟨h1, _, _, h4⟩ :=
      ldapInitialize_incomplete net rows s (any_of_exists ldapRequiredSettings rows ⟨k, hk, hf⟩)
    exact ⟨h1, h4⟩

/-- Every event of the exchange but a datagram that does not decode settles
the promise of `authenticate`: a decoded reply, a socket error, a send error,
the timer and a throw of `client.send`. -/
theorem radiusExchange_settles (username : String) (e : UdpEvent)
    (h : e ≠ UdpEvent.message none) :
    (RadiusExchange.run username [e]).outcome ≠ Settlement.pending := by
  cases e with
  | message decoded =>
    cases decoded with
    | none => exact absurd rfl h
    | some response =>
      by_cases hc : response.code = "Access-Accept" <;>
        simp [RadiusExchange.run, RadiusExchange.step, RadiusExchange.start,
          RadiusExchange.settle, hc]
  | socketError err =>
    simp [RadiusExchange.run, RadiusExchange.step, RadiusExchange.start, RadiusExchange.settle]
  | sendError err =>
    simp [RadiusExchange.run, RadiusExchange.step, RadiusExchange.start, RadiusExchange.settle]
  | timeout =>
    simp [RadiusExchange.run, RadiusExchange.step, RadiusExchange.start, RadiusExchange.settle]
  | sendThrows err =>
    simp [RadiusExchange.run, RadiusExchange.step, RadiusExchange.start, RadiusExchange.settle]

/-- C17 (defect of the code).  The claim: whatever happens on the socket,
RADIUS `authenticate` ends with a verdict or an error and never stays pending
without an armed timer.  The `message` handler clears the timer before it
calls `radius.decode` outside any `try`: when a reply datagram does not decode,
the promise stays pending with the timer cleared and the socket open, and a
timer event can no longer settle it. -/
theorem radius_undecodable_reply_never_settles :
    readyRadius.isInitialized = true
    ∧ (radiusAuthenticate [UdpEvent.message none] none readyRadius "alice").1.outcome
        = Settlement.pending
    ∧ (radiusAuthenticate [UdpEvent.message none] none readyRadius "alice").2
        = some ⟨false, false, Settlement.pending⟩
    ∧ (radiusAuthenticate [UdpEvent.message none, UdpEvent.timeout] none readyRadius
        "alice").1.outcome = Settlement.pending := by
  decide

/-- C18.  On an initialized RADIUS service: for every decoded reply,
`authenticate` resolves with `authenticated: true` when the code of the reply
is `Access-Accept` and with `authenticated: false` for every other code; when
no reply arrives and the timer fires, it rejects with the timeout error. -/
theorem radiusAuthenticate_verdict (found : Option SettingRows) (s : RadiusService)
    (username : String) (reply : RadiusReply) (hs : s.isInitialized = true) :
    (reply.code = "Access-Accept" →
      (radiusAuthenticate [UdpEvent.message (some reply)] found s username).1.outcome
        = Settlement.resolved ⟨true, some username, some reply.attributes⟩)
    ∧ (reply.code ≠ "Access-Accept" →
      (radiusAuthenticate [UdpEvent.message (some reply)] found s username).1.outcome
        = Settlement.resolved ⟨false, none, none⟩)
    ∧ (radiusAuthenticate [UdpEvent.timeout] found s username).1.outcome
        = Settlement.rejected ⟨"Timeout ao aguardar resposta do servidor RADIUS", none⟩ := by
  unfold radiusAuthenticate
  simp only [hs, Bool.not_true, Bool.false_eq_true, if_false]
  refine ⟨fun hc => ?_, fun hc => ?_, ?_⟩
  · simp [RadiusExchange.run, RadiusExchange.step, RadiusExchange.start,
      RadiusExchange.settle, hc]
  · simp [RadiusExchange.run, RadiusExchange.step, RadiusExchange.start,
      RadiusExchange.settle, hc]
  · simp [RadiusExchange.run, RadiusExchange.step, RadiusExchange.start, RadiusExchange.settle]

/-- C18, witness: an `Access-Reject` reply on the initialized service. -/
theorem radiusAuthenticate_verdict_witness :
    readyRadius.isInitialized = true
    ∧ (radiusAuthenticate [UdpEvent.message (some ⟨"Access-Reject", []⟩)] none readyRadius
        "alice").1.outcome = Settlement.resolved ⟨false, none, none⟩ :=
  ⟨by decide,
   (radiusAuthenticate_verdict none readyRadius "alice" ⟨"Access-Reject", []⟩
      (by decide)).2.1 (by decide)⟩

/-- The generic branch of the directory `authenticate` tells an
invalid-credentials error (code 49) on the bind of the principal, which gives
the verdict `authenticated: false`, from every other error, which rejects. -/
theorem ldapAuthenticateGeneric_bind_error (net : DirectoryNet) (s : LdapService)
    (userDN username password : String) (err : ServiceError)
    (h : net.bind (getSetting s.settings "ldapUrl") (some userDN) (some password) = some err) :
    (err.code = some (ErrorCode.number 49) →
      (ldapAuthenticateGeneric net s userDN username password).1
        = Settlement.resolved ⟨false, none⟩)
    ∧ (err.code ≠ some (ErrorCode.number 49) →
      (ldapAuthenticateGeneric net s userDN username password).1 = Settlement.rejected err) := by
  unfold ldapAuthenticateGeneric
  simp only [h]
  constructor
  · intro hc
    simp [hc]
  · intro hc
    simp [hc]

/-- The Active Directory branch of the directory `authenticate` rejects on
every error of `ad.authenticate`, whatever its code. -/
theorem ldapAuthenticateAd_error (net : DirectoryNet) (ad : ActiveDirectory)
    (username password : String) (err : ServiceError)
    (h : net.adAuthenticate ad username password = AdAuthReply.error err) :
    (ldapAuthenticateAd net ad username password).1 = Settlement.rejected err := by
  unfold ldapAuthenticateAd
  simp [h]

/-- C19 (defect of the code).  The claim: under both strategies an
invalid-credentials error of the directory on the bind of the principal gives
the verdict `authenticated: false`.  The Active Directory branch rejects on
every error: for `alice` with a wrong password the directory reports code 49
and `authenticate` rejects with that error, so that `login` answers 500.  The
generic branch, on the same directory, resolves with `authenticated: false`. -/
theorem ad_invalid_credentials_rejects :
    adService.isInitialized = true
    ∧ sampleDirectoryNet.adAuthenticate ⟨some "ldap://ad.example.com", some "dc=example,dc=com",
        some "cn=svc,dc=example,dc=com", some "svc-secret"⟩ "alice" "wrong"
        = AdAuthReply.error ⟨"InvalidCredentialsError", some (ErrorCode.number 49)⟩
    ∧ (ldapAuthenticate sampleDirectoryNet (some adRows) adService "alice" "wrong").outcome
        = Settlement.rejected ⟨"InvalidCredentialsError", some (ErrorCode.number 49)⟩
    ∧ settlementVerdict (fun r => r.authenticated)
        (ldapAuthenticate sampleDirectoryNet (some adRows) adService "alice" "wrong").outcome
        = some Verdict.failed
    ∧ (ldapAuthenticate sampleDirectoryNet (some genericRows)
        (ldapInitialize sampleDirectoryNet (some genericRows) LdapService.fresh).service
        "alice" "wrong").outcome = Settlement.resolved ⟨false, none⟩ := by
  decide

/-- From a service that has no Active Directory client yet, a successful
initialization selects the strategy of the settings just loaded. -/
theorem ldapInitialize_fresh_strategy (net : DirectoryNet) (rows : SettingRows)
    (s : LdapService) (hs : s.ad = none)
    (h : (ldapInitialize net (some rows) s).service.isInitialized = true) :
    ((ldapInitialize net (some rows) s).service.ad.isSome = true
      ↔ getSetting rows "isActiveDirectory" = some "true") := by
  unfold ldapInitialize at h ⊢
  by_cases h0 : rows.length = 0
  · simp [h0] at h
  · by_cases hr : ldapRequiredSettings.any (fun k => falsy (getSetting rows k)) = true
    · simp [h0, hr] at h
    · simp only [h0, hr, if_false, Bool.false_eq_true] at h ⊢
      by_cases hb : net.bind (getSetting rows "ldapUrl") (getSetting rows "bindDN")
          (getSetting rows "bindCredentials") = none
      · by_cases had : getSetting rows "isActiveDirectory" = some "true"
        · simp [hb, had]
        · simp [hb, had, hs]
      · cases hb2 : net.bind (getSetting rows "ldapUrl") (getSetting rows "bindDN")
            (getSetting rows "bindCredentials") with
        | none => exact absurd hb2 hb
        | some err => simp [hb2] at h

/-- C20 (defect of the code).  The claim: after every successful
reinitialization the directory `authenticate` uses the strategy of the
settings just loaded.  The initializer sets `this.ad` when `isActiveDirectory`
is `true` and never clears it: after an initialization with `adRows` and a
successful reinitialization with `genericRows`, whose `isActiveDirectory` is
`false`, the service still holds the Active Directory client of the first
server, and `authenticate` calls that server. -/
theorem reinitialize_keeps_active_directory :
    reconfiguredService.isInitialized = true
    ∧ getSetting reconfiguredService.settings "isActiveDirectory" = some "false"
    ∧ reconfiguredService.ad = some ⟨some "ldap://ad.example.com", some "dc=example,dc=com",
        some "cn=svc,dc=example,dc=com", some "svc-secret"⟩
    ∧ (ldapAuthenticate sampleDirectoryNet (some genericRows) reconfiguredService "alice"
        "alice-pw").network
      = [NetCall.adAuthenticate (some "ldap://ad.example.com") "alice",
         NetCall.adFindUser (some "ldap://ad.example.com") "alice"] := by
  decide

/-! ## Claims on the login, continued -/

/-- C29.  Whenever `login` issues a token, the local user it is minted for is
active: `login` issues no token at all.  For every store, every behaviour of
the backends and every request, the response carries no token, its status is
not 200 and no Redis key is written, because every path to `jwt.sign` passes a
query that includes `Group` with no `as` and throws (line 123 in the local
branch, line 173 after an accepted directory, TACACS+ or RADIUS login). -/
theorem login_issues_no_token (env : LoginEnv) (st : Store) (req : LoginRequest) :
    (login env st req).response.token = none
    ∧ (login env st req).response.status ≠ 200
    ∧ (login env st req).store.redis = st.redis
    ∧ ∀ token userData, (login env st req).response.body = Body.session token userData →
        ∃ user, findUserById (login env st req).store userData.id = some user
          ∧ user.isActive = true := by
  obtain ⟨status, text, hr, hs, hredis⟩ := login_response_message env st req
  refine ⟨?_, ?_, hredis, ?_⟩
  · rw [hr]
    rfl
  · rw [hr]
    exact hs
  · intro token userData h
    rw [hr] at h
    cases h

/-- C29, at the TACACS+ login of the deactivated user `bob`, whom the server
accepts: no token. -/
theorem login_issues_no_token_witness :
    findUserByName sampleStore "bob" = some inactiveUser
    ∧ bobTacacsEnv.tacacsAuthenticate "bob" "bob-tacacs" = Verdict.accepted ()
    ∧ (login bobTacacsEnv sampleStore ⟨some "bob", some "bob-tacacs", some "tacacs",
        "192.0.2.10"⟩).response.token = none :=
  ⟨by decide, by decide,
   (login_issues_no_token bobTacacsEnv sampleStore
      ⟨some "bob", some "bob-tacacs", some "tacacs", "192.0.2.10"⟩).1⟩

/-- The local branch reads nothing of the external backends. -/
theorem loginLocal_backends (env : LoginEnv) (st : Store) (req : LoginRequest)
    (u p authType : String) (ldap : String → String → Verdict DirectoryUser)
    (tacacs radius : String → String → Verdict Unit) :
    loginLocal { env with ldapAuthenticate := ldap, tacacsAuthenticate := tacacs,
                          radiusAuthenticate := radius } st req u p authType
      = loginLocal env st req u p authType := rfl

/-- C30 (defect of the code).  The claim: for every `authType` other than
`ldap`, `tacacs` and `radius`, `login` authenticates against the local
credential store and consults no external backend.  For every such `authType`
(absent, `local` or any other string) `login` calls no external backend and
its result does not depend on what the backends would answer; but with both
fields filled in it is the local branch, whose `User.findOne` throws: the
answer is 500 with `Erro interno do servidor`, whatever the store holds and
whatever `checkPassword` says, and nothing is written. -/
theorem login_default_is_local (env : LoginEnv) (st : Store) (req : LoginRequest)
    (h1 : req.authType ≠ some "ldap") (h2 : req.authType ≠ some "tacacs")
    (h3 : req.authType ≠ some "radius") :
    (login env st req).backendCalls = []
    ∧ (∀ (ldap : String → String → Verdict DirectoryUser)
        (tacacs radius : String → String → Verdict Unit),
        login { env with ldapAuthenticate := ldap, tacacsAuthenticate := tacacs,
                         radiusAuthenticate := radius } st req = login env st req)
    ∧ (falsy req.username = false → falsy req.password = false →
        login env st req = loginLocal env st req (req.username.getD "") (req.password.getD "")
          (req.authType.getD "local")
        ∧ login env st req = ⟨⟨500, Body.message "Erro interno do servidor"⟩, st, []⟩) := by
  have ha : req.authType.getD "local" ≠ "ldap" ∧ req.authType.getD "local" ≠ "tacacs"
      ∧ req.authType.getD "local" ≠ "radius" := by
    cases hty : req.authType with
    | none => simp
    | some a =>
      rw [hty] at h1 h2 h3
      simp only [Option.some.injEq, ne_eq] at h1 h2 h3
      exact ⟨h1, h2, h3⟩
  obtain ⟨a1, a2, a3⟩ := ha
  have hlogin : ∀ e : LoginEnv, login e st req =
      if (falsy req.username || falsy req.password) = true then
        ⟨⟨400, Body.message "Usuário e senha são obrigatórios"⟩, st, []⟩
      else loginLocal e st req (req.username.getD "") (req.password.getD "")
        (req.authType.getD "local") := by
    intro e
    unfold login
    simp only [a1, a2, a3, if_false]
  refine ⟨?_, ?_, ?_⟩
  · rw [hlogin]
    split
    · rfl
    · rw [loginLocal_eq]
  · intro ldap tacacs radius
    rw [hlogin, hlogin, loginLocal_backends]
  · intro hu hp
    have hl : login env st req = loginLocal env st req (req.username.getD "")
        (req.password.getD "") (req.authType.getD "local") := by
      rw [hlogin]
      simp [hu, hp]
    refine ⟨hl, ?_⟩
    rw [hl, loginLocal_eq]
    rfl

/-- C30, witness: the unknown `authType` `kerberos` for `admin`, whose password
`checkPassword` accepts. -/
theorem login_default_is_local_witness :
    (some "kerberos" : Option String) ≠ some "ldap"
    ∧ checkPassword sampleLoginEnv sampleUser "admin123" = true
    ∧ (login sampleLoginEnv sampleStore ⟨some "admin", some "admin123", some "kerberos",
        "192.0.2.10"⟩).backendCalls = []
    ∧ login sampleLoginEnv sampleStore ⟨some "admin", some "admin123", some "kerberos",
        "192.0.2.10"⟩ = ⟨⟨500, Body.message "Erro interno do servidor"⟩, sampleStore, []⟩ :=
  ⟨by decide, by decide,
   (login_default_is_local sampleLoginEnv sampleStore
      ⟨some "admin", some "admin123", some "kerberos", "192.0.2.10"⟩
      (by decide) (by decide) (by decide)).1,
   ((login_default_is_local sampleLoginEnv sampleStore
      ⟨some "admin", some "admin123", some "kerberos", "192.0.2.10"⟩
      (by decide) (by decide) (by decide)).2.2 (by decide) (by decide)).2⟩

/-! ## Lemmas on the probes -/

/-- Once the promise of a probe is resolved, later events do not change it. -/
theorem probe_stays (events : List UdpEvent) (x : ProbeExchange) (r : StatusReport)
    (h : x.outcome = Settlement.resolved r) :
    (events.foldl ProbeExchange.step x).outcome = Settlement.resolved r := by
  induction events generalizing x with
  | nil => exact h
  | cons e rest ih =>
    apply ih
    cases e with
    | message decoded =>
      cases decoded <;> simp [ProbeExchange.step, ProbeExchange.settle, h]
    | socketError err =>
      by_cases hc : err.code = some (ErrorCode.text "ECONNREFUSED") <;>
        simp [ProbeExchange.step, ProbeExchange.settle, h, hc]
    | sendError err => simp [ProbeExchange.step, ProbeExchange.settle, h]
    | timeout =>
      by_cases ht : x.timerArmed = true <;>
        simp [ProbeExchange.step, ProbeExchange.settle, h, ht]
    | sendThrows err => simp [ProbeExchange.step, h]

/-- The first event of a probe decides its report. -/
theorem probe_first (e : UdpEvent) (rest : List UdpEvent) (r : StatusReport)
    (h : (ProbeExchange.step ProbeExchange.start e).outcome = Settlement.resolved r) :
    (ProbeExchange.run (e :: rest)).outcome = Settlement.resolved r := by
  unfold ProbeExchange.run
  rw [List.cons_append, List.foldl_cons]
  exact probe_stays _ _ r h

/-- Every event but a throw of `client.send` resolves a probe that is still
pending. -/
theorem probe_step_resolves (e : UdpEvent) (h : ∀ err, e ≠ UdpEvent.sendThrows err) :
    ∃ r, (ProbeExchange.step ProbeExchange.start e).outcome = Settlement.resolved r := by
  cases e with
  | message decoded =>
    cases decoded <;>
      simp [ProbeExchange.step, ProbeExchange.settle, ProbeExchange.start]
  | socketError err =>
    by_cases hc : err.code = some (ErrorCode.text "ECONNREFUSED") <;>
      simp [ProbeExchange.step, ProbeExchange.settle, ProbeExchange.start, hc]
  | sendError err => simp [ProbeExchange.step, ProbeExchange.settle, ProbeExchange.start]
  | timeout => simp [ProbeExchange.step, ProbeExchange.settle, ProbeExchange.start]
  | sendThrows err => exact absurd rfl (h err)

/-- A RADIUS probe whose `client.send` does not throw resolves. -/
theorem probe_run_resolves (events : List UdpEvent)
    (h : ∀ err, events.head? ≠ some (UdpEvent.sendThrows err)) :
    ∃ r, (ProbeExchange.run events).outcome = Settlement.resolved r := by
  cases events with
  | nil => exact probe_step_resolves UdpEvent.timeout (fun err => by simp)
  | cons e rest =>
    obtain ⟨r, hr⟩ := probe_step_resolves e (fun err he => h err (by rw [he]; rfl))
    exact ⟨r, probe_first e rest r hr⟩

/-- The RADIUS `checkStatus` resolves when `client.send` does not throw. -/
theorem radiusCheckStatus_resolves (events : List UdpEvent) (found : Option SettingRows)
    (s : RadiusService) (h : ∀ err, events.head? ≠ some (UdpEvent.sendThrows err)) :
    ∃ r, (radiusCheckStatus events found s).outcome = Settlement.resolved r := by
  unfold radiusCheckStatus
  simp only
  generalize (if (!s.isInitialized) = true then (radiusInitialize found s).1 else s) = s1
  by_cases h1 : s1.isInitialized = true
  · simp only [h1, Bool.not_true, Bool.false_eq_true, if_false]
    exact probe_run_resolves events h
  · simp only [Bool.not_eq_true] at h1
    simp only [h1, Bool.not_false, if_true]
    exact ⟨_, rfl⟩

/-- The TACACS+ `checkStatus` always resolves. -/
theorem tacacsCheckStatus_resolves (server : TacacsServer) (found : Option SettingRows)
    (s : TacacsService) :
    ∃ r, (tacacsCheckStatus server found s).outcome = Settlement.resolved r := by
  unfold tacacsCheckStatus
  simp only
  generalize (if (!s.isInitialized) = true then (tacacsInitialize found s).1 else s) = s1
  by_cases h : s1.isInitialized = true
  · simp only [h, Bool.not_true, Bool.false_eq_true, if_false]
    exact ⟨_, rfl⟩
  · simp only [Bool.not_eq_true] at h
    simp only [h, Bool.not_false, if_true]
    exact ⟨_, rfl⟩

/-- After the directory initializer, an initialized service has a client. -/
theorem ldapInitialize_client (net : DirectoryNet) (found : Option SettingRows)
    (s : LdapService)
    (h : (ldapInitialize net found s).service.isInitialized = true) :
    (ldapInitialize net found s).service.client.isSome = true := by
  unfold ldapInitialize at h ⊢
  cases found with
  | none => simp at h
  | some rows =>
    by_cases h0 : rows.length = 0
    · simp [h0] at h
    · by_cases hr : ldapRequiredSettings.any (fun k => falsy (getSetting rows k)) = true
      · simp [h0, hr] at h
      · simp only [h0, hr, if_false, Bool.false_eq_true] at h ⊢
        cases hb : net.bind (getSetting rows "ldapUrl") (getSetting rows "bindDN")
            (getSetting rows "bindCredentials") with
        | none =>
          by_cases had : getSetting rows "isActiveDirectory" = some "true" <;> simp [had]
        | some err => simp [hb] at h

/-- The directory initializer resolves or rejects. -/
theorem ldapInitialize_settles (net : DirectoryNet) (found : Option SettingRows)
    (s : LdapService) : (ldapInitialize net found s).outcome ≠ Settlement.pending := by
  unfold ldapInitialize
  cases found with
  | none => simp
  | some rows =>
    by_cases h0 : rows.length = 0
    · simp [h0]
    · by_cases hr : ldapRequiredSettings.any (fun k => falsy (getSetting rows k)) = true
      · simp [h0, hr]
      · simp only [h0, hr, if_false, Bool.false_eq_true]
        cases hb : net.bind (getSetting rows "ldapUrl") (getSetting rows "bindDN")
            (getSetting rows "bindCredentials") <;> simp

/-- The directory `checkStatus` resolves on every service that has a client
whenever it is initialized. -/
theorem ldapCheckStatus_resolves (net : DirectoryNet) (found : Option SettingRows)
    (s : LdapService) (hwf : s.isInitialized = true → s.client.isSome = true) :
    ∃ r, (ldapCheckStatus net found s).outcome = Settlement.resolved r := by
  unfold ldapCheckStatus
  by_cases hs : s.isInitialized = true
  · have hc := hwf hs
    obtain ⟨client, hcl⟩ := Option.isSome_iff_exists.mp hc
    simp only [hs, Bool.not_true, Bool.false_eq_true, if_false, hcl]
    cases net.bind client.url (getSetting s.settings "bindDN")
        (getSetting s.settings "bindCredentials") with
    | some err => exact ⟨_, rfl⟩
    | none =>
      simp only
      cases net.search client (some "") "(objectClass=*)" with
      | error err => exact ⟨_, rfl⟩
      | entries objects failure =>
        cases failure with
        | none => exact ⟨_, rfl⟩
        | some err => exact ⟨_, rfl⟩
  · simp only [Bool.not_eq_true] at hs
    simp only [hs, Bool.not_false, if_true]
    have hset := ldapInitialize_settles net found s
    cases ho : (ldapInitialize net found s).outcome with
    | rejected err => exact ⟨_, rfl⟩
    | pending => exact absurd ho hset
    | resolved b =>
      simp only
      by_cases hi : (ldapInitialize net found s).service.isInitialized = true
      · have hc := ldapInitialize_client net found s hi
        obtain ⟨client, hcl⟩ := Option.isSome_iff_exists.mp hc
        simp only [hi, Bool.not_true, Bool.false_eq_true, if_false, hcl]
        cases net.bind client.url (getSetting (ldapInitialize net found s).service.settings
            "bindDN") (getSetting (ldapInitialize net found s).service.settings
            "bindCredentials") with
        | some err => exact ⟨_, rfl⟩
        | none =>
          simp only
          cases net.search client (some "") "(objectClass=*)" with
          | error err => exact ⟨_, rfl⟩
          | entries objects failure =>
            cases failure with
            | none => exact ⟨_, rfl⟩
            | some err => exact ⟨_, rfl⟩
      · simp only [Bool.not_eq_true] at hi
        simp only [hi, Bool.not_false, if_true]
        exact ⟨_, rfl⟩

/-! ## Claims on the probes, the timeouts and the ports -/

/-- C23.  RADIUS `checkStatus`, on an initialized service, whatever follows
the first event: a reply that decodes (whatever its code) gives `online`; no
reply before the probe timer fires gives `offline`; a socket error with the
code `ECONNREFUSED` gives `offline`; a reply that does not decode gives
`degraded`.  On a service that is and stays uninitialized it gives `offline`
and sends nothing. -/
theorem radiusCheckStatus_mapping (found : Option SettingRows) (s : RadiusService)
    (rest : List UdpEvent) :
    (s.isInitialized = true →
      (∀ reply : RadiusReply,
        (radiusCheckStatus (UdpEvent.message (some reply) :: rest) found s).outcome
          = Settlement.resolved
              ⟨"online", "Servidor RADIUS respondeu com código: " ++ reply.code⟩)
      ∧ (radiusCheckStatus [] found s).outcome
          = Settlement.resolved ⟨"offline", "Servidor RADIUS não está respondendo (timeout)"⟩
      ∧ (∀ err : ServiceError, err.code = some (ErrorCode.text "ECONNREFUSED") →
        (radiusCheckStatus (UdpEvent.socketError err :: rest) found s).outcome
          = Settlement.resolved ⟨"offline", "Conexão recusada pelo servidor RADIUS"⟩)
      ∧ (radiusCheckStatus (UdpEvent.message none :: rest) found s).outcome
          = Settlement.resolved
              ⟨"degraded", "Erro ao decodificar resposta do servidor RADIUS"⟩)
    ∧ (s.isInitialized = false → (radiusInitialize found s).1.isInitialized = false →
      ∀ events, (radiusCheckStatus events found s).outcome
          = Settlement.resolved ⟨"offline", "Serviço RADIUS não inicializado"⟩
        ∧ (radiusCheckStatus events found s).network = []) := by
  constructor
  · intro hs
    have hrun : ∀ events, (radiusCheckStatus events found s).outcome
        = (ProbeExchange.run events).outcome := by
      intro events
      unfold radiusCheckStatus
      simp [hs]
    refine ⟨fun reply => ?_, ?_, fun err hc => ?_, ?_⟩
    · rw [hrun]
      exact probe_first _ _ _ (by simp [ProbeExchange.step, ProbeExchange.settle,
        ProbeExchange.start])
    · rw [hrun]
      simp [ProbeExchange.run, ProbeExchange.step, ProbeExchange.settle, ProbeExchange.start]
    · rw [hrun]
      exact probe_first _ _ _ (by simp [ProbeExchange.step, ProbeExchange.settle,
        ProbeExchange.start, hc])
    · rw [hrun]
      exact probe_first _ _ _ (by simp [ProbeExchange.step, ProbeExchange.settle,
        ProbeExchange.start])
  · intro hs hi events
    unfold radiusCheckStatus
    simp [hs, hi]

/-- C23, witness: an `Access-Reject` reply to the probe of the initialized
service. -/
theorem radiusCheckStatus_mapping_witness :
    readyRadius.isInitialized = true
    ∧ (radiusCheckStatus [UdpEvent.message (some ⟨"Access-Reject", []⟩)] none
        readyRadius).outcome
      = Settlement.resolved ⟨"online", "Servidor RADIUS respondeu com código: Access-Reject"⟩ :=
  ⟨by decide,
   ((radiusCheckStatus_mapping none readyRadius []).1 (by decide)).1 ⟨"Access-Reject", []⟩⟩

/-- C24.  TACACS+ `checkStatus`, on an initialized service: every response of
the server to the probe authentication gives `online`, be it a result
(accepted or rejected) or an error that is neither a timeout nor a refused
connection; an error with the code `ETIMEDOUT` or `ECONNREFUSED` gives
`offline`.  On a service that is and stays uninitialized it gives `offline`
and calls no server. -/
theorem tacacsCheckStatus_mapping (server : TacacsServer) (found : Option SettingRows)
    (s : TacacsService) :
    (s.isInitialized = true →
      ∀ reply, server (getSetting s.settings "serverHost") (getSetting s.settings "serverPort")
          (getSetting s.settings "sharedSecret")
          (orDefault (getSetting s.settings "testUsername") "probe")
          (orDefault (getSetting s.settings "testPassword") "probe123") = reply →
        (∀ isAuthenticated, reply = TacacsReply.result isAuthenticated →
          (tacacsCheckStatus server found s).outcome
            = Settlement.resolved ⟨"online", "Servidor TACACS+ operacional"⟩)
        ∧ (∀ err, reply = TacacsReply.error err →
            err.code ≠ some (ErrorCode.text "ETIMEDOUT") →
            err.code ≠ some (ErrorCode.text "ECONNREFUSED") →
          (tacacsCheckStatus server found s).outcome
            = Settlement.resolved
                ⟨"online", "Servidor TACACS+ respondeu com erro de autenticação (esperado)"⟩)
        ∧ (∀ err, reply = TacacsReply.error err →
            err.code = some (ErrorCode.text "ETIMEDOUT") →
          (tacacsCheckStatus server found s).outcome
            = Settlement.resolved ⟨"offline", "Servidor TACACS+ não está respondendo"⟩)
        ∧ (∀ err, reply = TacacsReply.error err →
            err.code = some (ErrorCode.text "ECONNREFUSED") →
          (tacacsCheckStatus server found s).outcome
            = Settlement.resolved ⟨"offline", "Conexão recusada pelo servidor TACACS+"⟩))
    ∧ (s.isInitialized = false → (tacacsInitialize found s).1.isInitialized = false →
      (tacacsCheckStatus server found s).outcome
          = Settlement.resolved ⟨"offline", "Serviço TACACS+ não inicializado"⟩
        ∧ (tacacsCheckStatus server found s).network = []) := by
  constructor
  · intro hs reply hreply
    unfold tacacsCheckStatus
    simp only [hs, Bool.not_true, Bool.false_eq_true, if_false, hreply]
    refine ⟨fun b hb => ?_, fun err he h1 h2 => ?_, fun err he h1 => ?_, fun err he h2 => ?_⟩
    · simp [hb]
    · simp [he, h1, h2]
    · simp [he, h1]
    · simp [he, h2]
  · intro hs hi
    unfold tacacsCheckStatus
    simp [hs, hi]

/-- C24, witness: the server rejects the probe user. -/
theorem tacacsCheckStatus_mapping_witness :
    (⟨true, radiusRows⟩ : TacacsService).isInitialized = true
    ∧ (tacacsCheckStatus (fun _ _ _ _ _ => TacacsReply.result false) none
        ⟨true, radiusRows⟩).outcome
      = Settlement.resolved ⟨"online", "Servidor TACACS+ operacional"⟩ :=
  ⟨rfl,
   (((tacacsCheckStatus_mapping (fun _ _ _ _ _ => TacacsReply.result false) none
      ⟨true, radiusRows⟩).1 rfl) (TacacsReply.result false) rfl).1 false rfl⟩

/-- When the directory service has a client whenever it is initialized, and
`client.send` of the RADIUS probe takes the port, `checkAuthServices` answers
with three reports, each the report the `checkStatus` of its own backend
resolves with, whatever the probes of the other two backends met. -/
theorem checkAuthServices_reports_sent (env : ProbeEnv) (sv : Services)
    (hwf : sv.ldap.isInitialized = true → sv.ldap.client.isSome = true)
    (hport : radiusSendThrows
      (if !sv.radius.isInitialized then (radiusInitialize env.radiusFound sv.radius).1
        else sv.radius).settings = none)
    (hsent : ∀ err, env.radiusEvents.head? ≠ some (UdpEvent.sendThrows err)) :
    ∃ ldapReport tacacsReport radiusReport,
      (checkAuthServices env sv).2
        = ServicesResponse.statuses ldapReport tacacsReport radiusReport
      ∧ (ldapCheckStatus env.net env.ldapFound sv.ldap).outcome
          = Settlement.resolved ldapReport
      ∧ (tacacsCheckStatus env.tacacsServer env.tacacsFound sv.tacacs).outcome
          = Settlement.resolved tacacsReport
      ∧ (radiusCheckStatus env.radiusEvents env.radiusFound sv.radius).outcome
          = Settlement.resolved radiusReport := by
  obtain ⟨r1, h1⟩ := ldapCheckStatus_resolves env.net env.ldapFound sv.ldap hwf
  obtain ⟨r2, h2⟩ := tacacsCheckStatus_resolves env.tacacsServer env.tacacsFound sv.tacacs
  obtain ⟨r3, h3⟩ := radiusCheckStatus_resolves env.radiusEvents env.radiusFound sv.radius
    hsent
  refine ⟨r1, r2, r3, ?_, h1, h2, h3⟩
  unfold checkAuthServices
  simp only [h1, h2, radiusSocketEvents, hport, h3]

/-- With the directory down, its entry says so and the two other backends
are reported as their probes found them. -/
theorem checkAuthServices_directory_down :
    (checkAuthServices downProbeEnv freshServices).2
      = ServicesResponse.statuses
          ⟨"error", "Erro inesperado: connect ECONNREFUSED"⟩
          ⟨"online", "Servidor TACACS+ operacional"⟩
          ⟨"offline", "Servidor RADIUS não está respondendo (timeout)"⟩ := by
  decide

/-- C25 (defect of the code).  The claim: a failure of the probe of one backend
still yields a response with the statuses of the other backends.  The RADIUS
settings `badPortRows` name every required key, so that the service
initializes, but `client.send` throws at once for the port 99999: the promise
of `checkStatus`, returned without `await`, rejects past the `catch` of the
method, and the one `try` of `checkAuthServices` answers 500.  The reports of
the directory and of the TACACS+ server, both `online`, are lost. -/
theorem checkAuthServices_bad_radius_port :
    radiusInitialize (some badPortRows) ⟨false, []⟩ = (⟨true, badPortRows⟩, true)
    ∧ jsParseInt "99999" = JsNumber.integer false 99999
    ∧ radiusSendThrows badPortRows
        = some ⟨"Port should be > 0 and < 65536", some (ErrorCode.text "ERR_SOCKET_BAD_PORT")⟩
    ∧ (ldapCheckStatus badPortProbeEnv.net badPortProbeEnv.ldapFound
        freshServices.ldap).outcome
        = Settlement.resolved ⟨"online", "Servidor LDAP operacional"⟩
    ∧ (tacacsCheckStatus badPortProbeEnv.tacacsServer badPortProbeEnv.tacacsFound
        freshServices.tacacs).outcome
        = Settlement.resolved ⟨"online", "Servidor TACACS+ operacional"⟩
    ∧ (radiusCheckStatus (radiusSocketEvents badPortRows badPortProbeEnv.radiusEvents)
        badPortProbeEnv.radiusFound freshServices.radius).outcome
        = Settlement.rejected
            ⟨"Port should be > 0 and < 65536", some (ErrorCode.text "ERR_SOCKET_BAD_PORT")⟩
    ∧ (checkAuthServices badPortProbeEnv freshServices).2
        = ServicesResponse.serverError "Erro interno do servidor" := by
  decide

/-- C26 (defect of the code).  The claim: the probes of the TACACS+ and RADIUS
`checkStatus` wait at most 3000 ms.  The client of the TACACS+ probe is made
with the configured timeout, 5000 ms when the setting is unset: against a
server that answers after 4000 ms the probe is still waiting and reports
`online`, it gives up only against a server that takes 6000 ms, and with the
setting at 30000 it waits for an answer that takes 20000 ms.  The RADIUS probe
has its own timer of 3000 ms: a reply after 4000 ms comes too late and the
probe reports `offline`. -/
theorem tacacs_probe_waits_configured_timeout :
    getSetting radiusRows "timeout" = none
    ∧ configuredTimeout radiusRows = JsNumber.integer false 5000
    ∧ (tacacsCheckStatusTimed (answersAfter 4000) none ⟨true, radiusRows⟩).outcome
        = Settlement.resolved ⟨"online", "Servidor TACACS+ operacional"⟩
    ∧ (tacacsCheckStatusTimed (answersAfter 6000) none ⟨true, radiusRows⟩).outcome
        = Settlement.resolved ⟨"offline", "Servidor TACACS+ não está respondendo"⟩
    ∧ (tacacsCheckStatusTimed (answersAfter 20000) none
        ⟨true, radiusRows ++ [("timeout", "30000")]⟩).outcome
        = Settlement.resolved ⟨"online", "Servidor TACACS+ operacional"⟩
    ∧ (radiusCheckStatusTimed [(4000, UdpEvent.message (some ⟨"Access-Reject", []⟩))] none
        readyRadius).outcome
        = Settlement.resolved ⟨"offline", "Servidor RADIUS não está respondendo (timeout)"⟩
    ∧ (radiusCheckStatusTimed [(2000, UdpEvent.message (some ⟨"Access-Reject", []⟩))] none
        readyRadius).outcome
        = Settlement.resolved
            ⟨"online", "Servidor RADIUS respondeu com código: Access-Reject"⟩ := by
  decide

/-! ## Lemmas and claims on the accounting port -/

theorem digitValue_decimal (d : Nat) (h : d < 10) :
    digitValue 10 (Char.ofNat (48 + d)) = some d := by
  interval_cases d <;> decide

theorem parseDigits_decimalFrom : ∀ (fuel n : Nat) (acc : List Char), n < fuel →
    parseDigits 10 (decimalFrom fuel n acc) none = parseDigits 10 acc (some n) := by
  intro fuel
  induction fuel with
  | zero => intro n acc h; omega
  | succ fuel ih =>
    intro n acc h
    unfold decimalFrom
    by_cases h10 : n < 10
    · rw [if_pos h10]
      simp only [parseDigits, digitValue_decimal n h10]
      simp
    · rw [if_neg h10, ih (n / 10) _ (by omega)]
      simp only [parseDigits, digitValue_decimal (n % 10) (Nat.mod_lt _ (by decide))]
      simp only [Option.getD_some]
      congr 2
      omega

theorem decimalFrom_head : ∀ (fuel n : Nat) (acc : List Char), n < fuel → 0 < n →
    ∃ d tail, 1 ≤ d ∧ d ≤ 9 ∧ decimalFrom fuel n acc = Char.ofNat (48 + d) :: tail := by
  intro fuel
  induction fuel with
  | zero => intro n acc h; omega
  | succ fuel ih =>
    intro n acc h hpos
    unfold decimalFrom
    by_cases h10 : n < 10
    · rw [if_pos h10]
      exact ⟨n, acc, hpos, by omega, rfl⟩
    · rw [if_neg h10]
      exact ih (n / 10) _ (by omega) (by omega)

theorem jsParseInt_decimalText (k : Nat) (hpos : 0 < k) (hk : k < 2 ^ 53) :
    jsParseInt (String.mk (decimalText k)) = JsNumber.integer false k := by
  obtain ⟨d, tail, hd1, hd9, hl⟩ := decimalFrom_head (k + 1) k [] (by omega) hpos
  have hparse : parseDigits 10 (decimalText k) none = some k := by
    unfold decimalText
    rw [parseDigits_decimalFrom (k + 1) k [] (by omega)]
    rfl
  have hc : isJsWhitespace (Char.ofNat (48 + d)) = false
      ∧ Char.ofNat (48 + d) ≠ '-' ∧ Char.ofNat (48 + d) ≠ '+'
      ∧ Char.ofNat (48 + d) ≠ '0' := by
    interval_cases d <;> decide
  obtain ⟨hws, hminus, hplus, hzero⟩ := hc
  have htext : decimalText k = Char.ofNat (48 + d) :: tail := hl
  unfold jsParseInt
  simp only
  rw [htext] at hparse ⊢
  have hdrop : List.dropWhile isJsWhitespace (Char.ofNat (48 + d) :: tail)
      = Char.ofNat (48 + d) :: tail := by
    rw [List.dropWhile_cons_of_neg (by simp [hws])]
  rw [hdrop]
  have hhex : (decide ((Char.ofNat (48 + d) :: tail).take 2 = ['0', 'x']
      ∨ (Char.ofNat (48 + d) :: tail).take 2 = ['0', 'X'])) = false := by
    cases tail with
    | nil => simp
    | cons t ts => simp [hzero]
  simp only [List.head?_cons, Option.some.injEq, hminus, hplus, or_self, if_false, hhex,
    Bool.false_eq_true, hparse, decide_False]
  unfold roundToDouble
  rw [if_pos hk]
/-- C27, counterexample.  With no `accountingPort` and the `serverPort`
`1000000000000000000000`, which `parseInt` reads as 10 ^ 21: the sum with 1 is
again 10 ^ 21 on doubles, its text is `1e+21`, and the outer `parseInt` reads
1 in it: accounting requests go to port 1.  With the `serverPort`
`9007199254740992` (2 ^ 53) the port is 2 ^ 53 itself. -/
theorem accountingPort_of_huge_serverPort :
    jsParseInt "1000000000000000000000" = JsNumber.integer false (10 ^ 21)
    ∧ (JsNumber.integer false (10 ^ 21)).addOne = JsNumber.integer false (10 ^ 21)
    ∧ (JsNumber.integer false (10 ^ 21)).toText = "1e+21"
    ∧ accountingPort [("serverHost", "10.0.0.2"), ("serverPort", "1000000000000000000000"),
        ("sharedSecret", "s3cret")] = JsNumber.integer false 1
    ∧ accountingPort [("serverHost", "10.0.0.2"), ("serverPort", "9007199254740992"),
        ("sharedSecret", "s3cret")] = JsNumber.integer false 9007199254740992 := by
  decide

/-- C27, as amended.  For every RADIUS configuration whose `serverPort`
`parseInt` reads as a number `n` that is not negative, with `n + 1` below
2 ^ 53 (every port number is): accounting requests go to port `n + 1` when
`accountingPort` is unset or empty, and to the number `parseInt` reads in
`accountingPort` when it is set. -/
theorem accountingPort_default (settings : SettingRows) (serverPort : String) (n : Nat)
    (hsp : getSetting settings "serverPort" = some serverPort)
    (hn : jsParseInt serverPort = JsNumber.integer false n)
    (hsafe : n + 1 < 2 ^ 53) :
    (falsy (getSetting settings "accountingPort") = true →
        accountingPort settings = JsNumber.integer false (n + 1))
    ∧ (∀ ap, getSetting settings "accountingPort" = some ap → ap ≠ "" →
        accountingPort settings = jsParseInt ap) := by
  unfold accountingPort
  constructor
  · intro h
    have hadd : (JsNumber.integer false n).addOne = JsNumber.integer false (n + 1) := by
      simp only [JsNumber.addOne, roundToDouble, if_pos hsafe]
    have htext : (JsNumber.integer false (n + 1)).toText = String.mk (decimalText (n + 1)) := by
      have h21 : n + 1 < 10 ^ 21 := lt_trans hsafe (by norm_num)
      simp only [JsNumber.toText, Nat.succ_ne_zero, if_false, if_pos h21, List.nil_append,
        Bool.false_eq_true]
    rw [if_pos h, hsp]
    simp only [templateText, Option.getD_some]
    rw [hn, hadd, htext]
    exact jsParseInt_decimalText (n + 1) (by omega) hsafe
  · intro ap hap hne
    simp [hap, falsy, hne]

/-- C27, witness: server port 1812, with no accounting port and with the
accounting port 1646. -/
theorem accountingPort_default_witness :
    getSetting radiusRows "serverPort" = some "1812"
    ∧ jsParseInt "1812" = JsNumber.integer false 1812
    ∧ accountingPort radiusRows = JsNumber.integer false 1813
    ∧ accountingPort (radiusRows ++ [("accountingPort", "1646")])
        = JsNumber.integer false 1646 :=
  ⟨by decide, by decide,
   (accountingPort_default radiusRows "1812" 1812 (by decide) (by decide) (by norm_num)).1
     (by decide),
   ((accountingPort_default (radiusRows ++ [("accountingPort", "1646")]) "1812" 1812
      (by decide) (by decide) (by norm_num)).2 "1646" (by decide) (by decide)).trans
      (by decide)⟩

/-! ## Lemmas and claims on the settings -/

theorem settings_row_unique {db : List Setting} (hwf : SettingsWF db) {a b : Setting}
    (ha : a ∈ db) (hb : b ∈ db) (hc : a.category = b.category) (hk : a.key = b.key) : a = b :=
  List.inj_on_of_nodup_map hwf ha hb (by simp [hc, hk])

theorem findSetting_of_mem {db : List Setting} (hwf : SettingsWF db) {row : Setting}
    (hrow : row ∈ db) : findSetting db row.category row.key = some row := by
  unfold findSetting
  cases h : db.find? (fun s => s.category = row.category ∧ s.key = row.key) with
  | none =>
    rw [List.find?_eq_none] at h
    have := h row hrow
    simp at this
  | some s =>
    have hp := List.find?_some h
    have hm := List.mem_of_find?_eq_some h
    simp only [decide_eq_true_eq] at hp
    rw [settings_row_unique hwf hm hrow hp.1 hp.2]

theorem upsertSetting_same {db : List Setting} (hwf : SettingsWF db) {row : Setting}
    (hrow : row ∈ db) :
    upsertSetting db row.category row.key row.value (some row.description) = db := by
  unfold upsertSetting
  rw [findSetting_of_mem hwf hrow]
  simp only
  conv_rhs => rw [← List.map_id db]
  apply List.map_congr_left
  intro s hs
  by_cases h : s.category = row.category ∧ s.key = row.key
  · rw [if_pos h, settings_row_unique hwf hs hrow h.1 h.2]
    rfl
  · rw [if_neg h]
    rfl

theorem findSetting_upsert_other {db : List Setting} {category key key' v : String}
    {d : Option (Option String)} (h : findSetting db category key = none) (hne : key' ≠ key) :
    findSetting (upsertSetting db category key' v d) category key = none := by
  unfold findSetting at h ⊢
  rw [List.find?_eq_none] at h ⊢
  unfold upsertSetting
  intro x hx
  cases hf : findSetting db category key' with
  | none =>
    rw [hf] at hx
    simp only [List.mem_append, List.mem_singleton] at hx
    rcases hx with hx | hx
    · exact h x hx
    · subst hx
      simp [hne]
  | some cur =>
    rw [hf] at hx
    simp only [List.mem_map] at hx
    obtain ⟨s, hs, rfl⟩ := hx
    by_cases hc : s.category = category ∧ s.key = key'
    · rw [if_pos hc]
      simp only [decide_eq_true_eq, not_and]
      intro _ hk
      exact hne (hc.2.symm.trans hk)
    · rw [if_neg hc]
      exact h s hs

theorem updateLoop_masked_absent (category : String) (item : SettingItem) (post : List SettingItem)
    (hv : item.value = some maskedValue) (hk : item.key ≠ "") :
    ∀ (pre : List SettingItem) (db : List Setting),
      (∀ i ∈ pre, i.key ≠ item.key) → findSetting db category item.key = none →
      ∃ message, updateLoop category (pre ++ item :: post) db = Except.error message := by
  intro pre
  induction pre with
  | nil =>
    intro db _ hf
    simp [updateLoop, hk, hv, hf]
  | cons i pre ih =>
    intro db hpre hf
    have hi : i.key ≠ item.key := hpre i (List.mem_cons_self _ _)
    have hrest : ∀ j ∈ pre, j.key ≠ item.key := fun j hj => hpre j (List.mem_cons_of_mem _ hj)
    rw [List.cons_append, updateLoop]
    by_cases hik : i.key = ""
    · rw [if_pos hik]
      exact ⟨_, rfl⟩
    · rw [if_neg hik]
      by_cases hm : i.value = some maskedValue
      · simp only [if_pos hm]
        cases hcur : findSetting db category i.key with
        | none => exact ⟨_, rfl⟩
        | some cur =>
          simp only
          exact ih _ hrest (findSetting_upsert_other hf hi)
      · simp only [if_neg hm]
        cases hval : i.value with
        | none => exact ⟨_, rfl⟩
        | some v =>
          simp only
          exact ih _ hrest (findSetting_upsert_other hf hi)

theorem processSetting_fields (env : SettingsEnv) (r : Setting) :
    (processSetting env r).key = r.key
      ∧ (processSetting env r).description = some r.description
      ∧ ((processSetting env r).value = some maskedValue
        ∨ (processSetting env r).value = some r.value) := by
  unfold processSetting
  split
  · exact ⟨rfl, rfl, Or.inl rfl⟩
  · exact ⟨rfl, rfl, Or.inr rfl⟩

theorem updateLoop_stored_item (category : String) {db : List Setting} (hwf : SettingsWF db)
    {r : Setting} (hr : r ∈ db) (hc : r.category = category) (hk : r.key ≠ "")
    (item : SettingItem) (rest : List SettingItem) (hkey : item.key = r.key)
    (hdesc : item.description = some r.description)
    (hval : item.value = some maskedValue ∨ item.value = some r.value) :
    updateLoop category (item :: rest) db = updateLoop category rest db := by
  have hfind : findSetting db category item.key = some r := by
    rw [hkey, ← hc]
    exact findSetting_of_mem hwf hr
  have hup : upsertSetting db category item.key r.value item.description = db := by
    rw [hkey, hdesc, ← hc]
    exact upsertSetting_same hwf hr
  have hk2 : item.key ≠ "" := hkey ▸ hk
  rw [updateLoop, if_neg hk2]
  by_cases hm : item.value = some maskedValue
  · simp only [if_pos hm, hfind, hup]
  · have hv : item.value = some r.value := hval.resolve_left hm
    rw [hv] at hm
    simp only [hv, if_neg hm, hup]

theorem updateLoop_round_trip (env : SettingsEnv) (category : String) {db : List Setting}
    (hwf : SettingsWF db) :
    ∀ rows : List Setting, (∀ r ∈ rows, r ∈ db ∧ r.category = category) →
      (updateLoop category (rows.map (processSetting env)) db = Except.ok db
        ∨ (∃ r ∈ rows, r.key = "") ∧
          ∃ message,
            updateLoop category (rows.map (processSetting env)) db = Except.error message) := by
  intro rows
  induction rows with
  | nil => intro _; exact Or.inl rfl
  | cons r rows ih =>
    intro h
    obtain ⟨hr, hc⟩ := h r (List.mem_cons_self _ _)
    have hrest : ∀ x ∈ rows, x ∈ db ∧ x.category = category :=
      fun x hx => h x (List.mem_cons_of_mem _ hx)
    obtain ⟨f1, f2, f3⟩ := processSetting_fields env r
    by_cases hk : r.key = ""
    · refine Or.inr ⟨⟨r, List.mem_cons_self _ _, hk⟩, ?_⟩
      rw [List.map_cons, updateLoop, if_pos (f1.trans hk)]
      exact ⟨_, rfl⟩
    · rw [List.map_cons, updateLoop_stored_item category hwf hr hc hk _ _ f1 f2 f3]
      rcases ih hrest with h1 | ⟨⟨x, hx, hxk⟩, hm⟩
      · exact Or.inl h1
      · exact Or.inr ⟨⟨x, List.mem_cons_of_mem _ hx, hxk⟩, hm⟩

theorem updateSettings_round_trip_db (env : SettingsEnv) (db : List Setting) (category : String)
    (hwf : SettingsWF db) :
    (updateSettings db category (getSettingsByCategory env db category)).db = db
      ∧ ((∀ s ∈ db, s.category = category → s.key ≠ "") →
        (updateSettings db category (getSettingsByCategory env db category)).status = 200) := by
  have hrows : ∀ r ∈ (db.filter (fun s => s.category = category)).insertionSort
      (fun a b => env.keyOrder a.key b.key = true), r ∈ db ∧ r.category = category := by
    intro r hr
    have := ((List.perm_insertionSort _ _).mem_iff).1 hr
    simpa using this
  unfold getSettingsByCategory updateSettings
  rcases updateLoop_round_trip env category hwf _ hrows with h | ⟨⟨x, hx, hxk⟩, m, hm⟩
  · rw [h]
    exact ⟨rfl, fun _ => rfl⟩
  · rw [hm]
    refine ⟨rfl, fun hne => ?_⟩
    exact absurd hxk (hne x (hrows x hx).1 (hrows x hx).2)

theorem updateSettings_masked_absent (db : List Setting) (category : String)
    (pre : List SettingItem) (item : SettingItem) (post : List SettingItem)
    (hv : item.value = some maskedValue) (hk : item.key ≠ "")
    (hpre : ∀ i ∈ pre, i.key ≠ item.key) (hf : findSetting db category item.key = none) :
    (updateSettings db category (pre ++ item :: post)).status = 500
      ∧ (updateSettings db category (pre ++ item :: post)).db = db := by
  obtain ⟨m, hm⟩ := updateLoop_masked_absent category item post hv hk pre db hpre hf
  unfold updateSettings
  rw [hm]
  exact ⟨rfl, rfl⟩

/-- Claim C28. With the unique index on category and key in force, writing the
settings of a category back exactly as `getSettingsByCategory` answered them
(the sensitive values as the mask) leaves the whole table as it was, and the
update succeeds when no stored key of the category is empty; an item whose
value is the mask, for a key that has a stored setting, is written with the
stored value; and a request with a masked item whose key has no stored
setting (and is not created earlier in the same request) is answered 500 and
changes nothing. -/
theorem updateSettings_masked_round_trip (env : SettingsEnv) (db : List Setting)
    (category : String) (hwf : SettingsWF db) :
    (updateSettings db category (getSettingsByCategory env db category)).db = db
      ∧ ((∀ s ∈ db, s.category = category → s.key ≠ "") →
        (updateSettings db category (getSettingsByCategory env db category)).status = 200)
      ∧ (∀ (item : SettingItem) (rest : List SettingItem) (current : Setting),
          item.key ≠ "" → item.value = some maskedValue →
          findSetting db category item.key = some current →
          updateLoop category (item :: rest) db
            = updateLoop category rest
                (upsertSetting db category item.key current.value item.description))
      ∧ (∀ (pre : List SettingItem) (item : SettingItem) (post : List SettingItem),
          item.value = some maskedValue → item.key ≠ "" →
          (∀ i ∈ pre, i.key ≠ item.key) → findSetting db category item.key = none →
          (updateSettings db category (pre ++ item :: post)).status = 500
            ∧ (updateSettings db category (pre ++ item :: post)).db = db) := by
  refine ⟨(updateSettings_round_trip_db env db category hwf).1,
    (updateSettings_round_trip_db env db category hwf).2, ?_, ?_⟩
  · intro item rest current hk hv hf
    rw [updateLoop, if_neg hk]
    simp only [if_pos hv, hf]
  · intro pre item post hv hk hpre hf
    exact updateSettings_masked_absent db category pre item post hv hk hpre hf

/-- Witness for claim C28 on the sample table and the category `radius`. -/
theorem updateSettings_masked_round_trip_witness :
    SettingsWF sampleSettings
      ∧ (updateSettings sampleSettings "radius"
          (getSettingsByCategory sampleSettingsEnv sampleSettings "radius")).db = sampleSettings
      ∧ (updateSettings sampleSettings "radius"
          (getSettingsByCategory sampleSettingsEnv sampleSettings "radius")).status = 200
      ∧ (updateSettings sampleSettings "radius"
          ([] ++ (⟨"newSecret", some maskedValue, none, true⟩ : SettingItem) :: [])).status = 500 :=
  have hwf : SettingsWF sampleSettings := by unfold SettingsWF; decide
  have h := updateSettings_masked_round_trip sampleSettingsEnv sampleSettings "radius" hwf
  ⟨hwf, h.1, h.2.1 (by decide),
    (h.2.2.2 [] ⟨"newSecret", some maskedValue, none, true⟩ [] rfl (by decide)
      (by simp) (by decide)).1⟩

theorem find_append_other (users : List User) (user : User) (n : String)
    (h : user.username ≠ n) :
    (users ++ [user]).find? (fun u => u.username = n) = users.find? (fun u => u.username = n) := by
  rw [List.find?_append]
  have : [user].find? (fun u => decide (u.username = n)) = none := by
    simp [List.find?_cons, h]
  rw [this]
  simp

theorem find_update_key (users : List User) (P : User → Prop) [DecidablePred P]
    (fullName : String) (email : Option String) (act : Option Bool) (n : String) :
    ((users.map fun u => if P u then
        { u with fullName := fullName, email := if email.isSome then email else u.email,
                 isActive := act.getD u.isActive }
        else u).find? (fun u => u.username = n)).map (fun u => u.isLdapUser)
      = (users.find? (fun u => u.username = n)).map (fun u => u.isLdapUser) := by
  induction users with
  | nil => rfl
  | cons u us ih =>
    rw [List.map_cons, List.find?_cons, List.find?_cons]
    by_cases hp : P u
    · rw [if_pos hp]
      by_cases hn : u.username = n
      · simp [hn]
      · simp only [hn, decide_False]
        exact ih
    · rw [if_neg hp]
      by_cases hn : u.username = n
      · simp [hn]
      · simp only [hn, decide_False]
        exact ih

theorem syncUser_key_other (env : SyncEnv) (st : SyncState) (p : SyncPrincipal) (n : String)
    (h : p.username ≠ some n) :
    ((syncUser env st p).users.find? (fun u => u.username = n)).map (fun u => u.isLdapUser)
      = (st.users.find? (fun u => u.username = n)).map (fun u => u.isLdapUser) := by
  unfold syncUser
  cases hp : p.username with
  | none => rfl
  | some m =>
    have hmn : m ≠ n := fun e => h (by rw [hp, e])
    simp only
    split
    · rfl
    · split
      · simp only
        rw [find_append_other _ _ _ hmn]
      · split
        · split
          · rfl
          · simp only
            exact find_update_key _ _ _ _ _ _
        · rfl

theorem syncUser_other (env : SyncEnv) (st : SyncState) (p q : SyncPrincipal)
    (h : q.username ≠ p.username) :
    syncCreates env (syncUser env st p).users q = syncCreates env st.users q
      ∧ syncUpdates env (syncUser env st p).users q = syncUpdates env st.users q := by
  have hs : isLocalShadow (syncUser env st p).users q = isLocalShadow st.users q := by
    unfold isLocalShadow
    cases hq : q.username with
    | none => rfl
    | some n =>
      simp only
      rw [syncUser_key_other env st p n (fun e => h (by rw [hq, e]))]
  have he : existsLocally (syncUser env st p).users q = existsLocally st.users q := by
    unfold existsLocally
    cases hq : q.username with
    | none => rfl
    | some n =>
      simp only
      have := congrArg Option.isSome
        (syncUser_key_other env st p n (fun e => h (by rw [hq, e])))
      simpa using this
  unfold syncCreates syncUpdates syncFails
  rw [hs, he]
  exact ⟨rfl, rfl⟩

theorem syncUser_step (env : SyncEnv) (st : SyncState) (p : SyncPrincipal) :
    (syncUser env st p).synced = st.synced + (if syncCreates env st.users p then 1 else 0)
      ∧ (syncUser env st p).updated
          = st.updated + (if syncUpdates env st.users p then 1 else 0)
      ∧ (syncUser env st p).users.length
          = st.users.length + (if syncCreates env st.users p then 1 else 0) := by
  unfold syncUser syncCreates syncUpdates syncFails isLocalShadow existsLocally
  cases hp : p.username with
  | none => simp
  | some m =>
    simp only
    cases ht : env.findOrCreateThrows p with
    | true => simp
    | false =>
      rcases Option.eq_none_or_eq_some (st.users.find? (fun u => u.username = m)) with
        hf | ⟨user, hf⟩
      · simp [hf]
      · cases hl : user.isLdapUser with
        | false => simp [hf, hl]
        | true =>
          cases hu : env.updateThrows p with
          | true => simp [hf, hl]
          | false => simp [hf, hl]

theorem syncLoop_counts_from (env : SyncEnv) :
    ∀ (ps : List SyncPrincipal) (st : SyncState), (ps.map (fun p => p.username)).Nodup →
      (ps.foldl (syncUser env) st).synced = st.synced + ps.countP (syncCreates env st.users)
        ∧ (ps.foldl (syncUser env) st).updated
            = st.updated + ps.countP (syncUpdates env st.users)
        ∧ (ps.foldl (syncUser env) st).users.length
            = st.users.length + ps.countP (syncCreates env st.users) := by
  intro ps
  induction ps with
  | nil => intro st _; simp
  | cons p ps ih =>
    intro st hnd
    rw [List.map_cons, List.nodup_cons] at hnd
    obtain ⟨hp, hrest⟩ := hnd
    have hother : ∀ q ∈ ps, q.username ≠ p.username := by
      intro q hq e
      exact hp (e ▸ List.mem_map_of_mem (fun p => p.username) hq)
    have hc : ps.countP (syncCreates env (syncUser env st p).users)
        = ps.countP (syncCreates env st.users) :=
      List.countP_congr fun q hq => by rw [(syncUser_other env st p q (hother q hq)).1]
    have hu : ps.countP (syncUpdates env (syncUser env st p).users)
        = ps.countP (syncUpdates env st.users) :=
      List.countP_congr fun q hq => by rw [(syncUser_other env st p q (hother q hq)).2]
    obtain ⟨i1, i2, i3⟩ := ih (syncUser env st p) hrest
    obtain ⟨s1, s2, s3⟩ := syncUser_step env st p
    rw [List.foldl_cons, i1, i2, i3, hc, hu, s1, s2, s3, List.countP_cons, List.countP_cons]
    omega

theorem syncLoop_counts (env : SyncEnv) (users : List User) (ps : List SyncPrincipal)
    (hnd : (ps.map (fun p => p.username)).Nodup) :
    (syncLoop env users ps).synced = ps.countP (syncCreates env users)
      ∧ (syncLoop env users ps).updated = ps.countP (syncUpdates env users)
      ∧ (syncLoop env users ps).users.length
          = users.length + ps.countP (syncCreates env users) := by
  have h := syncLoop_counts_from env ps ⟨users, 0, 0⟩ hnd
  simpa [syncLoop] using h

theorem ldapSyncUsers_enumerated (net : DirectoryNet) (env : SyncEnv)
    (found : Option SettingRows) (s : LdapService) (users : List User)
    (ps : List SyncPrincipal) (hinit : s.isInitialized = true)
    (henum : enumeratedPrincipals net env s = some ps) :
    (ldapSyncUsers net env found s users).outcome
        = Settlement.resolved ⟨(syncLoop env users ps).synced, (syncLoop env users ps).updated,
            ps.length⟩
      ∧ (ldapSyncUsers net env found s users).users = (syncLoop env users ps).users := by
  unfold ldapSyncUsers enumeratedPrincipals at *
  simp only [hinit, Bool.not_true, Bool.false_eq_true, if_false]
  cases had : s.ad with
  | some ad =>
    rw [had] at henum
    simp only at henum ⊢
    cases hr : env.adFindUsers ad (adUserFilter s.settings) with
    | error err => rw [hr] at henum; simp at henum
    | users found =>
      rw [hr] at henum
      cases found with
      | none =>
        simp only [Option.some.injEq] at henum
        subst henum
        exact ⟨rfl, rfl⟩
      | some ldapUsers =>
        simp only [Option.some.injEq] at henum
        subst henum
        simp only
        by_cases hz : ldapUsers.length = 0
        · rw [if_pos hz]
          have : ldapUsers = [] := List.length_eq_zero.1 hz
          subst this
          exact ⟨rfl, rfl⟩
        · rw [if_neg hz]
          simp
  | none =>
    rw [had] at henum
    simp only at henum ⊢
    cases hcl : s.client with
    | none => rw [hcl] at henum; simp at henum
    | some client =>
      rw [hcl] at henum
      simp only at henum ⊢
      cases hr : net.search client (getSetting s.settings "searchBase")
          (genericUserFilter s.settings) with
      | error err => rw [hr] at henum; simp at henum
      | entries objects failure =>
        rw [hr] at henum
        cases failure with
        | some err => simp at henum
        | none =>
          simp only [Option.some.injEq] at henum
          subst henum
          simp

theorem isLocalShadow_exists (users : List User) (p : SyncPrincipal)
    (h : isLocalShadow users p = true) : existsLocally users p = true := by
  unfold isLocalShadow at h
  unfold existsLocally
  cases hp : p.username with
  | none => rw [hp] at h; simp at h
  | some n =>
    rw [hp] at h
    simp only [decide_eq_true_eq] at h ⊢
    rcases Option.eq_none_or_eq_some (users.find? (fun u => u.username = n)) with
      hf | ⟨user, hf⟩
    · rw [hf] at h; simp at h
    · rw [hf]; rfl

theorem syncUpdates_le_existing (env : SyncEnv) (users : List User)
    (ps : List SyncPrincipal) :
    ps.countP (syncUpdates env users) ≤ ps.countP (existsLocally users) := by
  apply List.countP_mono_left
  intro p _ h
  unfold syncUpdates at h
  simp only [Bool.and_eq_true] at h
  exact isLocalShadow_exists users p h.2

theorem syncCreates_without_failure (env : SyncEnv) (users : List User)
    (ps : List SyncPrincipal) (h : ∀ p ∈ ps, syncFails env users p = false) :
    ps.countP (syncCreates env users) = ps.length - ps.countP (existsLocally users) := by
  have h1 : ps.countP (syncCreates env users)
      = ps.countP (fun a => ¬ (existsLocally users a = true)) := by
    apply List.countP_congr
    intro p hp
    unfold syncCreates
    rw [h p hp]
    simp
  have h2 := List.length_eq_countP_add_countP (p := existsLocally users) ps
  rw [h1]
  omega

theorem sync_counts_skip_failure (env : SyncEnv) (users : List User)
    (pre post : List SyncPrincipal) (f : SyncPrincipal)
    (hf : syncFails env users f = true)
    (hnd : ((pre ++ f :: post).map (fun p => p.username)).Nodup) :
    (pre ++ f :: post).countP (syncCreates env users) = (syncLoop env users (pre ++ post)).synced
      ∧ (pre ++ f :: post).countP (syncUpdates env users)
          = (syncLoop env users (pre ++ post)).updated := by
  have hsub : ((pre ++ post).map (fun p => p.username)).Nodup := by
    refine List.Nodup.sublist (List.Sublist.map _ ?_) hnd
    exact List.Sublist.append (List.Sublist.refl pre) (List.sublist_cons_self f post)
  obtain ⟨c1, c2, _⟩ := syncLoop_counts env users (pre ++ post) hsub
  have k1 : syncCreates env users f = false := by unfold syncCreates; rw [hf]; rfl
  have k2 : syncUpdates env users f = false := by unfold syncUpdates; rw [hf]; rfl
  rw [c1, c2]
  simp [List.countP_cons, k1, k2]

/-- Claim C21. For an initialized directory service whose enumeration answers
N principals of distinct names, `syncUsers` resolves with `total` N, `synced`
the number of principals processed without an error that had no local row, and
`updated` the number of those processed without an error whose row was there
as a directory user, which is at most the number M that exist locally; the
table grows by `synced` rows; when no principal fails, `synced` is N - M; and
when a principal fails, `synced` and `updated` are what the loop counts for
the remaining principals alone. -/
theorem syncUsers_counts (net : DirectoryNet) (env : SyncEnv) (found : Option SettingRows)
    (s : LdapService) (users : List User) (ps : List SyncPrincipal)
    (hinit : s.isInitialized = true) (henum : enumeratedPrincipals net env s = some ps)
    (hnames : (ps.map (fun p => p.username)).Nodup) :
    (ldapSyncUsers net env found s users).outcome
        = Settlement.resolved ⟨ps.countP (syncCreates env users),
            ps.countP (syncUpdates env users), ps.length⟩
      ∧ ps.countP (syncUpdates env users) ≤ ps.countP (existsLocally users)
      ∧ (ldapSyncUsers net env found s users).users.length
          = users.length + ps.countP (syncCreates env users)
      ∧ ((∀ p ∈ ps, syncFails env users p = false) →
          ps.countP (syncCreates env users) = ps.length - ps.countP (existsLocally users))
      ∧ (∀ (pre post : List SyncPrincipal) (f : SyncPrincipal), ps = pre ++ f :: post →
          syncFails env users f = true →
          ps.countP (syncCreates env users) = (syncLoop env users (pre ++ post)).synced
            ∧ ps.countP (syncUpdates env users) = (syncLoop env users (pre ++ post)).updated) := by
  obtain ⟨e1, e2⟩ := ldapSyncUsers_enumerated net env found s users ps hinit henum
  obtain ⟨c1, c2, c3⟩ := syncLoop_counts env users ps hnames
  refine ⟨?_, syncUpdates_le_existing env users ps, ?_,
    syncCreates_without_failure env users ps, ?_⟩
  · rw [e1, c1, c2]
  · rw [e2, c3]
  · intro pre post f hps hf
    subst hps
    exact sync_counts_skip_failure env users pre post f hf hnames

/-- Witness for claim C21: the sample directory of five principals, three of
which exist locally, and one of which the database refuses. -/
theorem syncUsers_counts_witness :
    adService.isInitialized = true
      ∧ (ldapSyncUsers sampleDirectoryNet sampleSyncEnv none adService syncedUsers).outcome
          = Settlement.resolved
            ⟨(syncDirectory.map adPrincipal).countP (syncCreates sampleSyncEnv syncedUsers),
              (syncDirectory.map adPrincipal).countP (syncUpdates sampleSyncEnv syncedUsers),
              (syncDirectory.map adPrincipal).length⟩
      ∧ (ldapSyncUsers sampleDirectoryNet sampleSyncEnv none adService syncedUsers).outcome
          = Settlement.resolved ⟨1, 2, 5⟩ :=
  ⟨by decide,
    (syncUsers_counts sampleDirectoryNet sampleSyncEnv none adService syncedUsers
      (syncDirectory.map adPrincipal) (by decide) (by decide) (by decide)).1,
    by decide⟩

/-- Claim C22, counterexample. The directory lists `erin` with the attributes
her local row already has: the table is left as it was, and `updated` is 1. -/
theorem sync_counts_unchanged_record :
    attributesDiffer syncedUsers
        (adPrincipal ⟨some "erin", some "Erin", some "E", some "erin@example.com", none,
          some 512⟩) = false
      ∧ (ldapSyncUsers sampleDirectoryNet unchangedSyncEnv none adService syncedUsers).users
          = syncedUsers
      ∧ (ldapSyncUsers sampleDirectoryNet unchangedSyncEnv none adService syncedUsers).outcome
          = Settlement.resolved ⟨0, 1, 1⟩ := by
  decide

/-- Claim C22, as the code has it. For an initialized directory service whose
enumeration answers principals of distinct names, `updated` is the number of
principals processed without an error whose local row was there as a directory
user, whether or not the attributes differ from the stored ones; the number of
those whose attributes differ is a lower bound of it. -/
theorem syncUsers_updated_counts_writes (net : DirectoryNet) (env : SyncEnv)
    (found : Option SettingRows) (s : LdapService) (users : List User)
    (ps : List SyncPrincipal) (hinit : s.isInitialized = true)
    (henum : enumeratedPrincipals net env s = some ps)
    (hnames : (ps.map (fun p => p.username)).Nodup) :
    ∃ counts, (ldapSyncUsers net env found s users).outcome = Settlement.resolved counts
      ∧ counts.updated
          = ps.countP (fun p => !syncFails env users p && isLocalShadow users p)
      ∧ ps.countP (fun p => !syncFails env users p && isLocalShadow users p
            && attributesDiffer users p) ≤ counts.updated := by
  obtain ⟨e1, _⟩ := ldapSyncUsers_enumerated net env found s users ps hinit henum
  obtain ⟨_, c2, _⟩ := syncLoop_counts env users ps hnames
  refine ⟨_, e1, ?_, ?_⟩
  · rw [c2]
    rfl
  · rw [c2]
    apply List.countP_mono_left
    intro p _ h
    simp only [Bool.and_eq_true] at h
    unfold syncUpdates
    simp only [Bool.and_eq_true]
    exact h.1

/-- Witness for claim C22 on the sample directory. -/
theorem syncUsers_updated_counts_writes_witness :
    adService.isInitialized = true
      ∧ ∃ counts,
        (ldapSyncUsers sampleDirectoryNet sampleSyncEnv none adService syncedUsers).outcome
            = Settlement.resolved counts
          ∧ counts.updated = (syncDirectory.map adPrincipal).countP
              (fun p => !syncFails sampleSyncEnv syncedUsers p && isLocalShadow syncedUsers p) :=
  have h := syncUsers_updated_counts_writes sampleDirectoryNet sampleSyncEnv none adService
    syncedUsers (syncDirectory.map adPrincipal) (by decide) (by decide) (by decide)
  ⟨by decide, h.choose, h.choose_spec.1, h.choose_spec.2.1⟩

end ProxiMO
